import Mathlib

/-!
# appleseed: emitting shapes, light samplers and intersection trees

A shallow embedding of `renderer/kernel/lighting/lighttypes.{h,cpp}`, of the
two spherical samplers of `foundation/math/sampling`, of the forward and
backward light samplers, of `renderer/kernel/intersection/patchkey.h` and
`patchtree.{h,cpp}`, of `foundation/array/io.cpp` and of `mesh2mesh`
(`renderer/modeling/object/meshobjectoperations.cpp`), followed by theorems
about them.

Conventions of the embedding.

* `float` and `double` are both read as exact real numbers, so every
  `static_cast` between them is the identity; the one place where the narrowing
  decides a branch, the area of a sphere or a rectangle shape, has a second
  embedding with the narrowing as a parameter (`create_sphere_shape_float`,
  `create_rect_shape_float`).  `std::sqrt`, `std::acos`,
  `std::sin`, `std::cos` are `Real.sqrt`, `Real.arccos`, `Real.sin`, `Real.cos`;
  these are total (square root of a negative number is `0`, `x / 0 = 0`) where
  the C++ functions produce NaN or infinity.
* Pointers (`AssemblyInstance*`, `Material*`) are natural numbers.
* A constructor that leaves members unassigned is a function of the storage it
  constructs into: the unassigned members keep the value the storage held.
* An `assert(false)` path is the result `none`.
* Routines of `foundation` whose source is not available are the fields of
  `Foundation`, a parameter of the functions that call them; in the same way
  the routines of `bvh.h`, `paramarray.h` and `z85.h` are the fields of `Bvh`,
  `ParamArray` and `Z85`.
* Unsigned integers are natural numbers, a conversion to a narrower type is
  the remainder modulo `2 ^ width`; a string or a block of memory is the list
  of its bytes.
* A thrown exception is the result `Except.error`.
-/

noncomputable section

namespace Appleseed

/-! ## Vectors (foundation/math/vector.h) -/

/-- Modelled from the spec: `foundation/math/vector.h` is not among the sources;
`Vector3d` is a triple of scalars with the usual componentwise operations. -/
@[ext] structure Vector3d where
  x : ℝ
  y : ℝ
  z : ℝ

/-- Modelled from the spec: a pair of scalars, `s[0]` is `x` and `s[1]` is `y`
(stands for both `Vector2f` and `Vector2d`). -/
@[ext] structure Vector2d where
  x : ℝ
  y : ℝ

namespace Vector3d

instance : Add Vector3d := ⟨fun a b => ⟨a.x + b.x, a.y + b.y, a.z + b.z⟩⟩

instance : Sub Vector3d := ⟨fun a b => ⟨a.x - b.x, a.y - b.y, a.z - b.z⟩⟩

instance : Neg Vector3d := ⟨fun a => ⟨-a.x, -a.y, -a.z⟩⟩

instance : Zero Vector3d := ⟨⟨0, 0, 0⟩⟩

/-- Scalar times vector, `a * v` and `v * a` of the source. -/
instance : SMul ℝ Vector3d := ⟨fun a v => ⟨a * v.x, a * v.y, a * v.z⟩⟩

/-- Vector divided by a scalar, `v / a` and `v /= a` of the source. -/
instance : HDiv Vector3d ℝ Vector3d := ⟨fun v a => ⟨v.x / a, v.y / a, v.z / a⟩⟩

end Vector3d

/-- Modelled from the spec: `square(x)` of `foundation/math/scalar.h`. -/
def square (x : ℝ) : ℝ := x * x

/-- Modelled from the spec: `lerp(a, b, t)` of `foundation/math/scalar.h`. -/
def lerp (a b t : ℝ) : ℝ := (1 - t) * a + t * b

/-- Modelled from the spec: `std::copysign(1.0, x)`, the number one with the sign of `x`. -/
def copysign_one (x : ℝ) : ℝ := if x < 0 then -1 else 1

/-- Modelled from the spec: dot product of `foundation/math/vector.h`. -/
def dot (a b : Vector3d) : ℝ := a.x * b.x + a.y * b.y + a.z * b.z

/-- Modelled from the spec: cross product of `foundation/math/vector.h`. -/
def cross (a b : Vector3d) : Vector3d :=
  ⟨a.y * b.z - a.z * b.y, a.z * b.x - a.x * b.z, a.x * b.y - a.y * b.x⟩

/-- Modelled from the spec: Euclidean norm of `foundation/math/vector.h`. -/
def norm (v : Vector3d) : ℝ := Real.sqrt (dot v v)

/-- Modelled from the spec: `normalize(v)` is `v / norm(v)`. -/
def normalize (v : Vector3d) : Vector3d := v / norm v

/-- Modelled from the spec: `square_distance(a, b)` of `foundation/math/distance.h`. -/
def square_distance (a b : Vector3d) : ℝ := dot (b - a) (b - a)

/-- Modelled from the spec: `foundation/math/ray.h` is not among the sources; a ray
built by `Ray(org, dir)` has the parameter range `[0, max)`. -/
structure Ray where
  m_org : Vector3d
  m_dir : Vector3d

/-- Modelled from the spec: `Ray::point_at(t)`, the point at ray parameter `t`. -/
def Ray.point_at (ray : Ray) (t : ℝ) : Vector3d := ray.m_org + t • ray.m_dir

/-- The three outputs `t, u, v` of a successful ray/shape intersection. -/
structure Hit where
  t : ℝ
  u : ℝ
  v : ℝ

/-- Routines of `foundation` that the lighting code calls and whose source is
not available.  An intersection routine returns `none` for `false`. -/
structure Foundation where
  /-- Stands for `TriangleMT<double>(v0, v1, v2).intersect(ray, t, u, v)`. -/
  triangle_intersect : Vector3d → Vector3d → Vector3d → Ray → Option Hit
  /-- Stands for `intersect_parallelogram(ray, corner, x, y, n, t, u, v)`. -/
  intersect_parallelogram : Ray → Vector3d → Vector3d → Vector3d → Vector3d → Option Hit
  /-- Stands for `sample_triangle_uniform(s)`, barycentric coordinates. -/
  sample_triangle_uniform : Vector2d → Vector3d
  /-- Stands for `sample_sphere_uniform(s)`, a point of the unit sphere. -/
  sample_sphere_uniform : Vector2d → Vector3d
  /-- Stands for `Basis3d(w).get_tangent_u()`. -/
  basis_tangent_u : Vector3d → Vector3d
  /-- Stands for `Basis3d(w).get_tangent_v()`. -/
  basis_tangent_v : Vector3d → Vector3d
  /-- Stands for `Vector3d::make_unit_vector(theta, phi)`. -/
  make_unit_vector : ℝ → ℝ → Vector3d

/-! ## SphericalTriangleSampler (sphericaltrianglesampler.h) -/

structure SphericalTriangleSampler where
  m_A : Vector3d
  m_B : Vector3d
  m_C : Vector3d
  m_alpha : ℝ
  m_beta : ℝ
  m_gamma : ℝ
  m_sr : ℝ

namespace SphericalTriangleSampler

/-- The constructor `SphericalTriangleSampler(a, b, c, o)`. -/
def create (a b c o : Vector3d) : SphericalTriangleSampler :=
  let m_A := normalize (a - o)
  let m_B := normalize (b - o)
  let m_C := normalize (c - o)
  let nAB := normalize (cross m_A m_B)
  let nBC := normalize (cross m_B m_C)
  let nCA := normalize (cross m_C m_A)
  let m_alpha := Real.arccos (dot (-nAB) nCA)
  let m_beta := Real.arccos (dot (-nBC) nAB)
  let m_gamma := Real.arccos (dot (-nCA) nBC)
  { m_A := m_A, m_B := m_B, m_C := m_C,
    m_alpha := m_alpha, m_beta := m_beta, m_gamma := m_gamma,
    m_sr := m_alpha + m_beta + m_gamma - Real.pi }

def solid_angle (self : SphericalTriangleSampler) : ℝ := self.m_sr

def ortho_vector (x y : Vector3d) : Vector3d := normalize (x - dot x y • y)

def sample (self : SphericalTriangleSampler) (s : Vector2d) : Vector3d :=
  let m_area := self.m_sr * s.x
  let phi := m_area - self.m_alpha
  let sin_phi := Real.sin phi
  let cos_phi := Real.cos phi
  let cos_c := dot self.m_A self.m_B
  let sin_alpha := Real.sin self.m_alpha
  let cos_alpha := Real.cos self.m_alpha
  let u := cos_phi - cos_alpha
  let v := sin_phi + sin_alpha * cos_c
  let cos_b_hat :=
    ((v * cos_phi - u * sin_phi) * cos_alpha - v) /
    ((v * sin_phi + u * cos_phi) * sin_alpha)
  let C_hat :=
    cos_b_hat • self.m_A + Real.sqrt (1 - square cos_b_hat) • ortho_vector self.m_C self.m_A
  let cos_theta := 1 - s.y * (1 - dot C_hat self.m_B)
  let P :=
    cos_theta • self.m_B +
    Real.sqrt (max (1 - square cos_theta) 0) • ortho_vector C_hat self.m_B
  P

end SphericalTriangleSampler

/-! ## SphericalRectangleSampler (sphericalrectanglesampler.h) -/

structure SphericalRectangleSampler where
  m_x : Vector3d
  m_y : Vector3d
  m_z : Vector3d
  m_o : Vector3d
  m_y0 : ℝ
  m_y1 : ℝ
  m_z0 : ℝ
  m_z0z0 : ℝ
  m_y0y0 : ℝ
  m_y1y1 : ℝ
  m_sr : ℝ
  m_n0 : Vector3d
  m_n1 : Vector3d
  m_n2 : Vector3d
  m_n3 : Vector3d
  m_g0 : ℝ
  m_g1 : ℝ
  m_g2 : ℝ
  m_g3 : ℝ

namespace SphericalRectangleSampler

def safe_sqrt (x : ℝ) : ℝ := Real.sqrt (max x 0)

/-- The constructor `SphericalRectangleSampler(origin, x, y, n, o)`. -/
def create (origin x y n o : Vector3d) : SphericalRectangleSampler :=
  let d := origin - o
  let ex_len := norm x
  let x0 := dot d x
  let x1 := x0 + ex_len
  let ey_len := norm y
  let m_y0 := dot d y
  let m_y1 := m_y0 + ey_len
  let z0 := dot d n
  -- z flip
  let m_z0 := if z0 > 0 then z0 * (-1) else z0
  let m_z := if z0 > 0 then (-1 : ℝ) • n else n
  let n0 : Vector3d := ⟨0, m_z0, -m_y0⟩
  let n1 : Vector3d := ⟨-m_z0, 0, x1⟩
  let n2 : Vector3d := ⟨0, -m_z0, m_y1⟩
  let n3 : Vector3d := ⟨m_z0, 0, -x0⟩
  let m_y0y0 := square m_y0
  let m_y1y1 := square m_y1
  let m_z0z0 := square m_z0
  let m_n0 : Vector3d := { n0 with z := n0.z / Real.sqrt (m_z0z0 + m_y0y0) }
  let m_n1 : Vector3d := { n1 with z := n1.z / Real.sqrt (m_z0z0 + square x1) }
  let m_n2 : Vector3d := { n2 with z := n2.z / Real.sqrt (m_z0z0 + m_y1y1) }
  let m_n3 : Vector3d := { n3 with z := n3.z / Real.sqrt (m_z0z0 + square x0) }
  let m_g0 := Real.arccos (-m_n0.z * m_n1.z)
  let m_g1 := Real.arccos (-m_n1.z * m_n2.z)
  let m_g2 := Real.arccos (-m_n2.z * m_n3.z)
  let m_g3 := Real.arccos (-m_n3.z * m_n0.z)
  { m_x := x, m_y := y, m_z := m_z, m_o := o,
    m_y0 := m_y0, m_y1 := m_y1, m_z0 := m_z0,
    m_z0z0 := m_z0z0, m_y0y0 := m_y0y0, m_y1y1 := m_y1y1,
    m_sr := m_g0 + m_g1 + m_g2 + m_g3 - 2 * Real.pi,
    m_n0 := m_n0, m_n1 := m_n1, m_n2 := m_n2, m_n3 := m_n3,
    m_g0 := m_g0, m_g1 := m_g1, m_g2 := m_g2, m_g3 := m_g3 }

def solid_angle (self : SphericalRectangleSampler) : ℝ := self.m_sr

def sample (self : SphericalRectangleSampler) (s : Vector2d) : Vector3d :=
  let phi_u := s.x * self.m_sr - self.m_g2 - self.m_g3 + 2 * Real.pi
  let b0 := self.m_n0.z
  let b1 := self.m_n2.z
  let fu := (Real.cos phi_u * b0 - b1) / Real.sin phi_u
  let cu := copysign_one fu / Real.sqrt (square fu + square b0)
  let xu := -cu * self.m_z0 / safe_sqrt (1 - square cu)
  let d := Real.sqrt (square xu + self.m_z0z0)
  let d2 := square d
  let h0 := self.m_y0 / Real.sqrt (d2 + self.m_y0y0)
  let h1 := self.m_y1 / Real.sqrt (d2 + self.m_y1y1)
  let hv := lerp h0 h1 s.y
  let yv := hv * d / safe_sqrt (1 - square hv)
  self.m_o + xu • self.m_x + yv • self.m_y + self.m_z0 • self.m_z

end SphericalRectangleSampler

/-! ## EmittingShape (lighttypes.h, lighttypes.cpp) -/

inductive ShapeType where
  | DiskShape
  | TriangleShape
  | SphereShape
  | RectShape
  deriving DecidableEq

structure Triangle where
  m_v0 : Vector3d
  m_v1 : Vector3d
  m_v2 : Vector3d
  m_n0 : Vector3d
  m_n1 : Vector3d
  m_n2 : Vector3d
  m_geometric_normal : Vector3d
  m_plane_dist : ℝ

structure Sphere where
  m_center : Vector3d
  m_radius : ℝ

structure Rect where
  m_origin : Vector3d
  m_x : Vector3d
  m_y : Vector3d
  m_width : ℝ
  m_height : ℝ
  m_geometric_normal : Vector3d
  m_plane_dist : ℝ

/-- The union `Geom`.  Every function reads only the member that the shape type
selects and every factory writes exactly that member, so the members are kept
side by side; `m_disk` is never read or written by the code in scope. -/
structure Geom where
  m_triangle : Triangle
  m_sphere : Sphere
  m_rect : Rect

/-- The class `EmittingShape`.  The stamped pointer `m_assembly_instance_and_type`
is the pair of `m_assembly_instance` and `m_shape_type`. -/
structure EmittingShape where
  m_assembly_instance : Nat
  m_shape_type : ShapeType
  m_object_instance_index : Nat
  m_primitive_index : Nat
  m_geom : Geom
  m_shape_support_plane : Nat
  m_area : ℝ
  m_rcp_area : ℝ
  m_shape_prob : ℝ
  m_average_radiance : ℝ
  m_material : Nat

/-- Modelled from the spec: `lightsample.h` is not among the sources; a light
sample holds the sampled point, the shading and geometric normals, the
parametric coordinates, the owning shape (absent for a non-physical light),
the probability density and the light. -/
structure LightSample where
  m_point : Vector3d
  m_shading_normal : Vector3d
  m_geometric_normal : Vector3d
  m_bary : Vector2d
  m_shape : Option EmittingShape
  m_probability : ℝ
  m_light : Option Nat

/-- Modelled from the spec: of `ShadingPoint` only `get_point()` is used here. -/
structure ShadingPoint where
  m_point : Vector3d

def ShadingPoint.get_point (shading_point : ShadingPoint) : Vector3d := shading_point.m_point

/-- The two members that the template `signed_plane_distance` reads of its `Shape`. -/
class PlanarShape (Shape : Type) where
  m_geometric_normal : Shape → Vector3d
  m_plane_dist : Shape → ℝ

instance : PlanarShape Triangle := ⟨Triangle.m_geometric_normal, Triangle.m_plane_dist⟩

instance : PlanarShape Rect := ⟨Rect.m_geometric_normal, Rect.m_plane_dist⟩

def signed_plane_distance {Shape : Type} [PlanarShape Shape] (shape : Shape) (p : Vector3d) : ℝ :=
  dot p (PlanarShape.m_geometric_normal shape) + PlanarShape.m_plane_dist shape

namespace EmittingShape

/-- The private constructor, run on the storage `mem`.  It assigns the stamped
pointer, the two indices, the material, `m_shape_prob` and `m_average_radiance`;
`m_geom`, `m_shape_support_plane`, `m_area` and `m_rcp_area` are not assigned. -/
def ctor (mem : EmittingShape) (shape_type : ShapeType) (assembly_instance : Nat)
    (object_instance_index primitive_index : Nat) (material : Nat) : EmittingShape :=
  { mem with
    m_assembly_instance := assembly_instance
    m_shape_type := shape_type
    m_object_instance_index := object_instance_index
    m_primitive_index := primitive_index
    m_material := material
    m_shape_prob := 0
    m_average_radiance := 1 }

def create_triangle_shape (mem : EmittingShape) (assembly_instance : Nat)
    (object_instance_index primitive_index : Nat) (material : Nat)
    (v0 v1 v2 n0 n1 n2 geometric_normal : Vector3d) : EmittingShape :=
  let shape := ctor mem ShapeType.TriangleShape assembly_instance object_instance_index
    primitive_index material
  { shape with
    m_geom := { shape.m_geom with
      m_triangle :=
        { m_v0 := v0, m_v1 := v1, m_v2 := v2, m_n0 := n0, m_n1 := n1, m_n2 := n2,
          m_geometric_normal := geometric_normal,
          m_plane_dist := -dot v0 geometric_normal } } }

/-- The factory `create_sphere_shape`, with the conversion `static_cast<float>` of the
area read as the identity; `create_sphere_shape_float` has the conversion explicit. -/
def create_sphere_shape (mem : EmittingShape) (assembly_instance : Nat)
    (object_instance_index : Nat) (material : Nat)
    (center : Vector3d) (radius : ℝ) : EmittingShape :=
  let shape := ctor mem ShapeType.SphereShape assembly_instance object_instance_index 0 material
  let shape := { shape with
    m_geom := { shape.m_geom with m_sphere := { m_center := center, m_radius := radius } } }
  let shape := { shape with m_area := 4 * Real.pi * square radius }
  if shape.m_area ≠ 0 then { shape with m_rcp_area := 1 / shape.m_area } else shape

/-- The factory `create_rect_shape`, with the conversion `static_cast<float>` of the
area read as the identity; `create_rect_shape_float` has the conversion explicit. -/
def create_rect_shape (mem : EmittingShape) (assembly_instance : Nat)
    (object_instance_index : Nat) (material : Nat)
    (p x y n : Vector3d) : EmittingShape :=
  let shape := ctor mem ShapeType.RectShape assembly_instance object_instance_index 0 material
  let shape := { shape with
    m_geom := { shape.m_geom with
      m_rect :=
        { m_origin := p, m_x := x, m_y := y, m_width := norm x, m_height := norm y,
          m_geometric_normal := n, m_plane_dist := -dot p n } } }
  let shape := { shape with
    m_area := shape.m_geom.m_rect.m_width * shape.m_geom.m_rect.m_height }
  if shape.m_area ≠ 0 then { shape with m_rcp_area := 1 / shape.m_area } else shape

def get_shape_type (self : EmittingShape) : ShapeType := self.m_shape_type

def get_assembly_instance (self : EmittingShape) : Nat := self.m_assembly_instance

def get_primitive_index (self : EmittingShape) : Nat := self.m_primitive_index

def get_object_instance_index (self : EmittingShape) : Nat := self.m_object_instance_index

def get_area (self : EmittingShape) : ℝ := self.m_area

def get_rcp_area (self : EmittingShape) : ℝ := self.m_rcp_area

def get_shape_prob (self : EmittingShape) : ℝ := self.m_shape_prob

def set_shape_prob (self : EmittingShape) (prob : ℝ) : EmittingShape :=
  { self with m_shape_prob := prob }

def get_material (self : EmittingShape) : Nat := self.m_material

def get_average_radiance (self : EmittingShape) : ℝ := self.m_average_radiance

/-- The method `sample_uniform(s, shape_prob, light_sample)`; the result is the
light sample after the call, `none` when `assert(false)` is reached. -/
def sample_uniform (self : EmittingShape) (F : Foundation) (s : Vector2d) (shape_prob : ℝ)
    (light_sample : LightSample) : Option LightSample :=
  -- Store a pointer to the emitting shape.
  let light_sample := { light_sample with m_shape := some self }
  let filled : Option LightSample :=
    match self.get_shape_type with
    | ShapeType.TriangleShape =>
      -- Uniformly sample the surface of the shape.
      let bary := F.sample_triangle_uniform s
      let n :=
        bary.x • self.m_geom.m_triangle.m_n0
        + bary.y • self.m_geom.m_triangle.m_n1
        + bary.z • self.m_geom.m_triangle.m_n2
      some { light_sample with
        m_bary := ⟨bary.x, bary.y⟩
        m_point :=
          bary.x • self.m_geom.m_triangle.m_v0
          + bary.y • self.m_geom.m_triangle.m_v1
          + bary.z • self.m_geom.m_triangle.m_v2
        m_shading_normal := normalize n
        m_geometric_normal := self.m_geom.m_triangle.m_geometric_normal }
    | ShapeType.SphereShape =>
      let n := F.sample_sphere_uniform s
      some { light_sample with
        m_bary := s
        m_shading_normal := n
        m_geometric_normal := n
        m_point := self.m_geom.m_sphere.m_center + self.m_geom.m_sphere.m_radius • n }
    | ShapeType.RectShape =>
      some { light_sample with
        m_bary := s
        m_point :=
          self.m_geom.m_rect.m_origin + s.x • self.m_geom.m_rect.m_x
          + s.y • self.m_geom.m_rect.m_y
        m_shading_normal := self.m_geom.m_rect.m_geometric_normal
        m_geometric_normal := self.m_geom.m_rect.m_geometric_normal }
    | ShapeType.DiskShape => none
  -- Compute the probability density of this sample.
  filled.map fun ls => { ls with m_probability := shape_prob * self.get_rcp_area }

def evaluate_pdf_uniform (self : EmittingShape) : ℝ :=
  self.get_shape_prob * self.get_rcp_area

/-- The ray parameter computed in the sphere branch of `sample_solid_angle`
(lines 367 to 389) from the direction `nwp` and `x = origin - center`. -/
def sphere_ray_parameter (nwp x : Vector3d) (radius : ℝ) : ℝ :=
  let b := 2 * dot nwp x
  let c := dot x x - radius * radius
  let root := b * b - 4 * c
  if root < 0 then
    -- Project x onto v.
    let projected_x := (dot x nwp / dot nwp nwp) • nwp
    norm projected_x
  else if root = 0 then
    -0.5 * b
  else
    let q := if b > 0 then -0.5 * (b + Real.sqrt root) else -0.5 * (b - Real.sqrt root)
    let t0 := q
    let t1 := c / q
    min t0 t1

/-- The method `sample_solid_angle(shading_point, s, shape_prob, light_sample)`
with `USE_SOLID_ANGLE_SAMPLING` defined; the result is the returned flag and the
light sample after the call, `none` when `assert(false)` is reached. -/
def sample_solid_angle (self : EmittingShape) (F : Foundation) (shading_point : ShadingPoint)
    (s : Vector2d) (shape_prob : ℝ) (light_sample : LightSample) : Option (Bool × LightSample) :=
  -- Store a pointer to the emitting shape.
  let light_sample := { light_sample with m_shape := some self }
  match self.get_shape_type with
  | ShapeType.TriangleShape =>
    let o := shading_point.get_point
    -- Side check
    let eps : ℝ := 1.0e-6
    if signed_plane_distance self.m_geom.m_triangle o < eps then
      some (false, light_sample)
    else
      let sampler := SphericalTriangleSampler.create
        self.m_geom.m_triangle.m_v0 self.m_geom.m_triangle.m_v1 self.m_geom.m_triangle.m_v2 o
      let d := sampler.sample s
      -- Project the point on the triangle.
      let ray : Ray := ⟨o, d⟩
      match F.triangle_intersect
          self.m_geom.m_triangle.m_v0 self.m_geom.m_triangle.m_v1 self.m_geom.m_triangle.m_v2
          ray with
      | some hit =>
        let n :=
          (1 - hit.u - hit.v) • self.m_geom.m_triangle.m_n0
          + hit.u • self.m_geom.m_triangle.m_n1
          + hit.v • self.m_geom.m_triangle.m_n2
        -- Compute the probability.
        let cos_theta := -dot self.m_geom.m_triangle.m_geometric_normal d
        let rcp_solid_angle := 1 / sampler.solid_angle
        let pdf := rcp_solid_angle * cos_theta / square hit.t
        some (true, { light_sample with
          m_point := o + hit.t • d
          m_bary := ⟨hit.u, hit.v⟩
          m_geometric_normal := self.m_geom.m_triangle.m_geometric_normal
          m_shading_normal := normalize n
          m_probability := shape_prob * pdf })
      | none => some (false, light_sample)
  | ShapeType.SphereShape =>
    let center := self.m_geom.m_sphere.m_center
    let origin := shading_point.get_point
    let radius := self.m_geom.m_sphere.m_radius
    let w := center - origin
    let dist_to_center := norm w
    -- Normalize center to origin vector.
    let w := (1 / dist_to_center) • w
    -- Create a orthogonal frame that simplifies the projection.
    let u := F.basis_tangent_u w
    let v := F.basis_tangent_v w
    -- Compute local space sample position.
    let q := Real.sqrt (1 - square (radius / dist_to_center))
    let theta := Real.arccos (1 - s.x + s.x * q)
    let phi := 2 * Real.pi * s.y
    let loc := F.make_unit_vector theta phi
    -- Compute world space sample position: the row vector loc times the matrix of rows u, w, v.
    let nwp := loc.x • u + loc.y • w + loc.z • v
    let x := origin - center
    let t := sphere_ray_parameter nwp x radius
    let point := origin + t • nwp
    -- Compute the normal at the sample.
    let normal := normalize (point - self.m_geom.m_sphere.m_center)
    -- Compute the probability.
    let pdf := 1 / (2 * Real.pi * (1 - q))
    some (true, { light_sample with
      m_point := point
      m_shading_normal := normal
      m_geometric_normal := normal
      m_bary := ⟨theta, phi⟩
      m_probability := shape_prob * pdf })
  | ShapeType.RectShape =>
    let o := shading_point.get_point
    -- Side check
    let eps : ℝ := 1.0e-6
    if signed_plane_distance self.m_geom.m_rect o < eps then
      some (false, light_sample)
    else
      let sampler := SphericalRectangleSampler.create
        self.m_geom.m_rect.m_origin self.m_geom.m_rect.m_x self.m_geom.m_rect.m_y
        self.m_geom.m_rect.m_geometric_normal o
      let p := sampler.sample s
      let d := normalize (p - o)
      -- Project the point on the rect.
      let ray : Ray := ⟨o, d⟩
      match F.intersect_parallelogram ray
          self.m_geom.m_rect.m_origin self.m_geom.m_rect.m_x self.m_geom.m_rect.m_y
          self.m_geom.m_rect.m_geometric_normal with
      | some hit =>
        -- Compute the probability.
        let cos_theta := -dot self.m_geom.m_rect.m_geometric_normal d
        let rcp_solid_angle := 1 / sampler.solid_angle
        let pdf := rcp_solid_angle * cos_theta / hit.t
        some (true, { light_sample with
          m_point := ray.point_at hit.t
          m_bary := ⟨hit.u, hit.v⟩
          m_geometric_normal := self.m_geom.m_rect.m_geometric_normal
          m_shading_normal := self.m_geom.m_rect.m_geometric_normal
          m_probability := shape_prob * pdf })
      | none => some (false, light_sample)
  | ShapeType.DiskShape => none

/-- The method `evaluate_pdf_solid_angle(p, l)` with `USE_SOLID_ANGLE_SAMPLING`
defined; `none` when `assert(false)` is reached. -/
def evaluate_pdf_solid_angle (self : EmittingShape) (p l : Vector3d) : Option ℝ :=
  let shape_probability := self.get_shape_prob
  match self.get_shape_type with
  | ShapeType.TriangleShape =>
    -- Side check
    let eps : ℝ := 1.0e-6
    if signed_plane_distance self.m_geom.m_triangle p < eps then
      some 0
    else
      let sampler := SphericalTriangleSampler.create
        self.m_geom.m_triangle.m_v0 self.m_geom.m_triangle.m_v1 self.m_geom.m_triangle.m_v2 p
      let d := p - l
      let d_norm := norm d
      let d := d / d_norm
      let cos_theta := dot self.m_geom.m_triangle.m_geometric_normal d
      let rcp_solid_angle := 1 / sampler.solid_angle
      let pdf := rcp_solid_angle * cos_theta / square d_norm
      some (shape_probability * pdf)
  | ShapeType.SphereShape =>
    let center := self.m_geom.m_sphere.m_center
    let radius_sqr := square self.m_geom.m_sphere.m_radius
    let dist_to_center := square_distance p center
    if dist_to_center ≤ radius_sqr then
      some (4 * Real.pi)
    else
      let sin_theta_sqr := radius_sqr / dist_to_center
      let cos_theta := Real.sqrt (max 0 (1 - sin_theta_sqr))
      some (shape_probability * (2 * Real.pi) * (1 - cos_theta))
  | ShapeType.RectShape =>
    -- Side check
    let eps : ℝ := 1.0e-6
    if signed_plane_distance self.m_geom.m_rect p < eps then
      -- return false, converted to float
      some 0
    else
      let sampler := SphericalRectangleSampler.create
        self.m_geom.m_rect.m_origin self.m_geom.m_rect.m_x self.m_geom.m_rect.m_y
        self.m_geom.m_rect.m_geometric_normal p
      let d := p - l
      let d_norm := norm d
      let d := d / d_norm
      let cos_theta := dot self.m_geom.m_rect.m_geometric_normal d
      let rcp_solid_angle := 1 / sampler.solid_angle
      let pdf := rcp_solid_angle * cos_theta / square d_norm
      some (shape_probability * pdf)
  | ShapeType.DiskShape => none

/-- The sampler that `sample_solid_angle` and `evaluate_pdf_solid_angle` build for a
triangle shape and the point `o` (lines 287 to 291 and 483 to 487). -/
def triangle_sampler (self : EmittingShape) (o : Vector3d) : SphericalTriangleSampler :=
  SphericalTriangleSampler.create
    self.m_geom.m_triangle.m_v0 self.m_geom.m_triangle.m_v1 self.m_geom.m_triangle.m_v2 o

/-- The sampler that `sample_solid_angle` and `evaluate_pdf_solid_angle` build for a
rectangle shape and the point `o` (lines 415 to 420 and 528 to 533). -/
def rect_sampler (self : EmittingShape) (o : Vector3d) : SphericalRectangleSampler :=
  SphericalRectangleSampler.create
    self.m_geom.m_rect.m_origin self.m_geom.m_rect.m_x self.m_geom.m_rect.m_y
    self.m_geom.m_rect.m_geometric_normal o

/-- The call `triangle.intersect(ray, t, u, v)` of the triangle branch of
`sample_solid_angle` for the ray `(o, d)` (lines 296 to 303). -/
def triangle_hit (self : EmittingShape) (F : Foundation) (o d : Vector3d) : Option Hit :=
  F.triangle_intersect
    self.m_geom.m_triangle.m_v0 self.m_geom.m_triangle.m_v1 self.m_geom.m_triangle.m_v2 ⟨o, d⟩

end EmittingShape

/-! ## Concrete inputs -/

/-- Storage filled with zeros. -/
def zero_storage : EmittingShape :=
  { m_assembly_instance := 0
    m_shape_type := ShapeType.DiskShape
    m_object_instance_index := 0
    m_primitive_index := 0
    m_geom :=
      { m_triangle := ⟨0, 0, 0, 0, 0, 0, 0, 0⟩
        m_sphere := ⟨0, 0⟩
        m_rect := ⟨0, 0, 0, 0, 0, 0, 0⟩ }
    m_shape_support_plane := 0
    m_area := 0
    m_rcp_area := 0
    m_shape_prob := 0
    m_average_radiance := 0
    m_material := 0 }

/-- The unit square of the plane `z = 0` with normal `(0, 0, 1)`, shape probability one. -/
def unit_rect : EmittingShape :=
  (EmittingShape.create_rect_shape zero_storage 0 0 0 ⟨0, 0, 0⟩ ⟨1, 0, 0⟩ ⟨0, 1, 0⟩
    ⟨0, 0, 1⟩).set_shape_prob 1

/-- Storage that held `unit_rect` before, as when shapes are built one after the
other in the same local variable. -/
def stale_storage : EmittingShape := unit_rect

/-- The sphere of radius 3 about the origin, shape probability one. -/
def sphere_three : EmittingShape :=
  (EmittingShape.create_sphere_shape zero_storage 0 0 0 ⟨0, 0, 0⟩ 3).set_shape_prob 1

/-- The triangle `(1,0,0), (0,0,0), (0,1,0)` of the plane `z = 0` with normal `(0, 0, 1)`,
shape probability one. -/
def corner_triangle : EmittingShape :=
  (EmittingShape.create_triangle_shape zero_storage 0 0 0 0 ⟨1, 0, 0⟩ ⟨0, 0, 0⟩ ⟨0, 1, 0⟩
    ⟨0, 0, 1⟩ ⟨0, 0, 1⟩ ⟨0, 0, 1⟩ ⟨0, 0, 1⟩).set_shape_prob 1

/-- An empty light sample. -/
def blank_sample : LightSample :=
  { m_point := 0, m_shading_normal := 0, m_geometric_normal := 0, m_bary := ⟨0, 0⟩,
    m_shape := none, m_probability := 0, m_light := none }

/-- Ray/triangle intersection by the Moeller-Trumbore formulas, restricted to the ray
range `[0, max)`: one admissible value of `Foundation.triangle_intersect`. -/
def moeller_trumbore (v0 v1 v2 : Vector3d) (ray : Ray) : Option Hit :=
  let e0 := v1 - v0
  let e1 := v2 - v0
  let pvec := cross ray.m_dir e1
  let det := dot e0 pvec
  if det = 0 then none
  else
    let tvec := ray.m_org - v0
    let u := dot tvec pvec / det
    let qvec := cross tvec e0
    let v := dot ray.m_dir qvec / det
    let t := dot e1 qvec / det
    if u < 0 ∨ v < 0 ∨ 1 < u + v ∨ t < 0 then none else some ⟨t, u, v⟩

/-- Ray/parallelogram intersection through the supporting plane, restricted to the ray
range `[0, max)`: one admissible value of `Foundation.intersect_parallelogram`. -/
def plane_parallelogram (ray : Ray) (corner x y n : Vector3d) : Option Hit :=
  let denom := dot n ray.m_dir
  if denom = 0 then none
  else
    let t := dot n (corner - ray.m_org) / denom
    let b := ray.point_at t - corner
    let u := dot x b / dot x x
    let v := dot y b / dot y y
    if t < 0 ∨ u < 0 ∨ 1 < u ∨ v < 0 ∨ 1 < v then none else some ⟨t, u, v⟩

/-- A value of `Foundation` used to run the code on concrete inputs. -/
def reference_foundation : Foundation :=
  { triangle_intersect := moeller_trumbore
    intersect_parallelogram := plane_parallelogram
    sample_triangle_uniform := fun s =>
      ⟨1 - Real.sqrt s.x, (1 - s.y) * Real.sqrt s.x, s.y * Real.sqrt s.x⟩
    sample_sphere_uniform := fun s =>
      ⟨Real.cos (2 * Real.pi * s.x) * (2 * Real.sqrt (s.y * (1 - s.y))), 1 - 2 * s.y,
        Real.sin (2 * Real.pi * s.x) * (2 * Real.sqrt (s.y * (1 - s.y)))⟩
    basis_tangent_u := fun w => normalize (cross w (if w.x = 0 ∧ w.z = 0 then ⟨1, 0, 0⟩ else ⟨0, 1, 0⟩))
    basis_tangent_v := fun w =>
      cross (normalize (cross w (if w.x = 0 ∧ w.z = 0 then ⟨1, 0, 0⟩ else ⟨0, 1, 0⟩))) w
    make_unit_vector := fun theta phi =>
      ⟨Real.cos phi * Real.sin theta, Real.cos theta, Real.sin phi * Real.sin theta⟩ }

/-- The octant triangle `(1,0,0), (0,1,0), (0,0,1)` with the unit normal
`-(1,1,1)/sqrt 3`, which faces the origin. -/
def octant_triangle (mem : EmittingShape) : EmittingShape :=
  EmittingShape.create_triangle_shape mem 0 0 0 0 ⟨1, 0, 0⟩ ⟨0, 1, 0⟩ ⟨0, 0, 1⟩
    ⟨-(1 / Real.sqrt 3), -(1 / Real.sqrt 3), -(1 / Real.sqrt 3)⟩
    ⟨-(1 / Real.sqrt 3), -(1 / Real.sqrt 3), -(1 / Real.sqrt 3)⟩
    ⟨-(1 / Real.sqrt 3), -(1 / Real.sqrt 3), -(1 / Real.sqrt 3)⟩
    ⟨-(1 / Real.sqrt 3), -(1 / Real.sqrt 3), -(1 / Real.sqrt 3)⟩

/-! ## Light samplers (forwardlightsampler.cpp, backwardlightsampler.cpp) -/

/-- The assertions of the light samplers; an assertion that fails ends the call. -/
inductive AssertionFailure where
  /-- Line 67 of forwardlightsampler.cpp: one of the two CDFs is valid. -/
  | some_cdf_valid
  /-- Line 117 of forwardlightsampler.cpp: `m_non_physical_lights_cdf.valid()`. -/
  | non_physical_lights_cdf_valid
  /-- Line 130 of forwardlightsampler.cpp: `light_sample.m_light`. -/
  | light_is_set
  /-- Line 131 of forwardlightsampler.cpp: `light_sample.m_probability > 0.0f`. -/
  | probability_positive
  /-- Lines 97 and 106: `light_shading_point.is_triangle_primitive()`. -/
  | is_triangle_primitive
  /-- Line 122 of backwardlightsampler.cpp: `shape_probability >= 0.0f`. -/
  | shape_probability_nonneg
  /-- A failure inside `LightSamplerBase::sample_non_physical_light`. -/
  | inside_sample_non_physical_light
  /-- A failure inside `LightSamplerBase::sample_emitting_shapes`. -/
  | inside_sample_emitting_shapes
  deriving DecidableEq

/-- The key `EmittingShapeKey(assembly_instance_uid, object_instance_index,
primitive_index)` of the emitting-shape hash table. -/
structure EmittingShapeKey where
  m_assembly_instance_uid : Nat
  m_object_instance_index : Nat
  m_primitive_index : Nat
  deriving DecidableEq

/-- Modelled from the spec: a shading point that results from an intersection; besides
the point, the members read by `evaluate_pdf`: `is_triangle_primitive()`,
`get_assembly_instance().get_uid()`, `get_object_instance_index()` and
`get_primitive_index()`. -/
structure HitShadingPoint extends ShadingPoint where
  m_is_triangle_primitive : Bool
  m_assembly_instance_uid : Nat
  m_object_instance_index : Nat
  m_primitive_index : Nat

/-- Modelled from the spec: `lightsamplerbase.{h,cpp}` and `foundation/math/cdf.h` are not
among the sources; the members of `LightSamplerBase` that the two samplers use.  The
emitting-shape hash table is its lookup `get(key)`, `none` for `nullptr`; the two CDFs are
their `valid()` flag and, for the non-physical lights, `sample(x)`; the two routines of
the base class return `none` when they fail. -/
structure LightSamplerBase where
  m_non_physical_lights_cdf_valid : Bool
  m_emitting_shapes_cdf_valid : Bool
  m_non_physical_lights_cdf_sample : ℝ → Nat × ℝ
  m_emitting_shape_hash_table : EmittingShapeKey → Option EmittingShape
  sample_non_physical_light : ℝ → Nat → LightSample → ℝ → Option LightSample
  sample_emitting_shapes_base : ℝ → Vector3d → LightSample → Option LightSample

namespace LightSamplerBase

/-- The call `sample_emitting_shapes(time, s, light_sample)` of the base class. -/
def sample_emitting_shapes (self : LightSamplerBase) (time : ℝ) (s : Vector3d)
    (light_sample : LightSample) : Except AssertionFailure LightSample :=
  match self.sample_emitting_shapes_base time s light_sample with
  | some ls => Except.ok ls
  | none => Except.error AssertionFailure.inside_sample_emitting_shapes

end LightSamplerBase

/-- The class `ForwardLightSampler`, derived from `LightSamplerBase` without members of
its own. -/
structure ForwardLightSampler extends LightSamplerBase

/-- The class `BackwardLightSampler`, derived from `LightSamplerBase` without members of
its own. -/
structure BackwardLightSampler extends LightSamplerBase

namespace ForwardLightSampler

/-- The method `sample_non_physical_lights(time, s, light_sample)`; the variate `s` is a
`Vector3f`, here a `Vector3d`. -/
def sample_non_physical_lights (self : ForwardLightSampler) (time : ℝ) (s : Vector3d)
    (light_sample : LightSample) : Except AssertionFailure LightSample :=
  if ¬ self.m_non_physical_lights_cdf_valid then
    Except.error AssertionFailure.non_physical_lights_cdf_valid
  else
    let result := self.m_non_physical_lights_cdf_sample s.x
    let light_index := result.1
    let light_prob := result.2
    let light_sample := { light_sample with m_shape := none }
    match self.sample_non_physical_light time light_index light_sample light_prob with
    | none => Except.error AssertionFailure.inside_sample_non_physical_light
    | some light_sample =>
      if light_sample.m_light = none then
        Except.error AssertionFailure.light_is_set
      else if ¬ light_sample.m_probability > 0 then
        Except.error AssertionFailure.probability_positive
      else
        Except.ok light_sample

/-- The method `sample(time, s, light_sample)`. -/
def sample (self : ForwardLightSampler) (time : ℝ) (s : Vector3d)
    (light_sample : LightSample) : Except AssertionFailure LightSample :=
  if ¬ (self.m_non_physical_lights_cdf_valid ∨ self.m_emitting_shapes_cdf_valid) then
    Except.error AssertionFailure.some_cdf_valid
  else if self.m_non_physical_lights_cdf_valid then
    if self.m_emitting_shapes_cdf_valid then
      let sampled :=
        if s.x < 0.5 then
          self.sample_non_physical_lights time ⟨s.x * 2, s.y, s.z⟩ light_sample
        else
          self.sample_emitting_shapes time ⟨(s.x - 0.5) * 2, s.y, s.z⟩ light_sample
      sampled.map fun ls => { ls with m_probability := ls.m_probability * 0.5 }
    else self.sample_non_physical_lights time s light_sample
  else self.sample_emitting_shapes time s light_sample

/-- A call that `sample` makes to one of the two sub-samplers, with its variate. -/
inductive SubSamplerCall where
  | non_physical_lights (s : Vector3d)
  | emitting_shapes (s : Vector3d)

/-- The calls to `sample_non_physical_lights` and `sample_emitting_shapes` that
`sample(time, s, light_sample)` makes, in order: the control flow of `sample` with
each call replaced by its record. -/
def sample_calls (self : ForwardLightSampler) (s : Vector3d) : List SubSamplerCall :=
  if ¬ (self.m_non_physical_lights_cdf_valid ∨ self.m_emitting_shapes_cdf_valid) then
    []
  else if self.m_non_physical_lights_cdf_valid then
    if self.m_emitting_shapes_cdf_valid then
      if s.x < 0.5 then
        [SubSamplerCall.non_physical_lights ⟨s.x * 2, s.y, s.z⟩]
      else
        [SubSamplerCall.emitting_shapes ⟨(s.x - 0.5) * 2, s.y, s.z⟩]
    else [SubSamplerCall.non_physical_lights s]
  else [SubSamplerCall.emitting_shapes s]

/-- The reference of the claim on `sample`, written from its words: with both CDFs valid
the first coordinate selects the half and is rescaled, and the probability is halved;
with one CDF valid its sub-sampler is called with `s` unchanged. -/
def sample_reference (self : ForwardLightSampler) (time : ℝ) (s : Vector3d)
    (light_sample : LightSample) : Except AssertionFailure LightSample :=
  match self.m_non_physical_lights_cdf_valid, self.m_emitting_shapes_cdf_valid with
  | true, true =>
    if s.x < 0.5 then
      (self.sample_non_physical_lights time ⟨2 * s.x, s.y, s.z⟩ light_sample).map
        fun ls => { ls with m_probability := 0.5 * ls.m_probability }
    else
      (self.sample_emitting_shapes time ⟨2 * (s.x - 0.5), s.y, s.z⟩ light_sample).map
        fun ls => { ls with m_probability := 0.5 * ls.m_probability }
  | true, false => self.sample_non_physical_lights time s light_sample
  | false, true => self.sample_emitting_shapes time s light_sample
  | false, false => Except.error AssertionFailure.some_cdf_valid

/-- The method `evaluate_pdf(light_shading_point)`. -/
def evaluate_pdf (self : ForwardLightSampler) (light_shading_point : HitShadingPoint) :
    Except AssertionFailure ℝ :=
  if ¬ light_shading_point.m_is_triangle_primitive then
    Except.error AssertionFailure.is_triangle_primitive
  else
    let shape_key : EmittingShapeKey :=
      ⟨light_shading_point.m_assembly_instance_uid,
        light_shading_point.m_object_instance_index,
        light_shading_point.m_primitive_index⟩
    match self.m_emitting_shape_hash_table shape_key with
    | none => Except.ok 0
    | some shape => Except.ok shape.evaluate_pdf_uniform

end ForwardLightSampler

namespace BackwardLightSampler

/-- The method `evaluate_pdf(light_shading_point, surface_shading_point)`. -/
def evaluate_pdf (self : BackwardLightSampler)
    (light_shading_point surface_shading_point : HitShadingPoint) :
    Except AssertionFailure ℝ :=
  if ¬ light_shading_point.m_is_triangle_primitive then
    Except.error AssertionFailure.is_triangle_primitive
  else
    let shape_key : EmittingShapeKey :=
      ⟨light_shading_point.m_assembly_instance_uid,
        light_shading_point.m_object_instance_index,
        light_shading_point.m_primitive_index⟩
    match self.m_emitting_shape_hash_table shape_key with
    | none => Except.ok 0
    | some shape =>
      let shape_probability := shape.evaluate_pdf_uniform
      if ¬ shape_probability ≥ 0 then
        Except.error AssertionFailure.shape_probability_nonneg
      else
        Except.ok shape_probability

end BackwardLightSampler

/-- A light sampler whose table holds `unit_rect` under the key `(7, 0, 0)` and whose
routines of the base class return the light sample they are given, with light `0` and
the probability `light_prob` for a non-physical light. -/
def reference_light_sampler (both : Bool) : LightSamplerBase :=
  { m_non_physical_lights_cdf_valid := both
    m_emitting_shapes_cdf_valid := true
    m_non_physical_lights_cdf_sample := fun _ => (0, 1)
    m_emitting_shape_hash_table := fun key =>
      if key = ⟨7, 0, 0⟩ then some unit_rect else none
    sample_non_physical_light := fun _ _ light_sample light_prob =>
      some { light_sample with m_light := some 0, m_probability := light_prob }
    sample_emitting_shapes_base := fun _ _ light_sample =>
      some { light_sample with m_shape := some unit_rect, m_probability := 1 } }

/-! ## EmittingShape: shading points and the average radiance (lighttypes.cpp) -/

/-- The method `estimate_average_radiance()`; the body is the single assignment
`m_average_radiance = 1.0f`, the rest is a comment. -/
def EmittingShape.estimate_average_radiance (self : EmittingShape) : EmittingShape :=
  { self with m_average_radiance := 1 }

/-- Modelled from the spec: `visibilityflags.h` is not among the sources; the ray type
`VisibilityFlags::CameraRay` and the other types. -/
inductive VisibilityFlags where
  | CameraRay
  | OtherRay (flags : Nat)
  deriving DecidableEq

/-- Modelled from the spec: `shadingray.h` is not among the sources; the arguments of
`ShadingRay(org, dir, tmin, tmax, time, flags, depth)`.  The time `ShadingRay::Time()`
is `none`. -/
structure ShadingRay where
  m_org : Vector3d
  m_dir : Vector3d
  m_tmin : ℝ
  m_tmax : ℝ
  m_time : Option ℝ
  m_flags : VisibilityFlags
  m_depth : Nat

/-- A call of one of the two shading-point constructors of `Intersector` (its source is
not available), with the arguments in the order of the call.  The transform is the
earliest transform of the transform sequence of the assembly instance. -/
inductive IntersectorCall where
  | make_triangle_shading_point (shading_point : ShadingPoint) (ray : ShadingRay)
      (bary : Vector2d) (assembly_instance : Nat) (assembly_instance_transform : Nat)
      (object_instance_index primitive_index : Nat) (triangle_support_plane : Nat)
  | make_procedural_surface_shading_point (shading_point : ShadingPoint) (ray : ShadingRay)
      (bary : Vector2d) (assembly_instance : Nat) (assembly_instance_transform : Nat)
      (object_instance_index primitive_index : Nat) (p n dpdu dpdv : Vector3d)

/-- The method `make_shading_point(shading_point, point, direction, bary, intersector)`:
the call that it makes on the intersector, `none` when `assert(false)` is reached.
`earliest_transform` stands for
`assembly_instance->transform_sequence().get_earliest_transform()`. -/
def EmittingShape.make_shading_point (self : EmittingShape) (F : Foundation)
    (earliest_transform : Nat → Nat) (shading_point : ShadingPoint)
    (point direction : Vector3d) (bary : Vector2d) : Option IntersectorCall :=
  let ray : ShadingRay :=
    { m_org := point, m_dir := direction, m_tmin := 0, m_tmax := 0, m_time := none,
      m_flags := VisibilityFlags.CameraRay, m_depth := 0 }
  match self.get_shape_type with
  | ShapeType.TriangleShape =>
    some (IntersectorCall.make_triangle_shading_point
      shading_point
      ray
      bary
      self.get_assembly_instance
      (earliest_transform self.get_assembly_instance)
      self.get_object_instance_index
      self.get_primitive_index
      self.m_shape_support_plane)
  | ShapeType.SphereShape =>
    let theta := bary.x
    let phi := bary.y
    let n := F.make_unit_vector theta phi
    let p := self.m_geom.m_sphere.m_center + self.m_geom.m_sphere.m_radius • n
    let dpdu : Vector3d := ⟨-(2 * Real.pi) * n.y, 2 * Real.pi + n.x, 0⟩
    let dpdv := cross dpdu n
    some (IntersectorCall.make_procedural_surface_shading_point
      shading_point
      ray
      bary
      self.get_assembly_instance
      (earliest_transform self.get_assembly_instance)
      self.get_object_instance_index
      self.get_primitive_index
      p
      n
      dpdu
      dpdv)
  | ShapeType.RectShape =>
    let p :=
      self.m_geom.m_rect.m_origin + bary.x • self.m_geom.m_rect.m_x
      + bary.y • self.m_geom.m_rect.m_y
    some (IntersectorCall.make_procedural_surface_shading_point
      shading_point
      ray
      bary
      self.get_assembly_instance
      (earliest_transform self.get_assembly_instance)
      self.get_object_instance_index
      self.get_primitive_index
      p
      self.m_geom.m_rect.m_geometric_normal
      self.m_geom.m_rect.m_x
      (cross self.m_geom.m_rect.m_x self.m_geom.m_rect.m_geometric_normal))
  | ShapeType.DiskShape => none

/-- The method `BackwardLightSampler::sample_lightset(time, s, shading_point,
light_sample)`. -/
def BackwardLightSampler.sample_lightset (self : BackwardLightSampler) (time : ℝ)
    (s : Vector3d) (shading_point : ShadingPoint) (light_sample : LightSample) :
    Except AssertionFailure LightSample :=
  -- CDF-based sampling.
  self.sample_emitting_shapes time s light_sample

/-! ## PatchKey (patchkey.h) -/

/-- The conversion `static_cast<foundation::uint32>(x)` of an unsigned integer. -/
def static_cast_uint32 (x : Nat) : Nat := x % 2 ^ 32

/-- The conversion `static_cast<foundation::uint16>(x)` of an unsigned integer. -/
def static_cast_uint16 (x : Nat) : Nat := x % 2 ^ 16

/-- The conversion `static_cast<size_t>(x)` of an unsigned integer, `size_t` of 64 bits. -/
def static_cast_size_t (x : Nat) : Nat := x % 2 ^ 64

/-- The class `PatchKey`: three members of type `uint32` and two of type `uint16`. -/
structure PatchKey where
  m_object_instance_index : Nat
  m_patch_index_object : Nat
  m_patch_index_tree : Nat
  m_patch_pa : Nat
  m_patch_type : Nat
  deriving DecidableEq

namespace PatchKey

/-- The constructor `PatchKey(object_instance_index, patch_index_object,
patch_index_tree, patch_pa, patch_type)`. -/
def create (object_instance_index patch_index_object patch_index_tree patch_pa
    patch_type : Nat) : PatchKey :=
  { m_object_instance_index := static_cast_uint32 object_instance_index
    m_patch_index_object := static_cast_uint32 patch_index_object
    m_patch_index_tree := static_cast_uint32 patch_index_tree
    m_patch_pa := static_cast_uint16 patch_pa
    m_patch_type := static_cast_uint16 patch_type }

def get_object_instance_index (self : PatchKey) : Nat :=
  static_cast_size_t self.m_object_instance_index

def get_patch_index_object (self : PatchKey) : Nat :=
  static_cast_size_t self.m_patch_index_object

def set_patch_index_tree (self : PatchKey) (patch_index_tree : Nat) : PatchKey :=
  { self with m_patch_index_tree := static_cast_uint32 patch_index_tree }

def get_patch_index_tree (self : PatchKey) : Nat :=
  static_cast_size_t self.m_patch_index_tree

def get_patch_pa (self : PatchKey) : Nat :=
  static_cast_size_t self.m_patch_pa

def get_patch_type (self : PatchKey) : Nat :=
  static_cast_size_t self.m_patch_type

end PatchKey

/-! ## PatchTree (patchtree.h, patchtree.cpp) -/

/-- Modelled from the spec: `foundation/math/aabb.h` is not among the sources; an
axis-aligned bounding box is its two corners. -/
structure GAABB3 where
  min : Vector3d
  max : Vector3d

/-- Modelled from the spec: `foundation/math/ray.h` is not among the sources; of the ray
`GRay3` the origin, the direction and the parameter range. -/
structure GRay3 where
  m_org : Vector3d
  m_dir : Vector3d
  m_tmin : ℝ
  m_tmax : ℝ

/-- Modelled from the spec: of `GRayInfo3` the reciprocal of the direction. -/
structure GRayInfo3 where
  m_rcp_dir : Vector3d

/-- Modelled from the spec: `foundation/math/bvh.h` is not among the sources; a node of a
tree is a leaf over a range of items or an interior node over two children. -/
inductive BvhNode where
  | leaf (item_index item_count : Nat)
  | interior (left right : Nat)
  deriving DecidableEq

/-- The partitioner, the builder and the constants of the patch tree, whose sources
(`foundation/math/bvh.h`, `renderer/global/globaltypes.h`) are not available.  `build`
stands for `Builder::build(tree, partitioner, size, max_leaf_size)` with the partitioner
`SAHPartitioner(bboxes, max_leaf_size, interior_node_traversal_cost,
item_intersection_cost)`: from the nodes of the tree before the call it gives the nodes
after the call. -/
structure Bvh where
  PatchTreeDefaultMaxLeafSize : Nat
  PatchTreeDefaultInteriorNodeTraversalCost : ℝ
  PatchTreeDefaultPatchIntersectionCost : ℝ
  build : List BvhNode → List GAABB3 → Nat → ℝ → ℝ → Nat → Nat → List BvhNode

/-- The context `MessageContext(message)` of a message of the logger. -/
structure MessageContext where
  m_message : String

/-- Modelled from the spec: `renderer/utility/paramarray.h` is not among the sources; a
parameter array is given by its two lookups
`get_optional<string>(name, default, allowed_values, message_context)` and
`get_optional<double>(name, default)`. -/
structure ParamArray where
  get_optional_string : String → String → List String → MessageContext → String
  get_optional_double : String → ℝ → ℝ

/-- Modelled from the spec: of an object instance, the model `get_object().get_model()`
of its object. -/
structure ObjectInstance where
  m_object_model : String

/-- Modelled from the spec: of an assembly, its name, the children
`get_parameters().child(name)` of its parameters and its object instances. -/
structure Assembly where
  m_name : String
  get_parameters_child : String → ParamArray
  m_object_instances : List ObjectInstance

/-- The model `SubdivisionSurfaceObjectFactory::get_model()`
(subdivisionsurfaceobject.cpp). -/
def SubdivisionSurfaceObjectFactory.get_model : String := "subdivmesh_object"

/-- The construction arguments `PatchTree::Arguments`; the scene is its identifier. -/
structure PatchTreeArguments where
  m_scene : Nat
  m_patch_tree_uid : Nat
  m_bbox : GAABB3
  m_assembly : Assembly

/-- The class `PatchTree`: the nodes of the base class `bvh::Tree`, the arguments and the
patch keys. -/
structure PatchTree where
  m_nodes : List BvhNode
  m_arguments : PatchTreeArguments
  m_patch_keys : List PatchKey

/-- The exception thrown by the constructor of `PatchTree`. -/
inductive PatchTreeException where
  | ExceptionNotImplemented
  deriving DecidableEq

namespace PatchTree

/-- One turn of the loop of `collect_patches` on the object instance `object_instance`:
an object that is not a subdivision surface is skipped, and for a subdivision surface
nothing is stored, all the statements that follow being comments. -/
def collect_patches_step (state : PatchTree × List GAABB3) (object_instance : ObjectInstance) :
    PatchTree × List GAABB3 :=
  -- Process only patch objects.
  if object_instance.m_object_model ≠ SubdivisionSurfaceObjectFactory.get_model then
    state
  else
    state

/-- The method `collect_patches(patch_bboxes)`: the tree and the vector `patch_bboxes`
after the call. -/
def collect_patches (self : PatchTree) (patch_bboxes : List GAABB3) :
    PatchTree × List GAABB3 :=
  self.m_arguments.m_assembly.m_object_instances.foldl collect_patches_step
    (self, patch_bboxes)

/-- The method `build_bvh(params, time, statistics)`, without the statistics and the
messages of the logger. -/
def build_bvh (self : PatchTree) (B : Bvh) (params : ParamArray) (time : ℝ) : PatchTree :=
  -- Collect patchs for this tree.
  let patch_bboxes : List GAABB3 := []
  let collected := self.collect_patches patch_bboxes
  let self := collected.1
  let patch_bboxes := collected.2
  -- Create the partitioner and build the tree.
  { self with
    m_nodes :=
      B.build self.m_nodes patch_bboxes B.PatchTreeDefaultMaxLeafSize
        B.PatchTreeDefaultInteriorNodeTraversalCost B.PatchTreeDefaultPatchIntersectionCost
        0 B.PatchTreeDefaultMaxLeafSize }

/-- The parameter `algorithm` as the constructor of `PatchTree` retrieves it. -/
def resolved_algorithm (arguments : PatchTreeArguments) : String :=
  let message_context : MessageContext :=
    ⟨"while building patch tree for assembly " ++ String.singleton (Char.ofNat 34)
      ++ arguments.m_assembly.m_name ++ String.singleton (Char.ofNat 34)⟩
  let params := arguments.m_assembly.get_parameters_child "acceleration_structure"
  params.get_optional_string "algorithm" "bvh" ["bvh", "sbvh"] message_context

/-- The constructor `PatchTree(arguments)`, without the stopwatch, the statistics and the
messages of the logger; a thrown exception is the result `Except.error`. -/
def create (B : Bvh) (arguments : PatchTreeArguments) :
    Except PatchTreeException PatchTree :=
  let self : PatchTree := { m_nodes := [], m_arguments := arguments, m_patch_keys := [] }
  -- Retrieve construction parameters.
  let params := arguments.m_assembly.get_parameters_child "acceleration_structure"
  let algorithm := resolved_algorithm arguments
  let time := params.get_optional_double "time" 0.5
  -- Build the tree.
  if algorithm = "bvh" then
    Except.ok (self.build_bvh B params time)
  else Except.error PatchTreeException.ExceptionNotImplemented

end PatchTree

/-- Modelled from the spec: of the shading point that a leaf visitor writes, besides the
point, its ray `m_ray`. -/
structure VisitedShadingPoint extends ShadingPoint where
  m_ray : ShadingRay

/-- The class `PatchLeafVisitor`; the matrix `m_xfm_matrix` is its identifier and the
reference `m_shading_point` is the shading point it refers to. -/
structure PatchLeafVisitor where
  m_tree : PatchTree
  m_xfm_matrix : Nat
  m_shading_point : VisitedShadingPoint

/-- The result of `visit`: the returned flag, the value of `distance` after the call and
the visitor after the call. -/
structure VisitResult (Visitor : Type) where
  m_continue : Bool
  m_distance : ℝ
  m_visitor : Visitor

/-- The method `PatchLeafVisitor::visit(node, ray, ray_info, distance)`; the statements
before the last two are comments. -/
def PatchLeafVisitor.visit (self : PatchLeafVisitor) (node : BvhNode) (ray : GRay3)
    (ray_info : GRayInfo3) (distance : ℝ) : VisitResult PatchLeafVisitor :=
  -- Continue traversal.
  { m_continue := true
    m_distance := self.m_shading_point.m_ray.m_tmax
    m_visitor := self }

/-- The class `PatchLeafProbeVisitor`, derived from `ProbeVisitorBase`, of which `m_hit`
is the hit flag. -/
structure PatchLeafProbeVisitor where
  m_hit : Bool
  m_tree : PatchTree
  m_xfm_matrix : Nat

/-- The method `PatchLeafProbeVisitor::visit(node, ray, ray_info, distance)`; the
statements before the last two are comments. -/
def PatchLeafProbeVisitor.visit (self : PatchLeafProbeVisitor) (node : BvhNode) (ray : GRay3)
    (ray_info : GRayInfo3) (distance : ℝ) : VisitResult PatchLeafProbeVisitor :=
  -- Continue traversal.
  { m_continue := true
    m_distance := ray.m_tmax
    m_visitor := self }

/-- A parameter array whose string lookup returns `value` when `value` is among the
allowed values and the default otherwise, and whose number lookup returns the default. -/
def params_with_algorithm (value : String) : ParamArray :=
  { get_optional_string := fun _ default_value allowed_values _ =>
      if value ∈ allowed_values then value else default_value
    get_optional_double := fun _ default_value => default_value }

/-- An assembly with two object instances, a mesh and a subdivision surface, whose
parameter `algorithm` is `value`. -/
def assembly_with_algorithm (value : String) : Assembly :=
  { m_name := "assembly"
    get_parameters_child := fun _ => params_with_algorithm value
    m_object_instances := [⟨"mesh_object"⟩, ⟨"subdivmesh_object"⟩] }

/-- A builder that makes a single leaf over all the bounding boxes. -/
def single_leaf_bvh : Bvh :=
  { PatchTreeDefaultMaxLeafSize := 2
    PatchTreeDefaultInteriorNodeTraversalCost := 1
    PatchTreeDefaultPatchIntersectionCost := 1
    build := fun _ bboxes _ _ _ _ _ => [BvhNode.leaf 0 bboxes.length] }

/-- The arguments of a patch tree over `assembly_with_algorithm value`. -/
def arguments_with_algorithm (value : String) : PatchTreeArguments :=
  { m_scene := 0, m_patch_tree_uid := 1, m_bbox := ⟨0, 0⟩,
    m_assembly := assembly_with_algorithm value }

/-! ## mesh2mesh (meshobjectoperations.cpp) -/

/-- Modelled from the spec: `renderer/modeling/object/triangle.h` is not among the
sources; the class `Triangle` of a mesh object, with the indices of its vertices, vertex
normals and texture coordinates and its primitive attribute, all of type `uint32`. -/
structure MeshTriangle where
  m_v0 : Nat
  m_v1 : Nat
  m_v2 : Nat
  m_n0 : Nat
  m_n1 : Nat
  m_n2 : Nat
  m_a0 : Nat
  m_a1 : Nat
  m_a2 : Nat
  m_pa : Nat

/-- Modelled from the spec: `meshobject.h` is not among the sources; a mesh object is
given by the accessors that `mesh2mesh` calls. -/
structure MeshObject where
  get_triangle_count : Nat
  get_vertex_count : Nat
  get_tex_coords_count : Nat
  get_vertex_normal_count : Nat
  get_vertex_tangent_count : Nat
  get_motion_segment_count : Nat
  get_triangle : Nat → MeshTriangle
  get_vertex : Nat → Vector3d
  get_tex_coords : Nat → Vector2d
  get_vertex_normal : Nat → Vector3d
  get_vertex_tangent : Nat → Vector3d
  get_vertex_pose : Nat → Nat → Vector3d
  get_vertex_normal_pose : Nat → Nat → Vector3d
  get_vertex_tangent_pose : Nat → Nat → Vector3d

/-- Modelled from the spec: `foundation/array/keyframedarray.h` is not among the sources;
a key-framed array of vectors is the list of its keys, each the list of its items. -/
structure KeyFramedVectors where
  m_keys : List (List Vector3d)

namespace KeyFramedVectors

/-- Modelled from the spec: `resize(size, keys)` gives `keys` keys of `size` items each;
an item that the array did not have before has the value `fresh`. -/
def resize (self : KeyFramedVectors) (fresh : Vector3d) (size keys : Nat) :
    KeyFramedVectors :=
  ⟨(List.range keys).map fun j =>
    (List.range size).map fun i => ((self.m_keys.getD j []).getD i fresh)⟩

/-- The loop `for (i = first; i < size; ++i) A[i] = value(i)` on the key `j`, with
`ArrayRef<Vector3f> A(array.get_key(j))`. -/
def write_key (self : KeyFramedVectors) (j first size : Nat) (value : Nat → Vector3d) :
    KeyFramedVectors :=
  ⟨self.m_keys.modify
    (fun key => (List.range' first (size - first)).foldl (fun key i => key.set i (value i)) key)
    j⟩

end KeyFramedVectors

/-- Modelled from the spec: `foundation/.../mesh.h` is not among the sources; the arrays
of a `Mesh` that `mesh2mesh` writes. -/
structure Mesh where
  m_verts_per_face : List Nat
  m_vertex_indices : List Nat
  m_vertices : KeyFramedVectors
  m_uv_indices : List Nat
  m_uvs : List Vector2d
  m_normal_indices : List Nat
  m_normals : KeyFramedVectors
  m_tangent_indices : List Nat
  m_tangents : KeyFramedVectors
  m_material_indices : List Nat

/-- The mesh `Mesh mesh;` that the default constructor makes. -/
def Mesh.empty : Mesh :=
  { m_verts_per_face := [], m_vertex_indices := [], m_vertices := ⟨[]⟩, m_uv_indices := [],
    m_uvs := [], m_normal_indices := [], m_normals := ⟨[]⟩, m_tangent_indices := [],
    m_tangents := ⟨[]⟩, m_material_indices := [] }

/-- The function `mesh2mesh(object)`.  `ArrayRef` is a reference to an array of the mesh:
`vindx` is `m_vertex_indices`, `uvindx` is `m_uv_indices`, `nindx` is `m_normal_indices`.
`fresh` is the value of the items that a `resize` creates. -/
def mesh2mesh (fresh : Vector3d) (object : MeshObject) : Mesh :=
  let mesh := Mesh.empty
  let num_faces := object.get_triangle_count
  let num_vertices := object.get_vertex_count
  let num_uvs := object.get_tex_coords_count
  let num_normals := object.get_vertex_normal_count
  let num_tangents := object.get_vertex_tangent_count
  let num_keys := object.get_motion_segment_count
  -- Vertices per face.
  let mesh := { mesh with m_verts_per_face := List.replicate num_faces 3 }
  -- Vertex indices.
  let mesh := (List.range num_faces).foldl (fun (mesh : Mesh) i =>
    let tri := object.get_triangle i
    { mesh with
      m_vertex_indices := mesh.m_vertex_indices ++ [tri.m_v0] ++ [tri.m_v1] ++ [tri.m_v2] })
    mesh
  -- Vertices.
  let mesh := { mesh with m_vertices := mesh.m_vertices.resize fresh num_vertices num_keys }
  let mesh := { mesh with
    m_vertices := mesh.m_vertices.write_key 0 0 num_vertices fun i => object.get_vertex i }
  let mesh := (List.range' 1 (num_keys - 1)).foldl (fun (mesh : Mesh) j =>
    { mesh with
      m_vertices :=
        mesh.m_vertices.write_key j 0 num_vertices fun i => object.get_vertex_pose i j })
    mesh
  let mesh :=
    if num_uvs ≠ 0 then
      -- UV indices.
      let mesh := (List.range num_faces).foldl (fun (mesh : Mesh) i =>
        let tri := object.get_triangle i
        { mesh with
          m_vertex_indices :=
            mesh.m_vertex_indices ++ [tri.m_a0] ++ [tri.m_a1] ++ [tri.m_a2] })
        mesh
      -- UVs.
      (List.range num_uvs).foldl (fun (mesh : Mesh) i =>
        { mesh with m_uvs := mesh.m_uvs ++ [object.get_tex_coords i] })
        mesh
    else mesh
  let mesh :=
    if num_normals ≠ 0 then
      -- Normal indices.
      let mesh := (List.range num_faces).foldl (fun (mesh : Mesh) i =>
        let tri := object.get_triangle i
        { mesh with
          m_vertex_indices :=
            mesh.m_vertex_indices ++ [tri.m_n0] ++ [tri.m_n1] ++ [tri.m_n2] })
        mesh
      -- Normals.
      let mesh := { mesh with m_normals := mesh.m_normals.resize fresh num_normals num_keys }
      let mesh := { mesh with
        m_normals :=
          mesh.m_normals.write_key 0 0 num_normals fun i => object.get_vertex_normal i }
      (List.range' 1 (num_keys - 1)).foldl (fun (mesh : Mesh) j =>
        { mesh with
          m_normals :=
            mesh.m_normals.write_key j 1 num_normals
              fun i => object.get_vertex_normal_pose i j })
        mesh
    else mesh
  -- Tangents.
  let mesh :=
    if num_tangents ≠ 0 then
      -- Tangent indices.
      let mesh := { mesh with m_tangent_indices := mesh.m_normal_indices }
      -- Tangents.
      let mesh := { mesh with
        m_tangents := mesh.m_tangents.resize fresh num_tangents num_keys }
      let mesh := { mesh with
        m_tangents :=
          mesh.m_tangents.write_key 0 0 num_tangents fun i => object.get_vertex_tangent i }
      (List.range' 1 (num_keys - 1)).foldl (fun (mesh : Mesh) j =>
        { mesh with
          m_tangents :=
            mesh.m_tangents.write_key j 1 num_tangents
              fun i => object.get_vertex_tangent_pose i j })
        mesh
    else mesh
  -- Material indices.
  (List.range num_faces).foldl (fun (mesh : Mesh) i =>
    { mesh with m_material_indices := mesh.m_material_indices ++ [(object.get_triangle i).m_pa] })
    mesh

/-- A mesh object with one triangle over three vertices, three texture coordinates and
one vertex normal, and two keys; every pose of the normal is `(0, 0, 1)`. -/
def one_triangle_object : MeshObject :=
  { get_triangle_count := 1
    get_vertex_count := 3
    get_tex_coords_count := 3
    get_vertex_normal_count := 1
    get_vertex_tangent_count := 0
    get_motion_segment_count := 2
    get_triangle := fun _ =>
      { m_v0 := 0, m_v1 := 1, m_v2 := 2, m_n0 := 0, m_n1 := 0, m_n2 := 0,
        m_a0 := 2, m_a1 := 1, m_a2 := 0, m_pa := 0 }
    get_vertex := fun i => ⟨i, 0, 0⟩
    get_tex_coords := fun i => ⟨i, 0⟩
    get_vertex_normal := fun _ => ⟨0, 0, 1⟩
    get_vertex_tangent := fun _ => ⟨1, 0, 0⟩
    get_vertex_pose := fun i _ => ⟨i, 0, 0⟩
    get_vertex_normal_pose := fun _ _ => ⟨0, 0, 1⟩
    get_vertex_tangent_pose := fun _ _ => ⟨1, 0, 0⟩ }

/-! ## Z85 encoding of arrays (foundation/array/io.cpp) -/

/-- The routines of `foundation/utility/z85.h`, whose source is not available.  A string
and a block of memory are lists of bytes; `z85_encode` gives the characters that
`z85_encode(src, size, dest)` writes at `dest` from the `size` bytes at `src`, and
`z85_decode` gives the bytes that `z85_decode(src, size, dest)` writes at `dest` from the
`size` characters at `src`. -/
structure Z85 where
  z85_encoded_size : Nat → Nat
  z85_decoded_size : Nat → Nat
  z85_encode : List Nat → List Nat
  z85_decode : List Nat → List Nat

/-- Modelled from the spec: `foundation/array/arraytraits.h` is not among the sources; the
types of the items of an array. -/
inductive ArrayType where
  | UInt8Type
  | UInt16Type
  | UInt32Type
  | FloatType
  | Vector2fType
  | Vector3fType
  deriving DecidableEq

/-- Modelled from the spec: the size in bytes of an item of the type. -/
def ArrayType.item_size : ArrayType → Nat
  | UInt8Type => 1
  | UInt16Type => 2
  | UInt32Type => 4
  | FloatType => 4
  | Vector2fType => 8
  | Vector3fType => 12

/-- Modelled from the spec: `foundation/array/array.h` is not among the sources; an array
is the type of its items and the bytes of its items. -/
structure Array where
  m_type : ArrayType
  m_data : List Nat
  deriving DecidableEq

namespace Array

def item_size (self : Array) : Nat := self.m_type.item_size

def size (self : Array) : Nat := self.m_data.length / self.item_size

def data (self : Array) : List Nat := self.m_data

/-- Modelled from the spec: `resize(size)`, a new item is zero. -/
def resize (self : Array) (size : Nat) : Array :=
  { self with
    m_data :=
      self.m_data.take (size * self.item_size)
        ++ List.replicate (size * self.item_size - self.m_data.length) 0 }

end Array

/-- Modelled from the spec: `foundation/array/keyframedarray.h` is not among the sources;
a key-framed array is the list of its keys. -/
structure KeyFramedArray where
  m_keys : List Array
  deriving DecidableEq

namespace KeyFramedArray

/-- Modelled from the spec: the constructor `KeyFramedArray(type, size, keys)` makes `keys`
arrays of `size` items. -/
def create (type : ArrayType) (size keys : Nat) : KeyFramedArray :=
  ⟨List.replicate keys ((Array.mk type []).resize size)⟩

def get_key_count (self : KeyFramedArray) : Nat := self.m_keys.length

/-- The key `get_key(i)`, `none` when there is no such key. -/
def get_key (self : KeyFramedArray) (i : Nat) : Option Array := self.m_keys.get? i

end KeyFramedArray

/-- The bytes of a block of memory after `data` is written at its offset `offset`. -/
def write_at (memory : List Nat) (offset : Nat) (data : List Nat) : List Nat :=
  memory.take offset ++ data ++ memory.drop (offset + data.length)

/-- One turn of the loop of `z85_encode(const KeyFramedArray&)`: the string `encoded` and
the offset of the pointer `p` in it. -/
def z85_encode_key (Z : Z85) (array_size_in_bytes : Nat) (state : List Nat × Nat)
    (key : Array) : List Nat × Nat :=
  let encoded := state.1
  let p := state.2
  (write_at encoded p (Z.z85_encode (key.data.take array_size_in_bytes)),
    p + array_size_in_bytes)

/-- The function `z85_encode(const KeyFramedArray& array)`; `none` when the assertion
fails or the array has no key `0`. -/
def z85_encode (Z : Z85) (array : KeyFramedArray) : Option (List Nat) :=
  match array.get_key 0 with
  | none => none
  | some a =>
    let array_size_in_bytes := a.size * a.item_size
    if array_size_in_bytes % 4 ≠ 0 then none
    else
      let encoded_size := Z.z85_encoded_size (array_size_in_bytes * array.get_key_count)
      let encoded : List Nat := List.replicate encoded_size 0
      some (array.m_keys.foldl (z85_encode_key Z array_size_in_bytes) (encoded, 0)).1

/-- One turn of the loop of `z85_decode(type, size, keys, data)`: the keys already
decoded and the offset of the pointer `p` in `data`. -/
def z85_decode_key (Z : Z85) (data : List Nat) (keyframe_size : Nat)
    (state : List Array × Nat) (key : Array) : List Array × Nat :=
  let decoded := state.1
  let p := state.2
  (decoded ++
      [{ key with
          m_data := write_at key.m_data 0 (Z.z85_decode ((data.drop p).take keyframe_size)) }],
    p + keyframe_size)

/-- The function `z85_decode(type, size, keys, data)`. -/
def z85_decode (Z : Z85) (type : ArrayType) (size keys : Nat) (data : List Nat) :
    KeyFramedArray :=
  let array := KeyFramedArray.create type size keys
  let keyframe_size := data.length / keys
  ⟨(array.m_keys.foldl (z85_decode_key Z data keyframe_size) ([], 0)).1⟩

/-- The 85 characters of the Z85 alphabet, by their codes. -/
def z85_alphabet : List Nat :=
  [48, 49, 50, 51, 52, 53, 54, 55, 56, 57, 97, 98, 99, 100, 101, 102, 103, 104, 105,
    106, 107, 108, 109, 110, 111, 112, 113, 114, 115, 116, 117, 118, 119, 120, 121,
    122, 65, 66, 67, 68, 69, 70, 71, 72, 73, 74, 75, 76, 77, 78, 79, 80, 81, 82, 83,
    84, 85, 86, 87, 88, 89, 90, 46, 45, 58, 43, 61, 94, 33, 47, 42, 63, 38, 60, 62, 40,
    41, 91, 93, 123, 125, 64, 37, 36, 35]

/-- The five characters of a block of four bytes, the most significant first. -/
def z85_encode_block (b0 b1 b2 b3 : Nat) : List Nat :=
  let value := ((b0 * 256 + b1) * 256 + b2) * 256 + b3
  [z85_alphabet.getD (value / 85 ^ 4 % 85) 0, z85_alphabet.getD (value / 85 ^ 3 % 85) 0,
    z85_alphabet.getD (value / 85 ^ 2 % 85) 0, z85_alphabet.getD (value / 85 % 85) 0,
    z85_alphabet.getD (value % 85) 0]

/-- The four bytes of a block of five characters. -/
def z85_decode_block (c0 c1 c2 c3 c4 : Nat) : List Nat :=
  let value :=
    (((z85_alphabet.indexOf c0 * 85 + z85_alphabet.indexOf c1) * 85
      + z85_alphabet.indexOf c2) * 85 + z85_alphabet.indexOf c3) * 85
      + z85_alphabet.indexOf c4
  [value / 256 ^ 3 % 256, value / 256 ^ 2 % 256, value / 256 % 256, value % 256]

/-- The Z85 encoding of a list of bytes, four bytes at a time. -/
def z85_encode_bytes : List Nat → List Nat
  | b0 :: b1 :: b2 :: b3 :: rest => z85_encode_block b0 b1 b2 b3 ++ z85_encode_bytes rest
  | _ => []

/-- The Z85 decoding of a list of characters, five characters at a time. -/
def z85_decode_chars : List Nat → List Nat
  | c0 :: c1 :: c2 :: c3 :: c4 :: rest =>
    z85_decode_block c0 c1 c2 c3 c4 ++ z85_decode_chars rest
  | _ => []

/-- The Z85 encoding: one admissible value of the routines of `Z85`. -/
def reference_z85 : Z85 :=
  { z85_encoded_size := fun size => size * 5 / 4
    z85_decoded_size := fun size => size * 4 / 5
    z85_encode := z85_encode_bytes
    z85_decode := z85_decode_chars }

/-- A key-framed array of two keys of one item of four bytes each. -/
def two_key_array : KeyFramedArray :=
  ⟨[⟨ArrayType.UInt32Type, [0, 0, 0, 0]⟩, ⟨ArrayType.UInt32Type, [134, 79, 210, 111]⟩]⟩

/-! ## InstanceTree::update (instancetree.h) -/

/-- Modelled from the spec: `foundation/math/aabb.h` is not among the sources; a bounding
box in the reference space of the tree, with rational corners so that two bounding boxes
can be compared. -/
structure AABB3d where
  min_x : ℚ
  min_y : ℚ
  min_z : ℚ
  max_x : ℚ
  max_y : ℚ
  max_z : ℚ
  deriving DecidableEq

/-- The structure `InstanceTree::Item`; pointers and the transform sequence are their
identifiers. -/
structure InstanceTree.Item where
  m_assembly : Nat
  m_assembly_uid : Nat
  m_assembly_instance : Nat
  m_transform_sequence : Nat
  deriving DecidableEq

/-- Modelled from the spec: one of the flattened triples (assembly, assembly instance,
transform sequence) that the scene gives to the tree, with the bounding box of the
instance in the reference space of the tree. -/
structure SceneAssemblyInstance where
  m_assembly : Nat
  m_assembly_uid : Nat
  m_assembly_instance : Nat
  m_transform_sequence : Nat
  m_bbox : AABB3d
  deriving DecidableEq

/-- Modelled from the spec: of the scene, the flattened assembly instances and the version
stamp of the assembly of a given unique identifier. -/
structure Scene where
  m_assembly_instances : List SceneAssemblyInstance
  get_assembly_version : Nat → Nat

/-- Modelled from the spec: the cached triangle tree of an assembly, built lazily; it is
known by the assembly and the version of the assembly it was created for. -/
structure LazyTriangleTree where
  m_assembly_uid : Nat
  m_assembly_version : Nat
  deriving DecidableEq

/-- The class `InstanceTree`: the nodes of the base class `bvh::Tree` with the bounding
boxes they were built over, the items, the version map and the triangle trees.
`m_rebuild_count` counts the trees built or created, the rebuild counter of the spec. -/
structure InstanceTree where
  m_nodes : List BvhNode
  m_bboxes : List AABB3d
  m_items : List InstanceTree.Item
  m_assembly_versions : List (Nat × Nat)
  m_triangle_trees : List (Nat × LazyTriangleTree)
  m_rebuild_count : Nat

namespace InstanceTree

/-- Modelled from the spec: the triangle tree of the assembly `uid` that an update keeps:
the cached tree when the version map holds the current version of the assembly, none
when the assembly is new or its version changed. -/
def kept_triangle_tree (self : InstanceTree) (scene : Scene) (uid : Nat) :
    Option LazyTriangleTree :=
  if self.m_assembly_versions.lookup uid = some (scene.get_assembly_version uid) then
    self.m_triangle_trees.lookup uid
  else none

/-- Modelled from the spec: step (1) of the update, the bounding boxes of the current
assembly instances. -/
def collect_assembly_instances (scene : Scene) : List AABB3d :=
  scene.m_assembly_instances.map fun entry => entry.m_bbox

/-- Modelled from the spec: the unique identifiers of the assemblies that the current
assembly instances reference, each once. -/
def collect_unique_assemblies (scene : Scene) : List Nat :=
  (scene.m_assembly_instances.map fun entry => entry.m_assembly_uid).dedup

/-- Modelled from the spec: `InstanceTree::update()`, whose body (instancetree.cpp) is not
among the sources, after section 4.4 of the spec.  (1) The bounding boxes of the current
assembly instances are collected.  (2) The assemblies referenced are compared with the
version map: the tree of an assembly whose version did not change is kept, the tree of a
new or changed assembly is created anew, the tree of an assembly no longer referenced is
deleted.  (3) The node hierarchy is rebuilt by `build_nodes`, the partitioner and the
builder, when the bounding boxes changed, and reused otherwise.  (4) One item is stored
for each instance. -/
def update (build_nodes : List AABB3d → List BvhNode) (scene : Scene) (self : InstanceTree) :
    InstanceTree :=
  let bboxes := collect_assembly_instances scene
  let assemblies := collect_unique_assemblies scene
  { m_nodes := if bboxes ≠ self.m_bboxes then build_nodes bboxes else self.m_nodes
    m_bboxes := bboxes
    m_items := scene.m_assembly_instances.map fun entry =>
      { m_assembly := entry.m_assembly
        m_assembly_uid := entry.m_assembly_uid
        m_assembly_instance := entry.m_assembly_instance
        m_transform_sequence := entry.m_transform_sequence }
    m_assembly_versions := assemblies.map fun uid => (uid, scene.get_assembly_version uid)
    m_triangle_trees := assemblies.map fun uid =>
      (uid, (self.kept_triangle_tree scene uid).getD ⟨uid, scene.get_assembly_version uid⟩)
    m_rebuild_count :=
      self.m_rebuild_count + (if bboxes ≠ self.m_bboxes then 1 else 0)
        + (assemblies.filter fun uid => (self.kept_triangle_tree scene uid).isNone).length }

end InstanceTree

/-- The tree before the first update: no node, no item, no version, no triangle tree. -/
def InstanceTree.empty : InstanceTree :=
  { m_nodes := [], m_bboxes := [], m_items := [], m_assembly_versions := [],
    m_triangle_trees := [], m_rebuild_count := 0 }

/-- A scene of three instances of the two assemblies `10` and `20`; the version of the
assembly `10` is `version`, the version of every other assembly is `1`. -/
def three_instance_scene (version : Nat) : Scene :=
  { m_assembly_instances :=
      [⟨100, 10, 1, 0, ⟨0, 0, 0, 1, 1, 1⟩⟩, ⟨200, 20, 2, 0, ⟨2, 0, 0, 3, 1, 1⟩⟩,
        ⟨100, 10, 3, 1, ⟨4, 0, 0, 5, 1, 1⟩⟩]
    get_assembly_version := fun uid => if uid = 10 then version else 1 }

/-- A builder of the instance tree that makes a single leaf over all the bounding
boxes. -/
def single_leaf_nodes (bboxes : List AABB3d) : List BvhNode := [BvhNode.leaf 0 bboxes.length]

/-! ## The narrowing of the area to float (lighttypes.cpp, lines 126 and 158) -/

/-- The factory `create_sphere_shape` with the narrowing of the area explicit:
`static_cast_float` is the conversion `static_cast<float>` of line 126, and the test of
line 128 is made on the narrowed area.  `create_sphere_shape` is this function with the
conversion read as the identity. -/
def EmittingShape.create_sphere_shape_float (static_cast_float : ℝ → ℝ) (mem : EmittingShape)
    (assembly_instance : Nat) (object_instance_index : Nat) (material : Nat)
    (center : Vector3d) (radius : ℝ) : EmittingShape :=
  let shape :=
    EmittingShape.ctor mem ShapeType.SphereShape assembly_instance object_instance_index 0
      material
  let shape := { shape with
    m_geom := { shape.m_geom with m_sphere := { m_center := center, m_radius := radius } } }
  let shape := { shape with m_area := static_cast_float (4 * Real.pi * square radius) }
  if shape.m_area ≠ 0 then { shape with m_rcp_area := 1 / shape.m_area } else shape

/-- The factory `create_rect_shape` with the narrowing of the area explicit:
`static_cast_float` is the conversion `static_cast<float>` of line 158, and the test of
line 161 is made on the narrowed area.  `create_rect_shape` is this function with the
conversion read as the identity. -/
def EmittingShape.create_rect_shape_float (static_cast_float : ℝ → ℝ) (mem : EmittingShape)
    (assembly_instance : Nat) (object_instance_index : Nat) (material : Nat)
    (p x y n : Vector3d) : EmittingShape :=
  let shape :=
    EmittingShape.ctor mem ShapeType.RectShape assembly_instance object_instance_index 0
      material
  let shape := { shape with
    m_geom := { shape.m_geom with
      m_rect :=
        { m_origin := p, m_x := x, m_y := y, m_width := norm x, m_height := norm y,
          m_geometric_normal := n, m_plane_dist := -dot p n } } }
  let shape := { shape with
    m_area := static_cast_float (shape.m_geom.m_rect.m_width * shape.m_geom.m_rect.m_height) }
  if shape.m_area ≠ 0 then { shape with m_rcp_area := 1 / shape.m_area } else shape

/-! ## Vector algebra -/

namespace Vector3d

@[simp] theorem add_x (a b : Vector3d) : (a + b).x = a.x + b.x := rfl

@[simp] theorem add_y (a b : Vector3d) : (a + b).y = a.y + b.y := rfl

@[simp] theorem add_z (a b : Vector3d) : (a + b).z = a.z + b.z := rfl

@[simp] theorem sub_x (a b : Vector3d) : (a - b).x = a.x - b.x := rfl

@[simp] theorem sub_y (a b : Vector3d) : (a - b).y = a.y - b.y := rfl

@[simp] theorem sub_z (a b : Vector3d) : (a - b).z = a.z - b.z := rfl

@[simp] theorem neg_x (a : Vector3d) : (-a).x = -a.x := rfl

@[simp] theorem neg_y (a : Vector3d) : (-a).y = -a.y := rfl

@[simp] theorem neg_z (a : Vector3d) : (-a).z = -a.z := rfl

@[simp] theorem zero_x : (0 : Vector3d).x = 0 := rfl

@[simp] theorem zero_y : (0 : Vector3d).y = 0 := rfl

@[simp] theorem zero_z : (0 : Vector3d).z = 0 := rfl

@[simp] theorem smul_x (t : ℝ) (a : Vector3d) : (t • a).x = t * a.x := rfl

@[simp] theorem smul_y (t : ℝ) (a : Vector3d) : (t • a).y = t * a.y := rfl

@[simp] theorem smul_z (t : ℝ) (a : Vector3d) : (t • a).z = t * a.z := rfl

@[simp] theorem div_x (a : Vector3d) (t : ℝ) : (a / t).x = a.x / t := rfl

@[simp] theorem div_y (a : Vector3d) (t : ℝ) : (a / t).y = a.y / t := rfl

@[simp] theorem div_z (a : Vector3d) (t : ℝ) : (a / t).z = a.z / t := rfl

end Vector3d

theorem dot_self_nonneg (v : Vector3d) : 0 ≤ dot v v := by
  unfold dot
  nlinarith [mul_self_nonneg v.x, mul_self_nonneg v.y, mul_self_nonneg v.z]

theorem norm_nonneg (v : Vector3d) : 0 ≤ norm v := Real.sqrt_nonneg _

theorem norm_mul_self (v : Vector3d) : norm v * norm v = dot v v :=
  Real.mul_self_sqrt (dot_self_nonneg v)

theorem dot_self_eq_zero {v : Vector3d} (h : dot v v = 0) : v = 0 := by
  unfold dot at h
  have hx : v.x = 0 := by nlinarith [mul_self_nonneg v.x, mul_self_nonneg v.y, mul_self_nonneg v.z]
  have hy : v.y = 0 := by nlinarith [mul_self_nonneg v.x, mul_self_nonneg v.y, mul_self_nonneg v.z]
  have hz : v.z = 0 := by nlinarith [mul_self_nonneg v.x, mul_self_nonneg v.y, mul_self_nonneg v.z]
  ext <;> simp [hx, hy, hz]

theorem norm_pos_of_ne_zero {v : Vector3d} (h : v ≠ 0) : 0 < norm v := by
  have h0 : 0 ≤ dot v v := dot_self_nonneg v
  have h1 : dot v v ≠ 0 := fun e => h (dot_self_eq_zero e)
  exact Real.sqrt_pos.mpr (lt_of_le_of_ne h0 (Ne.symm h1))

theorem dot_smul_right (a b : Vector3d) (t : ℝ) : dot a (t • b) = t * dot a b := by
  simp [dot]; ring

theorem dot_div_right (a b : Vector3d) (t : ℝ) : dot a (b / t) = dot a b / t := by
  simp [dot]; ring

theorem norm_smul (t : ℝ) (v : Vector3d) : norm (t • v) = |t| * norm v := by
  unfold norm
  have h : dot (t • v) (t • v) = t ^ 2 * dot v v := by simp [dot]; ring
  rw [h, Real.sqrt_mul (sq_nonneg t), Real.sqrt_sq_eq_abs]

theorem norm_neg (v : Vector3d) : norm (-v) = norm v := by
  unfold norm
  have h : dot (-v) (-v) = dot v v := by simp [dot]
  rw [h]

/-! ## Uniform sampling and the cached area -/

/-- C6: for a triangle, sphere or rectangle shape and every variate `s`,
`sample_uniform(s, get_shape_prob(), sample)` returns and writes the probability
`evaluate_pdf_uniform()`, and both are `get_shape_prob() * get_rcp_area()`,
whatever `s` and the sampled point are. -/
theorem sample_uniform_probability_eq_evaluate_pdf_uniform
    (sh : EmittingShape) (F : Foundation) (s : Vector2d) (light_sample : LightSample)
    (hkind : sh.get_shape_type = ShapeType.TriangleShape
      ∨ sh.get_shape_type = ShapeType.SphereShape
      ∨ sh.get_shape_type = ShapeType.RectShape) :
    ∃ ls, sh.sample_uniform F s sh.get_shape_prob light_sample = some ls
      ∧ ls.m_probability = sh.evaluate_pdf_uniform
      ∧ ls.m_probability = sh.get_shape_prob * sh.get_rcp_area
      ∧ sh.evaluate_pdf_uniform = sh.get_shape_prob * sh.get_rcp_area := by
  rcases hkind with h | h | h <;>
    simp [EmittingShape.sample_uniform, EmittingShape.evaluate_pdf_uniform, h]

/-- C8 (fails on the code): `create_triangle_shape` assigns neither `m_area` nor
`m_rcp_area`, so both getters return what the storage held; built into zeroed storage,
the triangle `(0,0,0), (1,0,0), (0,1,0)` of area `1/2` reports area `0`, reciprocal
area `0` and, with shape probability one, uniform density `0` instead of `2`. -/
theorem create_triangle_shape_leaves_area_unassigned :
    (∀ (mem : EmittingShape) (assembly_instance object_instance_index primitive_index
        material : Nat) (v0 v1 v2 n0 n1 n2 geometric_normal : Vector3d),
      (EmittingShape.create_triangle_shape mem assembly_instance object_instance_index
          primitive_index material v0 v1 v2 n0 n1 n2 geometric_normal).get_area = mem.get_area
      ∧ (EmittingShape.create_triangle_shape mem assembly_instance object_instance_index
          primitive_index material v0 v1 v2 n0 n1 n2 geometric_normal).get_rcp_area
        = mem.get_rcp_area)
    ∧ 0.5 * norm (cross ((⟨1, 0, 0⟩ : Vector3d) - ⟨0, 0, 0⟩) ((⟨0, 1, 0⟩ : Vector3d) - ⟨0, 0, 0⟩))
        = 1 / 2
    ∧ (EmittingShape.create_triangle_shape zero_storage 0 0 0 0 ⟨0, 0, 0⟩ ⟨1, 0, 0⟩ ⟨0, 1, 0⟩
        ⟨0, 0, 1⟩ ⟨0, 0, 1⟩ ⟨0, 0, 1⟩ ⟨0, 0, 1⟩).get_area = 0
    ∧ (EmittingShape.create_triangle_shape zero_storage 0 0 0 0 ⟨0, 0, 0⟩ ⟨1, 0, 0⟩ ⟨0, 1, 0⟩
        ⟨0, 0, 1⟩ ⟨0, 0, 1⟩ ⟨0, 0, 1⟩ ⟨0, 0, 1⟩).get_rcp_area = 0
    ∧ ((EmittingShape.create_triangle_shape zero_storage 0 0 0 0 ⟨0, 0, 0⟩ ⟨1, 0, 0⟩ ⟨0, 1, 0⟩
        ⟨0, 0, 1⟩ ⟨0, 0, 1⟩ ⟨0, 0, 1⟩ ⟨0, 0, 1⟩).set_shape_prob 1).evaluate_pdf_uniform = 0 := by
  refine ⟨fun _ _ _ _ _ _ _ _ _ _ _ _ => ⟨rfl, rfl⟩, ?_, rfl, rfl, ?_⟩
  · have h : dot (cross ((⟨1, 0, 0⟩ : Vector3d) - ⟨0, 0, 0⟩) ((⟨0, 1, 0⟩ : Vector3d) - ⟨0, 0, 0⟩))
        (cross ((⟨1, 0, 0⟩ : Vector3d) - ⟨0, 0, 0⟩) ((⟨0, 1, 0⟩ : Vector3d) - ⟨0, 0, 0⟩)) = 1 := by
      simp [dot, cross]
    rw [norm, h, Real.sqrt_one]
    norm_num
  · simp [EmittingShape.evaluate_pdf_uniform, EmittingShape.set_shape_prob,
      EmittingShape.get_shape_prob, EmittingShape.get_rcp_area,
      EmittingShape.create_triangle_shape, EmittingShape.ctor, zero_storage]

/-- C9 (fails on the code): for radius `0` and for a zero edge the factories set
`m_area = 0` and leave `m_rcp_area` unassigned, so `get_rcp_area()` returns what the
storage held; built into storage that held a unit rectangle, the sphere of radius `0`
and the rectangle with edge `x = 0` report area `0`, reciprocal area `1` and, with
shape probability one, uniform density `1`. -/
theorem zero_size_factories_leave_rcp_area_unassigned :
    (∀ (mem : EmittingShape) (assembly_instance object_instance_index material : Nat)
        (center : Vector3d),
      (EmittingShape.create_sphere_shape mem assembly_instance object_instance_index material
          center 0).get_area = 0
      ∧ (EmittingShape.create_sphere_shape mem assembly_instance object_instance_index material
          center 0).get_rcp_area = mem.get_rcp_area)
    ∧ (∀ (mem : EmittingShape) (assembly_instance object_instance_index material : Nat)
        (corner y n : Vector3d),
      (EmittingShape.create_rect_shape mem assembly_instance object_instance_index material
          corner 0 y n).get_area = 0
      ∧ (EmittingShape.create_rect_shape mem assembly_instance object_instance_index material
          corner 0 y n).get_rcp_area = mem.get_rcp_area)
    ∧ (∀ (mem : EmittingShape) (assembly_instance object_instance_index material : Nat)
        (corner x n : Vector3d),
      (EmittingShape.create_rect_shape mem assembly_instance object_instance_index material
          corner x 0 n).get_area = 0
      ∧ (EmittingShape.create_rect_shape mem assembly_instance object_instance_index material
          corner x 0 n).get_rcp_area = mem.get_rcp_area)
    ∧ stale_storage.get_rcp_area = 1
    ∧ (EmittingShape.create_sphere_shape stale_storage 0 0 0 ⟨0, 0, 0⟩ 0).get_rcp_area = 1
    ∧ ((EmittingShape.create_sphere_shape stale_storage 0 0 0 ⟨0, 0, 0⟩ 0).set_shape_prob
        1).evaluate_pdf_uniform = 1
    ∧ (EmittingShape.create_rect_shape stale_storage 0 0 0 ⟨0, 0, 0⟩ 0 ⟨0, 1, 0⟩
        ⟨0, 0, 1⟩).get_rcp_area = 1
    ∧ (∀ (s : Vector2d),
        ((EmittingShape.create_sphere_shape stale_storage 0 0 0 ⟨0, 0, 0⟩ 0).sample_uniform
          reference_foundation s 1 blank_sample).map LightSample.m_probability = some 1) := by
  have hn0 : norm 0 = 0 := by simp [norm, dot]
  have hsph : ∀ (mem : EmittingShape) (a b c : Nat) (center : Vector3d),
      (EmittingShape.create_sphere_shape mem a b c center 0).get_area = 0
      ∧ (EmittingShape.create_sphere_shape mem a b c center 0).get_rcp_area
        = mem.get_rcp_area := by
    intro mem a b c center
    simp [EmittingShape.create_sphere_shape, EmittingShape.get_area,
      EmittingShape.get_rcp_area, EmittingShape.ctor, square]
  have hrect : ∀ (mem : EmittingShape) (a b c : Nat) (corner y n : Vector3d),
      (EmittingShape.create_rect_shape mem a b c corner 0 y n).get_area = 0
      ∧ (EmittingShape.create_rect_shape mem a b c corner 0 y n).get_rcp_area
        = mem.get_rcp_area := by
    intro mem a b c corner y n
    simp [EmittingShape.create_rect_shape, EmittingShape.get_area,
      EmittingShape.get_rcp_area, EmittingShape.ctor, hn0]
  have hrecty : ∀ (mem : EmittingShape) (a b c : Nat) (corner x n : Vector3d),
      (EmittingShape.create_rect_shape mem a b c corner x 0 n).get_area = 0
      ∧ (EmittingShape.create_rect_shape mem a b c corner x 0 n).get_rcp_area
        = mem.get_rcp_area := by
    intro mem a b c corner x n
    simp [EmittingShape.create_rect_shape, EmittingShape.get_area,
      EmittingShape.get_rcp_area, EmittingShape.ctor, hn0]
  have hstale : stale_storage.get_rcp_area = 1 := by
    have h1 : norm ⟨1, 0, 0⟩ = 1 := by simp [norm, dot]
    have h2 : norm ⟨0, 1, 0⟩ = 1 := by simp [norm, dot]
    simp [stale_storage, unit_rect, EmittingShape.create_rect_shape, EmittingShape.get_rcp_area,
      EmittingShape.set_shape_prob, EmittingShape.ctor, h1, h2]
  refine ⟨hsph, hrect, hrecty, hstale, ?_, ?_, ?_, ?_⟩
  · rw [(hsph _ _ _ _ _).2, hstale]
  · have h := (hsph stale_storage 0 0 0 ⟨0, 0, 0⟩).2
    simp only [EmittingShape.get_rcp_area] at h hstale
    simp [EmittingShape.evaluate_pdf_uniform, EmittingShape.set_shape_prob,
      EmittingShape.get_shape_prob, EmittingShape.get_rcp_area, h, hstale]
  · rw [(hrect _ _ _ _ _ _ _).2, hstale]
  · intro s
    have h := (hsph stale_storage 0 0 0 ⟨0, 0, 0⟩).2
    have ht : (EmittingShape.create_sphere_shape stale_storage 0 0 0 ⟨0, 0, 0⟩ 0).get_shape_type
        = ShapeType.SphereShape := by
      simp [EmittingShape.create_sphere_shape, EmittingShape.get_shape_type, EmittingShape.ctor,
        square]
    simp only [EmittingShape.sample_uniform, ht, Option.map_some', h, hstale, one_mul]

/-- C10: for a triangle or rectangle shape and a point `p` whose signed plane distance
`dot(p, geometric_normal) + plane_dist` is below `1e-6`, `sample_solid_angle` at `p`
returns false for every variate and `evaluate_pdf_solid_angle(p, l)` returns `0` for
every `l`. -/
theorem side_check_rejects
    (sh : EmittingShape) (F : Foundation) (shading_point : ShadingPoint) (s : Vector2d)
    (shape_prob : ℝ) (light_sample : LightSample) (l : Vector3d)
    (hside :
      (sh.get_shape_type = ShapeType.TriangleShape
        ∧ dot shading_point.get_point sh.m_geom.m_triangle.m_geometric_normal
            + sh.m_geom.m_triangle.m_plane_dist < 1.0e-6)
      ∨ (sh.get_shape_type = ShapeType.RectShape
        ∧ dot shading_point.get_point sh.m_geom.m_rect.m_geometric_normal
            + sh.m_geom.m_rect.m_plane_dist < 1.0e-6)) :
    signed_plane_distance sh.m_geom.m_triangle shading_point.get_point
        = dot shading_point.get_point sh.m_geom.m_triangle.m_geometric_normal
          + sh.m_geom.m_triangle.m_plane_dist
    ∧ signed_plane_distance sh.m_geom.m_rect shading_point.get_point
        = dot shading_point.get_point sh.m_geom.m_rect.m_geometric_normal
          + sh.m_geom.m_rect.m_plane_dist
    ∧ (sh.sample_solid_angle F shading_point s shape_prob light_sample).map Prod.fst
        = some false
    ∧ sh.evaluate_pdf_solid_angle shading_point.get_point l = some 0 := by
  refine ⟨rfl, rfl, ?_⟩
  rcases hside with ⟨ht, hd⟩ | ⟨ht, hd⟩
  · have hd2 : signed_plane_distance sh.m_geom.m_triangle shading_point.get_point < 1.0e-6 := hd
    simp only [EmittingShape.sample_solid_angle, EmittingShape.evaluate_pdf_solid_angle, ht,
      if_pos hd2, Option.map_some', and_self]
  · have hd2 : signed_plane_distance sh.m_geom.m_rect shading_point.get_point < 1.0e-6 := hd
    simp only [EmittingShape.sample_solid_angle, EmittingShape.evaluate_pdf_solid_angle, ht,
      if_pos hd2, Option.map_some', and_self]

/-! ## Solid-angle sampling of triangles -/

theorem sub_add_smul (o d : Vector3d) (t : ℝ) : o - (o + t • d) = -(t • d) := by
  ext <;> simp

theorem pdf_flip_direction (gn d : Vector3d) (t rcp : ℝ) (ht : 0 ≤ t) (hd : norm d = 1) :
    rcp * dot gn (-(t • d) / norm (-(t • d))) / square (norm (-(t • d)))
      = rcp * (-dot gn d) / square t := by
  have hn : norm (-(t • d)) = t := by
    rw [norm_neg, norm_smul, hd, abs_of_nonneg ht, mul_one]
  rw [hn]
  rcases eq_or_lt_of_le ht with h0 | hpos
  · subst h0
    simp [square]
  · have hne : t ≠ 0 := ne_of_gt hpos
    have hdot : dot gn (-(t • d) / t) = -dot gn d := by
      simp only [dot, Vector3d.div_x, Vector3d.div_y, Vector3d.div_z, Vector3d.neg_x,
        Vector3d.neg_y, Vector3d.neg_z, Vector3d.smul_x, Vector3d.smul_y, Vector3d.smul_z]
      field_simp
      ring
    rw [hdot]

/-- C1: for a triangle shape, whenever `sample_solid_angle(o, s, get_shape_prob(), sample)`
returns true, `evaluate_pdf_solid_angle(o, sample.m_point)` is `sample.m_probability`, in
exact real arithmetic, when the sampled direction has unit length and the hit reported by
the ray/triangle routine lies in the range `[0, max)` of the ray. -/
theorem triangle_evaluate_pdf_eq_sample_probability
    (sh : EmittingShape) (F : Foundation) (shading_point : ShadingPoint) (s : Vector2d)
    (light_sample ls : LightSample)
    (htype : sh.get_shape_type = ShapeType.TriangleShape)
    (hunit : norm ((sh.triangle_sampler shading_point.get_point).sample s) = 1)
    (hrange : ∀ hit, sh.triangle_hit F shading_point.get_point
      ((sh.triangle_sampler shading_point.get_point).sample s) = some hit → 0 ≤ hit.t)
    (hret : sh.sample_solid_angle F shading_point s sh.get_shape_prob light_sample
      = some (true, ls)) :
    sh.evaluate_pdf_solid_angle shading_point.get_point ls.m_point = some ls.m_probability := by
  simp only [EmittingShape.triangle_sampler, EmittingShape.triangle_hit] at hunit hrange
  simp only [EmittingShape.sample_solid_angle, htype] at hret
  split_ifs at hret with hside
  · simp at hret
  · split at hret
    · rename_i hit hhit
      have ht : 0 ≤ hit.t := hrange hit hhit
      simp only [Option.some.injEq, Prod.mk.injEq, true_and] at hret
      subst hret
      simp only [EmittingShape.evaluate_pdf_solid_angle, htype, if_neg hside, sub_add_smul]
      rw [pdf_flip_direction _ _ _ _ ht hunit]
    · simp at hret

/-- C4: for a triangle shape, whenever `sample_solid_angle` returns true there is a hit
`t, u, v` of the ray `(o, d)`, `d` the sampled direction, such that the sampled point is
`o + t * d` and the stored probability is `shape_prob * cos_theta / (solid_angle * t^2)`,
where `cos_theta = -dot(geometric_normal, d)` and `solid_angle` is that of the sampler
built from the vertices and `o`; when `d` has unit length, `t^2` is the squared distance
from `o` to the sampled point, and `t` is that distance when moreover `0 <= t`. -/
theorem triangle_sample_solid_angle_probability
    (sh : EmittingShape) (F : Foundation) (shading_point : ShadingPoint) (s : Vector2d)
    (shape_prob : ℝ) (light_sample ls : LightSample)
    (htype : sh.get_shape_type = ShapeType.TriangleShape)
    (hret : sh.sample_solid_angle F shading_point s shape_prob light_sample
      = some (true, ls)) :
    ∃ hit : Hit,
      sh.triangle_hit F shading_point.get_point
        ((sh.triangle_sampler shading_point.get_point).sample s) = some hit
      ∧ ls.m_point = shading_point.get_point
          + hit.t • (sh.triangle_sampler shading_point.get_point).sample s
      ∧ ls.m_probability = shape_prob *
          (-dot sh.m_geom.m_triangle.m_geometric_normal
            ((sh.triangle_sampler shading_point.get_point).sample s)) /
          ((sh.triangle_sampler shading_point.get_point).solid_angle * hit.t ^ 2)
      ∧ (norm ((sh.triangle_sampler shading_point.get_point).sample s) = 1 →
          hit.t ^ 2 = norm (ls.m_point - shading_point.get_point) ^ 2
          ∧ (0 ≤ hit.t → norm (ls.m_point - shading_point.get_point) = hit.t)) := by
  simp only [EmittingShape.triangle_sampler, EmittingShape.triangle_hit]
  simp only [EmittingShape.sample_solid_angle, htype] at hret
  split_ifs at hret with hside
  · simp at hret
  · split at hret
    · rename_i hit hhit
      simp only [Option.some.injEq, Prod.mk.injEq, true_and] at hret
      subst hret
      refine ⟨hit, hhit, rfl, ?_, ?_⟩
      · simp only [square]
        ring
      · intro hd
        have hv : ∀ o d : Vector3d, o + hit.t • d - o = hit.t • d := by
          intro o d; ext <;> simp
        simp only [hv, norm_smul, hd, mul_one, sq_abs, true_and]
        intro ht
        exact abs_of_nonneg ht
    · simp at hret

/-! ## Solid-angle sampling of spheres -/

theorem sqrt_of_mul_self {a b : ℝ} (hb : 0 ≤ b) (h : a = b * b) : Real.sqrt a = b := by
  rw [h, Real.sqrt_mul_self hb]

theorem sphere_three_get_shape_type : sphere_three.get_shape_type = ShapeType.SphereShape := by
  simp [sphere_three, EmittingShape.create_sphere_shape, EmittingShape.get_shape_type,
    EmittingShape.set_shape_prob, EmittingShape.ctor, square, Real.pi_ne_zero]

theorem sphere_three_geom :
    sphere_three.m_geom.m_sphere = ⟨⟨0, 0, 0⟩, 3⟩ ∧ sphere_three.get_shape_prob = 1 := by
  simp [sphere_three, EmittingShape.create_sphere_shape, EmittingShape.get_shape_prob,
    EmittingShape.set_shape_prob, EmittingShape.ctor, square, Real.pi_ne_zero]

/-- C3 (fails on the code): for the sphere of radius 3 about the origin with shape
probability one and the shading point `(5, 0, 0)` outside it, for every variate the
sampler returns true and stores the probability `1 / (2 * pi * (1 - 4/5)) = 5 / (2 * pi)`
while `evaluate_pdf_solid_angle` returns `2 * pi * (1 - 4/5) = 2 * pi / 5`, the reciprocal. -/
theorem sphere_evaluate_pdf_ne_sample_probability
    (F : Foundation) (s : Vector2d) (light_sample : LightSample) :
    ∃ ls : LightSample,
      sphere_three.sample_solid_angle F ⟨⟨5, 0, 0⟩⟩ s sphere_three.get_shape_prob light_sample
        = some (true, ls)
      ∧ ls.m_probability = 5 / (2 * Real.pi)
      ∧ sphere_three.evaluate_pdf_solid_angle ⟨5, 0, 0⟩ ls.m_point = some (2 * Real.pi / 5)
      ∧ sphere_three.evaluate_pdf_solid_angle ⟨5, 0, 0⟩ ls.m_point ≠ some ls.m_probability := by
  obtain ⟨hg, hp⟩ := sphere_three_geom
  have hnorm : norm ((⟨0, 0, 0⟩ : Vector3d) - ⟨5, 0, 0⟩) = 5 := by
    unfold norm
    exact sqrt_of_mul_self (by norm_num) (by simp [dot])
  have hq : Real.sqrt (1 - square (3 / 5)) = 4 / 5 :=
    sqrt_of_mul_self (by norm_num) (by unfold square; norm_num)
  have hq2 : Real.sqrt (max 0 (1 - square 3 / square_distance ⟨5, 0, 0⟩ ⟨0, 0, 0⟩)) = 4 / 5 := by
    apply sqrt_of_mul_self (by norm_num)
    simp [square, square_distance, dot]
    norm_num
  have hout : ¬ square_distance ⟨5, 0, 0⟩ ⟨0, 0, 0⟩ ≤ square 3 := by
    simp [square, square_distance, dot]
    norm_num
  have hpi := Real.pi_gt_three
  have hne : (2 * Real.pi / 5 : ℝ) ≠ 5 / (2 * Real.pi) := by
    intro h
    rw [div_eq_div_iff (by norm_num) (by positivity)] at h
    nlinarith
  have heval : ∀ l : Vector3d,
      sphere_three.evaluate_pdf_solid_angle ⟨5, 0, 0⟩ l = some (2 * Real.pi / 5) := by
    intro l
    simp only [EmittingShape.evaluate_pdf_solid_angle, sphere_three_get_shape_type, hg, hp,
      if_neg hout, hq2]
    congr 1
    ring
  have hsample : ∃ ls : LightSample,
      sphere_three.sample_solid_angle F ⟨⟨5, 0, 0⟩⟩ s sphere_three.get_shape_prob light_sample
        = some (true, ls)
      ∧ ls.m_probability = 5 / (2 * Real.pi) := by
    simp only [EmittingShape.sample_solid_angle, sphere_three_get_shape_type]
    refine ⟨_, rfl, ?_⟩
    simp only [hg, hp, ShadingPoint.get_point, hnorm, hq]
    field_simp
    ring
  obtain ⟨ls, h1, h2⟩ := hsample
  refine ⟨ls, h1, h2, heval _, ?_⟩
  rw [heval, h2]
  intro h
  exact hne (Option.some.inj h)

/-! ## Solid-angle sampling of rectangles -/

theorem norm_unit_x : norm ⟨1, 0, 0⟩ = 1 := by simp [norm, dot]

theorem norm_unit_y : norm ⟨0, 1, 0⟩ = 1 := by simp [norm, dot]

theorem unit_rect_get_shape_type : unit_rect.get_shape_type = ShapeType.RectShape := by
  simp only [unit_rect, EmittingShape.create_rect_shape, EmittingShape.get_shape_type,
    EmittingShape.set_shape_prob, EmittingShape.ctor]
  split_ifs <;> rfl

theorem unit_rect_geom :
    unit_rect.m_geom.m_rect = ⟨⟨0, 0, 0⟩, ⟨1, 0, 0⟩, ⟨0, 1, 0⟩, 1, 1, ⟨0, 0, 1⟩, 0⟩
      ∧ unit_rect.get_shape_prob = 1 := by
  simp only [unit_rect, EmittingShape.create_rect_shape, EmittingShape.get_shape_prob,
    EmittingShape.set_shape_prob, EmittingShape.ctor]
  split_ifs <;> simp [norm_unit_x, norm_unit_y, dot]

theorem above_corner_sampler :
    SphericalRectangleSampler.create ⟨0, 0, 0⟩ ⟨1, 0, 0⟩ ⟨0, 1, 0⟩ ⟨0, 0, 1⟩ ⟨1, 0, 4 / 3⟩
      = { m_x := ⟨1, 0, 0⟩, m_y := ⟨0, 1, 0⟩, m_z := ⟨0, 0, 1⟩, m_o := ⟨1, 0, 4 / 3⟩,
          m_y0 := 0, m_y1 := 1, m_z0 := -(4 / 3), m_z0z0 := 16 / 9, m_y0y0 := 0, m_y1y1 := 1,
          m_sr := Real.arccos (-(9 / 25)) - Real.pi / 2,
          m_n0 := ⟨0, -(4 / 3), 0⟩, m_n1 := ⟨4 / 3, 0, 0⟩,
          m_n2 := ⟨0, 4 / 3, 3 / 5⟩, m_n3 := ⟨-(4 / 3), 0, 3 / 5⟩,
          m_g0 := Real.pi / 2, m_g1 := Real.pi / 2,
          m_g2 := Real.arccos (-(9 / 25)), m_g3 := Real.pi / 2 } := by
  have h9 : Real.sqrt 9 = 3 := sqrt_of_mul_self (by norm_num) (by norm_num)
  have h25 : Real.sqrt 25 = 5 := sqrt_of_mul_self (by norm_num) (by norm_num)
  have hd : ((⟨0, 0, 0⟩ : Vector3d) - ⟨1, 0, 4 / 3⟩) = ⟨-1, 0, -(4 / 3)⟩ := by
    ext <;> simp
  simp only [SphericalRectangleSampler.create, hd, norm_unit_x, norm_unit_y]
  norm_num [dot, square, h9, h25, Real.arccos_zero]
  ring

theorem above_corner_sample_z (s : Vector2d) :
    ((SphericalRectangleSampler.create ⟨0, 0, 0⟩ ⟨1, 0, 0⟩ ⟨0, 1, 0⟩ ⟨0, 0, 1⟩
      ⟨1, 0, 4 / 3⟩).sample s).z = 0 := by
  rw [above_corner_sampler]
  simp [SphericalRectangleSampler.sample]

theorem above_corner_solid_angle_pos :
    0 < (SphericalRectangleSampler.create ⟨0, 0, 0⟩ ⟨1, 0, 0⟩ ⟨0, 1, 0⟩ ⟨0, 0, 1⟩
      ⟨1, 0, 4 / 3⟩).solid_angle := by
  rw [above_corner_sampler]
  simp only [SphericalRectangleSampler.solid_angle]
  by_contra h
  have h2 : Real.arccos (-(9 / 25)) ≤ Real.pi / 2 := by linarith
  rw [Real.arccos_le_pi_div_two] at h2
  norm_num at h2

/-- What the rectangle branch does for `unit_rect` seen from `(1, 0, 4/3)`: with `N` the
distance from the shading point to the sampled point, the sampler stores
`(1 / sr) * cos_theta / N` and the evaluator returns `(1 / sr) * cos_theta / N^2`. -/
theorem unit_rect_sample_above_corner
    (F : Foundation) (s : Vector2d) (light_sample ls : LightSample)
    (hplane : ∀ ray hit, F.intersect_parallelogram ray unit_rect.m_geom.m_rect.m_origin
      unit_rect.m_geom.m_rect.m_x unit_rect.m_geom.m_rect.m_y
      unit_rect.m_geom.m_rect.m_geometric_normal = some hit →
      signed_plane_distance unit_rect.m_geom.m_rect (ray.point_at hit.t) = 0)
    (hret : unit_rect.sample_solid_angle F ⟨⟨1, 0, 4 / 3⟩⟩ s unit_rect.get_shape_prob
      light_sample = some (true, ls)) :
    ∃ N sr : ℝ, 4 / 3 ≤ N ∧ 0 < sr
      ∧ (SphericalRectangleSampler.create ⟨0, 0, 0⟩ ⟨1, 0, 0⟩ ⟨0, 1, 0⟩ ⟨0, 0, 1⟩
          ⟨1, 0, 4 / 3⟩).solid_angle = sr
      ∧ norm (ls.m_point - ⟨1, 0, 4 / 3⟩) = N
      ∧ -dot ⟨0, 0, 1⟩ (normalize ((SphericalRectangleSampler.create ⟨0, 0, 0⟩ ⟨1, 0, 0⟩
          ⟨0, 1, 0⟩ ⟨0, 0, 1⟩ ⟨1, 0, 4 / 3⟩).sample s - ⟨1, 0, 4 / 3⟩)) = 4 / 3 / N
      ∧ ls.m_probability = 1 / sr * (4 / 3 / N) / N
      ∧ unit_rect.evaluate_pdf_solid_angle ⟨1, 0, 4 / 3⟩ ls.m_point
          = some (1 / sr * (4 / 3 / N) / (N * N)) := by
  obtain ⟨hg, hp⟩ := unit_rect_geom
  have hz := above_corner_sample_z s
  have hsr := above_corner_solid_angle_pos
  simp only [hg] at hplane
  simp only [EmittingShape.sample_solid_angle, EmittingShape.evaluate_pdf_solid_angle,
    unit_rect_get_shape_type, hg, hp, ShadingPoint.get_point] at hret ⊢
  generalize (SphericalRectangleSampler.create ⟨0, 0, 0⟩ ⟨1, 0, 0⟩ ⟨0, 1, 0⟩ ⟨0, 0, 1⟩
      ⟨1, 0, 4 / 3⟩).solid_angle = sr at hret hsr ⊢
  generalize (SphericalRectangleSampler.create ⟨0, 0, 0⟩ ⟨1, 0, 0⟩ ⟨0, 1, 0⟩ ⟨0, 0, 1⟩
      ⟨1, 0, 4 / 3⟩).sample s = p at hret hz ⊢
  have hside : ¬ signed_plane_distance
      ({ m_origin := ⟨0, 0, 0⟩, m_x := ⟨1, 0, 0⟩, m_y := ⟨0, 1, 0⟩, m_width := 1, m_height := 1,
         m_geometric_normal := ⟨0, 0, 1⟩, m_plane_dist := 0 } : Rect)
      ⟨1, 0, 4 / 3⟩ < 1.0e-6 := by
    simp only [signed_plane_distance, PlanarShape.m_geometric_normal, PlanarShape.m_plane_dist,
      dot]
    norm_num
  simp only [if_neg hside] at hret ⊢
  split at hret
  · rename_i hit hhit
    have hpl := hplane _ _ hhit
    simp only [Option.some.injEq, Prod.mk.injEq, true_and] at hret
    subst hret
    simp only [signed_plane_distance, PlanarShape.m_geometric_normal, PlanarShape.m_plane_dist,
      Ray.point_at, normalize] at hpl ⊢
    have hv : p - ⟨1, 0, 4 / 3⟩ = ⟨p.x - 1, p.y, -(4 / 3)⟩ := by
      ext <;> simp [hz]
    rw [hv] at hpl ⊢
    generalize hN : norm ⟨p.x - 1, p.y, -(4 / 3)⟩ = N at hpl ⊢
    have hN43 : 4 / 3 ≤ N := by
      rw [← hN, norm]
      apply Real.le_sqrt_of_sq_le
      simp only [dot]
      nlinarith [sq_nonneg (p.x - 1), sq_nonneg p.y]
    have hNpos : 0 < N := by linarith
    have ht : hit.t = N := by
      simp only [dot, Vector3d.add_x, Vector3d.add_y, Vector3d.add_z, Vector3d.smul_x,
        Vector3d.smul_y, Vector3d.smul_z, Vector3d.div_x, Vector3d.div_y, Vector3d.div_z] at hpl
      field_simp at hpl
      linarith
    rw [ht]
    have hpt : (⟨1, 0, 4 / 3⟩ : Vector3d) + N • ((⟨p.x - 1, p.y, -(4 / 3)⟩ : Vector3d) / N)
        = ⟨p.x, p.y, 0⟩ := by
      ext
      all_goals simp
      all_goals field_simp
      all_goals ring
    have hneg : (⟨1, 0, 4 / 3⟩ : Vector3d) - ⟨p.x, p.y, 0⟩
        = -(1 : ℝ) • (⟨p.x - 1, p.y, -(4 / 3)⟩ : Vector3d) := by
      ext <;> simp
    have hpos : (⟨p.x, p.y, 0⟩ : Vector3d) - ⟨1, 0, 4 / 3⟩ = ⟨p.x - 1, p.y, -(4 / 3)⟩ := by
      ext <;> simp
    have hNneg : norm (-(1 : ℝ) • (⟨p.x - 1, p.y, -(4 / 3)⟩ : Vector3d)) = N := by
      rw [norm_smul, hN]
      simp
    simp only [hpt, hneg, hpos, hNneg, hN]
    refine ⟨N, sr, hN43, hsr, rfl, rfl, ?_, ?_, ?_⟩
    · simp [dot]
      ring
    · simp [dot]
      ring
    · simp [dot, square]
  · simp at hret

/-- C2 (fails on the code): for the unit square seen from `(1, 0, 4/3)`, with shape
probability one, whenever `sample_solid_angle` returns true and the hit reported by the
ray/parallelogram routine lies in the plane of the rectangle,
`evaluate_pdf_solid_angle(o, sample.m_point)` differs from `sample.m_probability`: the
sampler divides by `t` where the evaluator divides by the squared distance, and the
distance is at least `4/3`. -/
theorem rect_evaluate_pdf_ne_sample_probability
    (F : Foundation) (s : Vector2d) (light_sample ls : LightSample)
    (hplane : ∀ ray hit, F.intersect_parallelogram ray unit_rect.m_geom.m_rect.m_origin
      unit_rect.m_geom.m_rect.m_x unit_rect.m_geom.m_rect.m_y
      unit_rect.m_geom.m_rect.m_geometric_normal = some hit →
      signed_plane_distance unit_rect.m_geom.m_rect (ray.point_at hit.t) = 0)
    (hret : unit_rect.sample_solid_angle F ⟨⟨1, 0, 4 / 3⟩⟩ s unit_rect.get_shape_prob
      light_sample = some (true, ls)) :
    unit_rect.evaluate_pdf_solid_angle (ShadingPoint.mk ⟨1, 0, 4 / 3⟩).get_point ls.m_point
      ≠ some ls.m_probability := by
  obtain ⟨N, sr, hN, hsr, -, -, -, hprob, heval⟩ :=
    unit_rect_sample_above_corner F s light_sample ls hplane hret
  simp only [ShadingPoint.get_point]
  rw [heval, hprob]
  intro h
  have h2 := Option.some.inj h
  have hNpos : 0 < N := by linarith
  field_simp at h2
  nlinarith

/-- C5 (fails on the code): for the unit square seen from `(1, 0, 4/3)`, with shape
probability one, whenever `sample_solid_angle` returns true and the hit reported by the
ray/parallelogram routine lies in the plane of the rectangle, the stored probability
differs from `shape_prob * cos_theta / (solid_angle * distance^2)`: the code divides
by `t`, not by `square(t)`. -/
theorem rect_sample_probability_ne_formula
    (F : Foundation) (s : Vector2d) (light_sample ls : LightSample)
    (hplane : ∀ ray hit, F.intersect_parallelogram ray unit_rect.m_geom.m_rect.m_origin
      unit_rect.m_geom.m_rect.m_x unit_rect.m_geom.m_rect.m_y
      unit_rect.m_geom.m_rect.m_geometric_normal = some hit →
      signed_plane_distance unit_rect.m_geom.m_rect (ray.point_at hit.t) = 0)
    (hret : unit_rect.sample_solid_angle F ⟨⟨1, 0, 4 / 3⟩⟩ s unit_rect.get_shape_prob
      light_sample = some (true, ls)) :
    ls.m_probability ≠
      unit_rect.get_shape_prob *
        (-dot unit_rect.m_geom.m_rect.m_geometric_normal
          (normalize ((unit_rect.rect_sampler ⟨1, 0, 4 / 3⟩).sample s - ⟨1, 0, 4 / 3⟩))) /
        ((unit_rect.rect_sampler ⟨1, 0, 4 / 3⟩).solid_angle
          * norm (ls.m_point - ⟨1, 0, 4 / 3⟩) ^ 2) := by
  obtain ⟨N, sr, hN, hsr, hsa, hdist, hcos, hprob, -⟩ :=
    unit_rect_sample_above_corner F s light_sample ls hplane hret
  obtain ⟨hg, hp⟩ := unit_rect_geom
  simp only [EmittingShape.rect_sampler, hg, hp, hsa, hdist, hcos, hprob]
  intro h
  have hNpos : 0 < N := by linarith
  field_simp at h
  have h3 : sr * N ^ 2 * (N - 1) = 0 := by linear_combination (1 / 3) * h
  have h4 : sr * N ^ 2 ≠ 0 := by positivity
  rcases mul_eq_zero.mp h3 with h5 | h5
  · exact h4 h5
  · linarith

/-! ## The code on concrete inputs -/

theorem moeller_trumbore_t_nonneg {v0 v1 v2 : Vector3d} {ray : Ray} {hit : Hit}
    (h : moeller_trumbore v0 v1 v2 ray = some hit) : 0 ≤ hit.t := by
  simp only [moeller_trumbore] at h
  split_ifs at h with h1 h2
  simp only [Option.some.injEq] at h
  subst h
  simp only [not_or, not_lt] at h2
  exact h2.2.2.2

theorem plane_parallelogram_on_plane {ray : Ray} {corner x y n : Vector3d} {hit : Hit}
    (h : plane_parallelogram ray corner x y n = some hit) :
    dot (ray.point_at hit.t) n + -dot corner n = 0 := by
  simp only [plane_parallelogram] at h
  split_ifs at h with h1 h2
  simp only [Option.some.injEq] at h
  subst h
  simp only [Ray.point_at, dot, Vector3d.add_x, Vector3d.add_y, Vector3d.add_z,
    Vector3d.smul_x, Vector3d.smul_y, Vector3d.smul_z, Vector3d.sub_x, Vector3d.sub_y,
    Vector3d.sub_z] at h1 ⊢
  field_simp
  ring

theorem triangle_sample_second_zero (S : SphericalTriangleSampler) (s0 : ℝ) :
    S.sample ⟨s0, 0⟩ = S.m_B := by
  ext <;> simp [SphericalTriangleSampler.sample, square]

theorem corner_triangle_get_shape_type :
    corner_triangle.get_shape_type = ShapeType.TriangleShape := rfl

theorem corner_triangle_geom :
    corner_triangle.m_geom.m_triangle
        = ⟨⟨1, 0, 0⟩, ⟨0, 0, 0⟩, ⟨0, 1, 0⟩, ⟨0, 0, 1⟩, ⟨0, 0, 1⟩, ⟨0, 0, 1⟩, ⟨0, 0, 1⟩, 0⟩
      ∧ corner_triangle.get_shape_prob = 1 := by
  simp [corner_triangle, EmittingShape.create_triangle_shape, EmittingShape.get_shape_prob,
    EmittingShape.set_shape_prob, EmittingShape.ctor, dot]

theorem corner_triangle_direction (s0 : ℝ) :
    (corner_triangle.triangle_sampler ⟨0, 0, 1⟩).sample ⟨s0, 0⟩ = ⟨0, 0, -1⟩ := by
  rw [triangle_sample_second_zero]
  have hn : norm ((⟨0, 0, 0⟩ : Vector3d) - ⟨0, 0, 1⟩) = 1 := by simp [norm, dot]
  simp only [EmittingShape.triangle_sampler, SphericalTriangleSampler.create,
    corner_triangle_geom.1, normalize, hn]
  ext <;> simp

theorem corner_triangle_hit :
    moeller_trumbore ⟨1, 0, 0⟩ ⟨0, 0, 0⟩ ⟨0, 1, 0⟩ ⟨⟨0, 0, 1⟩, ⟨0, 0, -1⟩⟩ = some ⟨1, 1, 0⟩ := by
  simp only [moeller_trumbore]
  norm_num [dot, cross]

/-- The triangle branch run on `corner_triangle` seen from `(0, 0, 1)` with the variate
`(0, 0)`: the sampled direction is `(0, 0, -1)`, the hit is at `t = 1` and the sampled
point is the vertex `(0, 0, 0)`. -/
theorem corner_triangle_sample (shape_prob : ℝ) :
    ∃ ls : LightSample,
      corner_triangle.sample_solid_angle reference_foundation ⟨⟨0, 0, 1⟩⟩ ⟨0, 0⟩ shape_prob
        blank_sample = some (true, ls)
      ∧ ls.m_point = ⟨0, 0, 0⟩ := by
  have hd := corner_triangle_direction 0
  simp only [EmittingShape.triangle_sampler] at hd
  have hside : ¬ signed_plane_distance corner_triangle.m_geom.m_triangle ⟨0, 0, 1⟩ < 1.0e-6 := by
    simp only [corner_triangle_geom.1, signed_plane_distance, PlanarShape.m_geometric_normal,
      PlanarShape.m_plane_dist, dot]
    norm_num
  have hhit : reference_foundation.triangle_intersect ⟨1, 0, 0⟩ ⟨0, 0, 0⟩ ⟨0, 1, 0⟩
      ⟨⟨0, 0, 1⟩, ⟨0, 0, -1⟩⟩ = some ⟨1, 1, 0⟩ := corner_triangle_hit
  simp only [EmittingShape.sample_solid_angle, corner_triangle_get_shape_type,
    ShadingPoint.get_point, if_neg hside, hd]
  simp only [corner_triangle_geom.1, hhit]
  refine ⟨_, rfl, ?_⟩
  ext <;> simp

/-- Witness of C1: `corner_triangle` seen from `(0, 0, 1)` with the variate `(0, 0)`. -/
theorem triangle_evaluate_pdf_eq_sample_probability_witness :
    ∃ ls : LightSample,
      corner_triangle.sample_solid_angle reference_foundation ⟨⟨0, 0, 1⟩⟩ ⟨0, 0⟩
        corner_triangle.get_shape_prob blank_sample = some (true, ls)
      ∧ corner_triangle.evaluate_pdf_solid_angle ⟨0, 0, 1⟩ ls.m_point
        = some ls.m_probability := by
  obtain ⟨ls, hls, -⟩ := corner_triangle_sample corner_triangle.get_shape_prob
  refine ⟨ls, hls, ?_⟩
  exact triangle_evaluate_pdf_eq_sample_probability corner_triangle reference_foundation
    ⟨⟨0, 0, 1⟩⟩ ⟨0, 0⟩ blank_sample ls corner_triangle_get_shape_type
    (by
      simp only [ShadingPoint.get_point]
      rw [corner_triangle_direction]
      simp [norm, dot])
    (fun hit h => moeller_trumbore_t_nonneg h)
    hls

/-- Witness of C4: `corner_triangle` seen from `(0, 0, 1)` with the variate `(0, 0)` and
shape probability `1/2`; the hit is at `t = 1`, the distance to the sampled vertex. -/
theorem triangle_sample_solid_angle_probability_witness :
    ∃ (ls : LightSample) (hit : Hit),
      corner_triangle.sample_solid_angle reference_foundation ⟨⟨0, 0, 1⟩⟩ ⟨0, 0⟩ (1 / 2)
        blank_sample = some (true, ls)
      ∧ ls.m_point = ⟨0, 0, 1⟩ + hit.t • (⟨0, 0, -1⟩ : Vector3d)
      ∧ ls.m_probability = 1 / 2 * (-dot ⟨0, 0, 1⟩ ⟨0, 0, -1⟩) /
          ((corner_triangle.triangle_sampler ⟨0, 0, 1⟩).solid_angle * hit.t ^ 2) := by
  obtain ⟨ls, hls, -⟩ := corner_triangle_sample (1 / 2)
  obtain ⟨hit, -, hpoint, hprob, -⟩ :=
    triangle_sample_solid_angle_probability corner_triangle reference_foundation
      ⟨⟨0, 0, 1⟩⟩ ⟨0, 0⟩ (1 / 2) blank_sample ls corner_triangle_get_shape_type hls
  simp only [ShadingPoint.get_point, corner_triangle_direction, corner_triangle_geom.1]
    at hpoint hprob
  exact ⟨ls, hit, hls, hpoint, hprob⟩

theorem above_corner_sample_origin :
    (SphericalRectangleSampler.create ⟨0, 0, 0⟩ ⟨1, 0, 0⟩ ⟨0, 1, 0⟩ ⟨0, 0, 1⟩
      ⟨1, 0, 4 / 3⟩).sample ⟨0, 0⟩ = ⟨0, 0, 0⟩ := by
  rw [above_corner_sampler]
  have hsin : Real.sin (0 * (Real.arccos (-(9 / 25)) - Real.pi / 2) - Real.arccos (-(9 / 25))
      - Real.pi / 2 + 2 * Real.pi) = 9 / 25 := by
    have he : 0 * (Real.arccos (-(9 / 25)) - Real.pi / 2) - Real.arccos (-(9 / 25))
        - Real.pi / 2 + 2 * Real.pi
        = -(Real.arccos (-(9 / 25)) + Real.pi / 2) + 2 * Real.pi := by ring
    rw [he, Real.sin_add_two_pi, Real.sin_neg, Real.sin_add_pi_div_two,
      Real.cos_arccos (by norm_num) (by norm_num)]
    norm_num
  have h1 : Real.sqrt (25 / 9) = 5 / 3 := sqrt_of_mul_self (by norm_num) (by norm_num)
  have h2 : Real.sqrt (16 / 25) = 4 / 5 := sqrt_of_mul_self (by norm_num) (by norm_num)
  simp only [SphericalRectangleSampler.sample, hsin]
  have hfu : (Real.cos (0 * (Real.arccos (-(9 / 25)) - Real.pi / 2) - Real.arccos (-(9 / 25))
      - Real.pi / 2 + 2 * Real.pi) * 0 - 3 / 5) / (9 / 25) = -(5 / 3) := by norm_num
  rw [hfu]
  have hcs : copysign_one (-(5 / 3)) = -1 := by simp [copysign_one]
  have hsq : Real.sqrt (square (-(5 / 3)) + square 0) = 5 / 3 :=
    sqrt_of_mul_self (by norm_num) (by norm_num [square])
  rw [hcs, hsq]
  have hss : SphericalRectangleSampler.safe_sqrt (1 - square (-1 / (5 / 3))) = 4 / 5 := by
    unfold SphericalRectangleSampler.safe_sqrt
    apply sqrt_of_mul_self (by norm_num)
    norm_num [square]
  rw [hss]
  have hxu : -(-1 / (5 / 3)) * -(4 / 3) / (4 / 5) = (-1 : ℝ) := by norm_num
  rw [hxu]
  ext <;> simp [lerp]

theorem above_corner_direction :
    normalize ((⟨0, 0, 0⟩ : Vector3d) - ⟨1, 0, 4 / 3⟩) = ⟨-(3 / 5), 0, -(4 / 5)⟩ := by
  have hn : norm ((⟨0, 0, 0⟩ : Vector3d) - ⟨1, 0, 4 / 3⟩) = 5 / 3 := by
    unfold norm
    apply sqrt_of_mul_self (by norm_num)
    norm_num [dot]
  rw [normalize, hn]
  ext <;> norm_num

theorem above_corner_hit :
    plane_parallelogram ⟨⟨1, 0, 4 / 3⟩, ⟨-(3 / 5), 0, -(4 / 5)⟩⟩ ⟨0, 0, 0⟩ ⟨1, 0, 0⟩ ⟨0, 1, 0⟩
      ⟨0, 0, 1⟩ = some ⟨5 / 3, 0, 0⟩ := by
  simp only [plane_parallelogram, Ray.point_at]
  norm_num [dot]

/-- The rectangle branch run on `unit_rect` seen from `(1, 0, 4/3)` with the variate
`(0, 0)`: the sampled point is the corner `(0, 0, 0)`, at distance `5/3`, the direction
is `(-3/5, 0, -4/5)`, `cos_theta` is `4/5` and the stored probability is
`shape_prob * ((1 / solid_angle) * (4/5) / (5/3))`. -/
theorem unit_rect_sample_corner (shape_prob : ℝ) :
    ∃ ls : LightSample,
      unit_rect.sample_solid_angle reference_foundation ⟨⟨1, 0, 4 / 3⟩⟩ ⟨0, 0⟩ shape_prob
        blank_sample = some (true, ls)
      ∧ ls.m_point = ⟨0, 0, 0⟩
      ∧ ls.m_probability = shape_prob *
          (1 / (unit_rect.rect_sampler ⟨1, 0, 4 / 3⟩).solid_angle * (4 / 5) / (5 / 3)) := by
  obtain ⟨hg, -⟩ := unit_rect_geom
  have hside : ¬ signed_plane_distance
      ({ m_origin := ⟨0, 0, 0⟩, m_x := ⟨1, 0, 0⟩, m_y := ⟨0, 1, 0⟩, m_width := 1, m_height := 1,
         m_geometric_normal := ⟨0, 0, 1⟩, m_plane_dist := 0 } : Rect)
      ⟨1, 0, 4 / 3⟩ < 1.0e-6 := by
    simp only [signed_plane_distance, PlanarShape.m_geometric_normal, PlanarShape.m_plane_dist,
      dot]
    norm_num
  have hhit : reference_foundation.intersect_parallelogram
      ⟨⟨1, 0, 4 / 3⟩, ⟨-(3 / 5), 0, -(4 / 5)⟩⟩ ⟨0, 0, 0⟩ ⟨1, 0, 0⟩ ⟨0, 1, 0⟩ ⟨0, 0, 1⟩
      = some ⟨5 / 3, 0, 0⟩ := above_corner_hit
  simp only [EmittingShape.sample_solid_angle, EmittingShape.rect_sampler,
    unit_rect_get_shape_type, hg, ShadingPoint.get_point, if_neg hside,
    above_corner_sample_origin, above_corner_direction, hhit]
  refine ⟨_, rfl, ?_, ?_⟩
  · simp only [Ray.point_at]
    ext <;> norm_num
  · norm_num [dot]

theorem reference_foundation_on_plane (ray : Ray) (hit : Hit)
    (h : reference_foundation.intersect_parallelogram ray unit_rect.m_geom.m_rect.m_origin
      unit_rect.m_geom.m_rect.m_x unit_rect.m_geom.m_rect.m_y
      unit_rect.m_geom.m_rect.m_geometric_normal = some hit) :
    signed_plane_distance unit_rect.m_geom.m_rect (ray.point_at hit.t) = 0 := by
  have h2 := plane_parallelogram_on_plane h
  simp only [unit_rect_geom.1, signed_plane_distance, PlanarShape.m_geometric_normal,
    PlanarShape.m_plane_dist] at h2 ⊢
  simpa [dot] using h2

/-- Witness of C2: `unit_rect` seen from `(1, 0, 4/3)` with the variate `(0, 0)`; the
sampler stores `(1 / solid_angle) * (4/5) / (5/3)` and the evaluator returns another
value. -/
theorem rect_evaluate_pdf_ne_sample_probability_witness :
    ∃ ls : LightSample,
      unit_rect.sample_solid_angle reference_foundation ⟨⟨1, 0, 4 / 3⟩⟩ ⟨0, 0⟩
        unit_rect.get_shape_prob blank_sample = some (true, ls)
      ∧ ls.m_point = ⟨0, 0, 0⟩
      ∧ ls.m_probability = unit_rect.get_shape_prob *
          (1 / (unit_rect.rect_sampler ⟨1, 0, 4 / 3⟩).solid_angle * (4 / 5) / (5 / 3))
      ∧ unit_rect.evaluate_pdf_solid_angle (ShadingPoint.mk ⟨1, 0, 4 / 3⟩).get_point ls.m_point
        ≠ some ls.m_probability := by
  obtain ⟨ls, hls, hpoint, hprob⟩ := unit_rect_sample_corner unit_rect.get_shape_prob
  exact ⟨ls, hls, hpoint, hprob,
    rect_evaluate_pdf_ne_sample_probability reference_foundation ⟨0, 0⟩ blank_sample ls
      reference_foundation_on_plane hls⟩

/-- Witness of C5: `unit_rect` seen from `(1, 0, 4/3)` with the variate `(0, 0)`; the
stored probability is `(1 / solid_angle) * (4/5) / (5/3)`, not
`(4/5) / (solid_angle * (5/3)^2)`. -/
theorem rect_sample_probability_ne_formula_witness :
    ∃ ls : LightSample,
      unit_rect.sample_solid_angle reference_foundation ⟨⟨1, 0, 4 / 3⟩⟩ ⟨0, 0⟩
        unit_rect.get_shape_prob blank_sample = some (true, ls)
      ∧ ls.m_probability = unit_rect.get_shape_prob *
          (1 / (unit_rect.rect_sampler ⟨1, 0, 4 / 3⟩).solid_angle * (4 / 5) / (5 / 3))
      ∧ ls.m_probability ≠
        unit_rect.get_shape_prob *
          (-dot unit_rect.m_geom.m_rect.m_geometric_normal
            (normalize ((unit_rect.rect_sampler ⟨1, 0, 4 / 3⟩).sample ⟨0, 0⟩
              - ⟨1, 0, 4 / 3⟩))) /
          ((unit_rect.rect_sampler ⟨1, 0, 4 / 3⟩).solid_angle
            * norm (ls.m_point - ⟨1, 0, 4 / 3⟩) ^ 2) := by
  obtain ⟨ls, hls, -, hprob⟩ := unit_rect_sample_corner unit_rect.get_shape_prob
  exact ⟨ls, hls, hprob,
    rect_sample_probability_ne_formula reference_foundation ⟨0, 0⟩ blank_sample ls
      reference_foundation_on_plane hls⟩

/-- Witness of C6: `unit_rect` with the variate `(1/2, 1/2)`. -/
theorem sample_uniform_probability_eq_evaluate_pdf_uniform_witness :
    ∃ ls, unit_rect.sample_uniform reference_foundation ⟨1 / 2, 1 / 2⟩ unit_rect.get_shape_prob
        blank_sample = some ls
      ∧ ls.m_probability = unit_rect.evaluate_pdf_uniform
      ∧ ls.m_probability = unit_rect.get_shape_prob * unit_rect.get_rcp_area
      ∧ unit_rect.evaluate_pdf_uniform = unit_rect.get_shape_prob * unit_rect.get_rcp_area :=
  sample_uniform_probability_eq_evaluate_pdf_uniform unit_rect reference_foundation
    ⟨1 / 2, 1 / 2⟩ blank_sample (Or.inr (Or.inr unit_rect_get_shape_type))

/-- Witness of C10: `unit_rect` and the point `(0, 0, -1)` behind its plane. -/
theorem side_check_rejects_witness :
    (unit_rect.sample_solid_angle reference_foundation ⟨⟨0, 0, -1⟩⟩ ⟨0, 0⟩ 1 blank_sample).map
        Prod.fst = some false
    ∧ unit_rect.evaluate_pdf_solid_angle ⟨0, 0, -1⟩ ⟨0, 0, 0⟩ = some 0 :=
  (side_check_rejects unit_rect reference_foundation ⟨⟨0, 0, -1⟩⟩ ⟨0, 0⟩ 1 blank_sample
    ⟨0, 0, 0⟩
    (Or.inr ⟨unit_rect_get_shape_type, by
      simp only [unit_rect_geom.1, ShadingPoint.get_point, dot]
      norm_num⟩)).2.2

/-! ## Sign of the solid-angle density -/

/-- C13 (fails on the code): the sphere branch of `sample_solid_angle` has no rejecting
branch.  For the sphere of radius 3 about the origin it returns true for every shading
point, also for `(1, 0, 0)` inside the sphere, where the radicand
`1 - square(radius / dist_to_center)` is `-8`, and for the center, where
`dist_to_center` is `0`. -/
theorem sphere_sample_solid_angle_never_rejects :
    (∀ (F : Foundation) (shading_point : ShadingPoint) (s : Vector2d) (shape_prob : ℝ)
        (light_sample : LightSample),
      (sphere_three.sample_solid_angle F shading_point s shape_prob light_sample).map Prod.fst
        = some true)
    ∧ norm (sphere_three.m_geom.m_sphere.m_center - ⟨1, 0, 0⟩) = 1
    ∧ norm (sphere_three.m_geom.m_sphere.m_center - ⟨1, 0, 0⟩)
        ≤ sphere_three.m_geom.m_sphere.m_radius
    ∧ 1 - square (sphere_three.m_geom.m_sphere.m_radius
        / norm (sphere_three.m_geom.m_sphere.m_center - ⟨1, 0, 0⟩)) = -8
    ∧ norm (sphere_three.m_geom.m_sphere.m_center - ⟨0, 0, 0⟩) = 0 := by
  obtain ⟨hg, -⟩ := sphere_three_geom
  have h1 : norm ((⟨0, 0, 0⟩ : Vector3d) - ⟨1, 0, 0⟩) = 1 := by simp [norm, dot]
  have h0 : norm ((⟨0, 0, 0⟩ : Vector3d) - ⟨0, 0, 0⟩) = 0 := by simp [norm, dot]
  refine ⟨?_, ?_, ?_, ?_, ?_⟩
  · intro F shading_point s shape_prob light_sample
    simp only [EmittingShape.sample_solid_angle, sphere_three_get_shape_type,
      Option.map_some']
  · rw [hg, h1]
  · rw [hg, h1]
    norm_num
  · rw [hg, h1]
    norm_num [square]
  · rw [hg, h0]

/-! ## The forward and backward light samplers -/

theorem except_map_eq_error {ε α β : Type} (f : α → β) (x : Except ε α) (e : ε) :
    Except.map f x = Except.error e ↔ x = Except.error e := by
  cases x <;> simp [Except.map]

theorem sample_emitting_shapes_error (self : LightSamplerBase) (time : ℝ) (s : Vector3d)
    (light_sample : LightSample) (e : AssertionFailure)
    (h : self.sample_emitting_shapes time s light_sample = Except.error e) :
    e = AssertionFailure.inside_sample_emitting_shapes := by
  simp only [LightSamplerBase.sample_emitting_shapes] at h
  split at h
  · simp at h
  · simp only [Except.error.injEq] at h
    exact h.symm

theorem sample_non_physical_lights_top_assertion (self : ForwardLightSampler) (time : ℝ)
    (s : Vector3d) (light_sample : LightSample) :
    self.sample_non_physical_lights time s light_sample
      ≠ Except.error AssertionFailure.some_cdf_valid := by
  by_cases hvalid : self.m_non_physical_lights_cdf_valid = true
  · simp only [ForwardLightSampler.sample_non_physical_lights, hvalid, not_true_eq_false,
      if_false]
    split
    · simp
    · split_ifs <;> simp
  · simp [ForwardLightSampler.sample_non_physical_lights, hvalid]

theorem sample_non_physical_lights_cdf_assertion (self : ForwardLightSampler) (time : ℝ)
    (s : Vector3d) (light_sample : LightSample)
    (hvalid : self.m_non_physical_lights_cdf_valid = true) :
    self.sample_non_physical_lights time s light_sample
      ≠ Except.error AssertionFailure.non_physical_lights_cdf_valid := by
  simp only [ForwardLightSampler.sample_non_physical_lights, hvalid, not_true_eq_false,
    if_false]
  split
  · simp
  · split_ifs <;> simp

/-- C14: for every `s` with `s[0]` in `[0, 1)`, `ForwardLightSampler::sample` is the
reference: with both CDFs valid and `s[0] < 0.5`, `sample_non_physical_lights` with the
first coordinate `2 * s[0]` and the probability halved; with both valid and
`s[0] >= 0.5`, `sample_emitting_shapes` with the first coordinate `2 * (s[0] - 0.5)` and
the probability halved; with one CDF valid, its sub-sampler with `s` unchanged.  In the
two split cases the rescaled coordinate lies in `[0, 1)`. -/
theorem forward_sample_eq_reference
    (self : ForwardLightSampler) (time : ℝ) (s : Vector3d) (light_sample : LightSample)
    (h0 : 0 ≤ s.x) (h1 : s.x < 1) :
    self.sample time s light_sample = self.sample_reference time s light_sample
    ∧ (s.x < 0.5 → 0 ≤ 2 * s.x ∧ 2 * s.x < 1)
    ∧ (¬ s.x < 0.5 → 0 ≤ 2 * (s.x - 0.5) ∧ 2 * (s.x - 0.5) < 1) := by
  refine ⟨?_, ?_, ?_⟩
  · have hv : ∀ a : ℝ, (⟨a * 2, s.y, s.z⟩ : Vector3d) = ⟨2 * a, s.y, s.z⟩ := by
      intro a
      rw [mul_comm]
    have hm : (fun ls : LightSample => { ls with m_probability := ls.m_probability * 0.5 })
        = fun ls : LightSample => { ls with m_probability := 0.5 * ls.m_probability } := by
      funext ls
      rw [mul_comm]
    simp only [ForwardLightSampler.sample, ForwardLightSampler.sample_reference, hv, hm]
    cases self.m_non_physical_lights_cdf_valid <;> cases self.m_emitting_shapes_cdf_valid <;>
      simp
    split_ifs <;> rfl
  · intro h
    constructor <;> norm_num at h ⊢ <;> linarith
  · intro h
    constructor <;> norm_num at h ⊢ <;> linarith

/-- C15: when the light shading point is a triangle primitive (the assertion of both
functions), `evaluate_pdf` of both samplers is `0` if the key (assembly instance uid,
object instance index, primitive index) is absent from the hash table; if it maps to a
shape, the forward result is the shape's `evaluate_pdf_uniform()`, which is
`shape_prob * rcp_area`, and so is the backward result when that value passes the
assertion `shape_probability >= 0`; the backward result does not depend on the surface
shading point. -/
theorem evaluate_pdf_looks_up_shape
    (forward : ForwardLightSampler) (backward : BackwardLightSampler)
    (light_shading_point surface_shading_point other_surface_point : HitShadingPoint)
    (htriangle : light_shading_point.m_is_triangle_primitive = true) :
    (forward.m_emitting_shape_hash_table
        ⟨light_shading_point.m_assembly_instance_uid,
          light_shading_point.m_object_instance_index,
          light_shading_point.m_primitive_index⟩ = none →
      forward.evaluate_pdf light_shading_point = Except.ok 0)
    ∧ (backward.m_emitting_shape_hash_table
        ⟨light_shading_point.m_assembly_instance_uid,
          light_shading_point.m_object_instance_index,
          light_shading_point.m_primitive_index⟩ = none →
      backward.evaluate_pdf light_shading_point surface_shading_point = Except.ok 0)
    ∧ (∀ shape : EmittingShape,
      forward.m_emitting_shape_hash_table
        ⟨light_shading_point.m_assembly_instance_uid,
          light_shading_point.m_object_instance_index,
          light_shading_point.m_primitive_index⟩ = some shape →
      forward.evaluate_pdf light_shading_point = Except.ok shape.evaluate_pdf_uniform
      ∧ shape.evaluate_pdf_uniform = shape.get_shape_prob * shape.get_rcp_area)
    ∧ (∀ shape : EmittingShape,
      backward.m_emitting_shape_hash_table
        ⟨light_shading_point.m_assembly_instance_uid,
          light_shading_point.m_object_instance_index,
          light_shading_point.m_primitive_index⟩ = some shape →
      0 ≤ shape.evaluate_pdf_uniform →
      backward.evaluate_pdf light_shading_point surface_shading_point
        = Except.ok shape.evaluate_pdf_uniform)
    ∧ backward.evaluate_pdf light_shading_point surface_shading_point
        = backward.evaluate_pdf light_shading_point other_surface_point := by
  refine ⟨?_, ?_, ?_, ?_, ?_⟩
  · intro h
    simp [ForwardLightSampler.evaluate_pdf, htriangle, h]
  · intro h
    simp [BackwardLightSampler.evaluate_pdf, htriangle, h]
  · intro shape h
    simp [ForwardLightSampler.evaluate_pdf, htriangle, h, EmittingShape.evaluate_pdf_uniform]
  · intro shape h hnonneg
    simp [BackwardLightSampler.evaluate_pdf, htriangle, h, hnonneg]
  · rfl

/-- C16: when one of the two CDFs is valid (the assertion at the top of `sample`), the
top assertion passes, every call that `sample` makes to `sample_non_physical_lights`
is made with a valid non-physical-light CDF, every call to `sample_emitting_shapes` with
a valid emitting-shape CDF, and `sample` does not end in the assertion
`m_non_physical_lights_cdf.valid()` of `sample_non_physical_lights`. -/
theorem forward_sample_calls_have_valid_cdf
    (self : ForwardLightSampler) (time : ℝ) (s : Vector3d) (light_sample : LightSample)
    (hvalid : self.m_non_physical_lights_cdf_valid = true
      ∨ self.m_emitting_shapes_cdf_valid = true) :
    self.sample time s light_sample ≠ Except.error AssertionFailure.some_cdf_valid
    ∧ (∀ v, ForwardLightSampler.SubSamplerCall.non_physical_lights v ∈ self.sample_calls s →
        self.m_non_physical_lights_cdf_valid = true)
    ∧ (∀ v, ForwardLightSampler.SubSamplerCall.emitting_shapes v ∈ self.sample_calls s →
        self.m_emitting_shapes_cdf_valid = true)
    ∧ self.sample_calls s ≠ []
    ∧ self.sample time s light_sample
        ≠ Except.error AssertionFailure.non_physical_lights_cdf_valid := by
  have hes : ∀ v, self.sample_emitting_shapes time v light_sample
      ≠ Except.error AssertionFailure.non_physical_lights_cdf_valid := by
    intro v h
    have := sample_emitting_shapes_error _ _ _ _ _ h
    simp at this
  have hnp : self.m_non_physical_lights_cdf_valid = true →
      ∀ v, self.sample_non_physical_lights time v light_sample
        ≠ Except.error AssertionFailure.non_physical_lights_cdf_valid :=
    fun h v => sample_non_physical_lights_cdf_assertion self time v light_sample h
  simp only [ForwardLightSampler.sample, ForwardLightSampler.sample_calls]
  cases hn : self.m_non_physical_lights_cdf_valid <;>
    cases he : self.m_emitting_shapes_cdf_valid
  · simp [hn, he] at hvalid
  · refine ⟨?_, ?_, ?_, ?_, ?_⟩
    · simp only [Bool.false_eq_true, or_true, not_true_eq_false, if_false]
      intro h
      have := sample_emitting_shapes_error _ _ _ _ _ h
      simp at this
    · simp
    · simp
    · simp
    · simpa using hes s
  · refine ⟨?_, ?_, ?_, ?_, ?_⟩
    · simp only [Bool.false_eq_true, or_false, not_true_eq_false, if_false, if_true]
      exact sample_non_physical_lights_top_assertion _ _ _ _
    · simp
    · simp
    · simp
    · simpa using hnp hn s
  · refine ⟨?_, ?_, ?_, ?_, ?_⟩
    · simp only [or_self, not_true_eq_false, if_false, if_true, ne_eq, except_map_eq_error]
      split_ifs
      · exact sample_non_physical_lights_top_assertion _ _ _ _
      · intro h
        have := sample_emitting_shapes_error _ _ _ _ _ h
        simp at this
    · simp
    · simp
    · simp only [or_self, not_true_eq_false, if_false, if_true]
      split_ifs <;> simp
    · simp only [or_self, not_true_eq_false, if_false, if_true, ne_eq, except_map_eq_error]
      split_ifs
      · exact hnp hn _
      · exact hes _

/-- Witness of C14: both CDFs valid and `s = (1/4, 0, 0)`. -/
theorem forward_sample_eq_reference_witness :
    (ForwardLightSampler.mk (reference_light_sampler true)).sample 0 ⟨1 / 4, 0, 0⟩ blank_sample
      = (ForwardLightSampler.mk (reference_light_sampler true)).sample_reference 0
          ⟨1 / 4, 0, 0⟩ blank_sample :=
  (forward_sample_eq_reference (ForwardLightSampler.mk (reference_light_sampler true)) 0
    ⟨1 / 4, 0, 0⟩ blank_sample (by norm_num) (by norm_num)).1

/-- Witness of C15: the table holds `unit_rect` under the key `(7, 0, 0)` of the light
shading point. -/
theorem evaluate_pdf_looks_up_shape_witness :
    (ForwardLightSampler.mk (reference_light_sampler true)).evaluate_pdf
        ⟨⟨⟨0, 0, 0⟩⟩, true, 7, 0, 0⟩ = Except.ok unit_rect.evaluate_pdf_uniform :=
  ((evaluate_pdf_looks_up_shape (ForwardLightSampler.mk (reference_light_sampler true))
    (BackwardLightSampler.mk (reference_light_sampler true))
    ⟨⟨⟨0, 0, 0⟩⟩, true, 7, 0, 0⟩ ⟨⟨⟨0, 0, 0⟩⟩, true, 7, 0, 0⟩ ⟨⟨⟨0, 0, 0⟩⟩, true, 7, 0, 0⟩
    rfl).2.2.1 unit_rect (by simp [reference_light_sampler])).1

/-- Witness of C16: only the emitting-shape CDF is valid. -/
theorem forward_sample_calls_have_valid_cdf_witness :
    (ForwardLightSampler.mk (reference_light_sampler false)).sample 0 ⟨1 / 4, 0, 0⟩
        blank_sample ≠ Except.error AssertionFailure.some_cdf_valid
    ∧ (ForwardLightSampler.mk (reference_light_sampler false)).sample 0 ⟨1 / 4, 0, 0⟩
        blank_sample ≠ Except.error AssertionFailure.non_physical_lights_cdf_valid :=
  ⟨(forward_sample_calls_have_valid_cdf (ForwardLightSampler.mk (reference_light_sampler false))
      0 ⟨1 / 4, 0, 0⟩ blank_sample (Or.inr rfl)).1,
    (forward_sample_calls_have_valid_cdf (ForwardLightSampler.mk (reference_light_sampler false))
      0 ⟨1 / 4, 0, 0⟩ blank_sample (Or.inr rfl)).2.2.2.2⟩

/-! ## The triangle sampler and the directions of the vertices -/

theorem normalize_smul_pos (k : ℝ) (v : Vector3d) (hk : 0 < k) :
    normalize (k • v) = normalize v := by
  have hne : k ≠ 0 := ne_of_gt hk
  simp only [normalize, norm_smul, abs_of_pos hk]
  ext <;> simp only [Vector3d.div_x, Vector3d.div_y, Vector3d.div_z, Vector3d.smul_x,
    Vector3d.smul_y, Vector3d.smul_z] <;> rw [mul_div_mul_left _ _ hne]

theorem add_smul_sub_cancel (o v : Vector3d) (k : ℝ) : o + k • v - o = k • v := by
  ext <;> simp

theorem add_sub_add_cancel (a o v : Vector3d) : a + v - (o + v) = a - o := by
  ext <;> simp

/-- C19: the sampler built from the vertices moved along their directions from `o` by
positive factors `ka, kb, kc`, and the sampler built from `a, b, c, o` all translated by
`v`, are the sampler built from `a, b, c, o`: same `solid_angle()`, which is
`alpha + beta + gamma - pi`, and same `sample(s)` for every `s`. -/
theorem triangle_sampler_depends_on_directions
    (a b c o v : Vector3d) (ka kb kc : ℝ) (s : Vector2d)
    (hka : 0 < ka) (hkb : 0 < kb) (hkc : 0 < kc) :
    SphericalTriangleSampler.create (o + ka • (a - o)) (o + kb • (b - o)) (o + kc • (c - o)) o
        = SphericalTriangleSampler.create a b c o
    ∧ (SphericalTriangleSampler.create (o + ka • (a - o)) (o + kb • (b - o))
        (o + kc • (c - o)) o).solid_angle = (SphericalTriangleSampler.create a b c o).solid_angle
    ∧ (SphericalTriangleSampler.create (o + ka • (a - o)) (o + kb • (b - o))
        (o + kc • (c - o)) o).sample s = (SphericalTriangleSampler.create a b c o).sample s
    ∧ SphericalTriangleSampler.create (a + v) (b + v) (c + v) (o + v)
        = SphericalTriangleSampler.create a b c o
    ∧ (SphericalTriangleSampler.create (a + v) (b + v) (c + v) (o + v)).solid_angle
        = (SphericalTriangleSampler.create a b c o).solid_angle
    ∧ (SphericalTriangleSampler.create (a + v) (b + v) (c + v) (o + v)).sample s
        = (SphericalTriangleSampler.create a b c o).sample s
    ∧ (SphericalTriangleSampler.create a b c o).solid_angle
        = (SphericalTriangleSampler.create a b c o).m_alpha
          + (SphericalTriangleSampler.create a b c o).m_beta
          + (SphericalTriangleSampler.create a b c o).m_gamma - Real.pi := by
  have hscale : SphericalTriangleSampler.create (o + ka • (a - o)) (o + kb • (b - o))
      (o + kc • (c - o)) o = SphericalTriangleSampler.create a b c o := by
    simp only [SphericalTriangleSampler.create, add_smul_sub_cancel,
      normalize_smul_pos _ _ hka, normalize_smul_pos _ _ hkb, normalize_smul_pos _ _ hkc]
  have hshift : SphericalTriangleSampler.create (a + v) (b + v) (c + v) (o + v)
      = SphericalTriangleSampler.create a b c o := by
    simp only [SphericalTriangleSampler.create, add_sub_add_cancel]
  exact ⟨hscale, by rw [hscale], by rw [hscale], hshift, by rw [hshift], by rw [hshift], rfl⟩

/-- Witness of C19: the unit-axis triangle seen from the origin, factors `2, 3, 4`,
translation `(1, 1, 1)`. -/
theorem triangle_sampler_depends_on_directions_witness :
    SphericalTriangleSampler.create
        ((0 : Vector3d) + (2 : ℝ) • ((⟨1, 0, 0⟩ : Vector3d) - 0))
        ((0 : Vector3d) + (3 : ℝ) • ((⟨0, 1, 0⟩ : Vector3d) - 0))
        ((0 : Vector3d) + (4 : ℝ) • ((⟨0, 0, 1⟩ : Vector3d) - 0)) 0
      = SphericalTriangleSampler.create ⟨1, 0, 0⟩ ⟨0, 1, 0⟩ ⟨0, 0, 1⟩ 0 :=
  (triangle_sampler_depends_on_directions ⟨1, 0, 0⟩ ⟨0, 1, 0⟩ ⟨0, 0, 1⟩ 0 ⟨1, 1, 1⟩ 2 3 4
    ⟨1 / 2, 1 / 2⟩ (by norm_num) (by norm_num) (by norm_num)).1

/-! ## The cached plane equation -/

/-- C20: for a triangle shape built from `v0, v1, v2` with a unit geometric normal `n`
orthogonal to `v1 - v0` and `v2 - v0`, `signed_plane_distance` is `0` at every point
`b0 * v0 + b1 * v1 + b2 * v2` with `b0 + b1 + b2 = 1` and `t` at that point displaced by
`t * n`; for a rectangle shape built from `p, x, y` with a unit normal `n` orthogonal to
`x` and `y`, it is `0` at every `p + u * x + v * y` and `t` at that point displaced by
`t * n`. -/
theorem cached_plane_equation
    (mem : EmittingShape) (assembly_instance object_instance_index primitive_index
      material : Nat)
    (v0 v1 v2 n0 n1 n2 n p x y : Vector3d) (b0 b1 b2 u v t : ℝ)
    (hunit : norm n = 1)
    (h1 : dot n (v1 - v0) = 0) (h2 : dot n (v2 - v0) = 0)
    (hx : dot n x = 0) (hy : dot n y = 0)
    (hb : b0 + b1 + b2 = 1) :
    signed_plane_distance
        (EmittingShape.create_triangle_shape mem assembly_instance object_instance_index
          primitive_index material v0 v1 v2 n0 n1 n2 n).m_geom.m_triangle
        (b0 • v0 + b1 • v1 + b2 • v2) = 0
    ∧ signed_plane_distance
        (EmittingShape.create_triangle_shape mem assembly_instance object_instance_index
          primitive_index material v0 v1 v2 n0 n1 n2 n).m_geom.m_triangle
        (b0 • v0 + b1 • v1 + b2 • v2 + t • n) = t
    ∧ signed_plane_distance
        (EmittingShape.create_rect_shape mem assembly_instance object_instance_index
          material p x y n).m_geom.m_rect
        (p + u • x + v • y) = 0
    ∧ signed_plane_distance
        (EmittingShape.create_rect_shape mem assembly_instance object_instance_index
          material p x y n).m_geom.m_rect
        (p + u • x + v • y + t • n) = t := by
  have hnn : dot n n = 1 := by
    rw [← norm_mul_self, hunit]
    norm_num
  have hrect : (EmittingShape.create_rect_shape mem assembly_instance object_instance_index
      material p x y n).m_geom.m_rect
      = ⟨p, x, y, norm x, norm y, n, -dot p n⟩ := by
    simp only [EmittingShape.create_rect_shape]
    split_ifs <;> rfl
  simp only [hrect, EmittingShape.create_triangle_shape, signed_plane_distance,
    PlanarShape.m_geometric_normal, PlanarShape.m_plane_dist]
  simp only [dot, Vector3d.add_x, Vector3d.add_y, Vector3d.add_z, Vector3d.smul_x,
    Vector3d.smul_y, Vector3d.smul_z, Vector3d.sub_x, Vector3d.sub_y, Vector3d.sub_z]
    at h1 h2 hx hy hnn ⊢
  have hb0 : b0 = 1 - b1 - b2 := by linarith
  subst hb0
  refine ⟨?_, ?_, ?_, ?_⟩
  · linear_combination b1 * h1 + b2 * h2
  · linear_combination b1 * h1 + b2 * h2 + t * hnn
  · linear_combination u * hx + v * hy
  · linear_combination u * hx + v * hy + t * hnn

/-- Witness of C20: the triangle `(1,0,0), (0,0,0), (0,1,0)` and the unit square of the
plane `z = 0`, normal `(0, 0, 1)`. -/
theorem cached_plane_equation_witness :
    signed_plane_distance
        (EmittingShape.create_triangle_shape zero_storage 0 0 0 0 ⟨1, 0, 0⟩ ⟨0, 0, 0⟩ ⟨0, 1, 0⟩
          ⟨0, 0, 1⟩ ⟨0, 0, 1⟩ ⟨0, 0, 1⟩ ⟨0, 0, 1⟩).m_geom.m_triangle
        ((1 / 2 : ℝ) • (⟨1, 0, 0⟩ : Vector3d) + (1 / 4 : ℝ) • (⟨0, 0, 0⟩ : Vector3d)
          + (1 / 4 : ℝ) • (⟨0, 1, 0⟩ : Vector3d) + (2 : ℝ) • (⟨0, 0, 1⟩ : Vector3d)) = 2 :=
  (cached_plane_equation zero_storage 0 0 0 0 ⟨1, 0, 0⟩ ⟨0, 0, 0⟩ ⟨0, 1, 0⟩
    ⟨0, 0, 1⟩ ⟨0, 0, 1⟩ ⟨0, 0, 1⟩ ⟨0, 0, 1⟩ ⟨0, 0, 0⟩ ⟨1, 0, 0⟩ ⟨0, 1, 0⟩
    (1 / 2) (1 / 4) (1 / 4) (1 / 3) (1 / 3) 2
    (by simp [norm, dot]) (by simp [dot]) (by simp [dot]) (by simp [dot]) (by simp [dot])
    (by norm_num)).2.1

/-! ## Positivity of the probability of a triangle sample -/

/-- C12: for a triangle shape whose geometric normal is orthogonal to both edges, with
the plane distance `-dot(v0, n)` that `create_triangle_shape` caches, a positive solid
angle and `shape_prob > 0`: whenever `sample_solid_angle` returns true and the hit
`t, u, v` reported by the ray/triangle routine lies in the ray range `[0, max)` at the
point `(1 - u - v) * v0 + u * v1 + v * v2`, the side check forces `t > 0` and
`cos_theta > 0`, and the stored probability is strictly positive. -/
theorem triangle_sample_probability_pos
    (sh : EmittingShape) (F : Foundation) (shading_point : ShadingPoint) (s : Vector2d)
    (shape_prob : ℝ) (light_sample ls : LightSample)
    (htype : sh.get_shape_type = ShapeType.TriangleShape)
    (hplane : sh.m_geom.m_triangle.m_plane_dist
      = -dot sh.m_geom.m_triangle.m_v0 sh.m_geom.m_triangle.m_geometric_normal)
    (h1 : dot sh.m_geom.m_triangle.m_geometric_normal
      (sh.m_geom.m_triangle.m_v1 - sh.m_geom.m_triangle.m_v0) = 0)
    (h2 : dot sh.m_geom.m_triangle.m_geometric_normal
      (sh.m_geom.m_triangle.m_v2 - sh.m_geom.m_triangle.m_v0) = 0)
    (hsa : 0 < (sh.triangle_sampler shading_point.get_point).solid_angle)
    (hprob : 0 < shape_prob)
    (hhit : ∀ hit, sh.triangle_hit F shading_point.get_point
        ((sh.triangle_sampler shading_point.get_point).sample s) = some hit →
      0 ≤ hit.t
      ∧ shading_point.get_point
          + hit.t • (sh.triangle_sampler shading_point.get_point).sample s
        = (1 - hit.u - hit.v) • sh.m_geom.m_triangle.m_v0
          + hit.u • sh.m_geom.m_triangle.m_v1 + hit.v • sh.m_geom.m_triangle.m_v2)
    (hret : sh.sample_solid_angle F shading_point s shape_prob light_sample
      = some (true, ls)) :
    0 < ls.m_probability
    ∧ ∃ hit, sh.triangle_hit F shading_point.get_point
        ((sh.triangle_sampler shading_point.get_point).sample s) = some hit
      ∧ 0 < hit.t
      ∧ 0 < -dot sh.m_geom.m_triangle.m_geometric_normal
          ((sh.triangle_sampler shading_point.get_point).sample s) := by
  simp only [EmittingShape.triangle_sampler, EmittingShape.triangle_hit] at hsa hhit ⊢
  simp only [EmittingShape.sample_solid_angle, htype] at hret
  split_ifs at hret with hside
  · simp at hret
  · split at hret
    · rename_i hit hhit2
      obtain ⟨ht, hpt⟩ := hhit hit hhit2
      simp only [Option.some.injEq, Prod.mk.injEq, true_and] at hret
      subst hret
      generalize (SphericalTriangleSampler.create sh.m_geom.m_triangle.m_v0
        sh.m_geom.m_triangle.m_v1 sh.m_geom.m_triangle.m_v2 shading_point.get_point).sample s
        = d at hpt hhit2 ⊢
      generalize (SphericalTriangleSampler.create sh.m_geom.m_triangle.m_v0
        sh.m_geom.m_triangle.m_v1 sh.m_geom.m_triangle.m_v2
        shading_point.get_point).solid_angle = sa at hsa ⊢
      have hx := congrArg Vector3d.x hpt
      have hy := congrArg Vector3d.y hpt
      have hz := congrArg Vector3d.z hpt
      simp only [signed_plane_distance, PlanarShape.m_geometric_normal,
        PlanarShape.m_plane_dist, hplane, not_lt] at hside
      simp only [dot, Vector3d.add_x, Vector3d.add_y, Vector3d.add_z, Vector3d.smul_x,
        Vector3d.smul_y, Vector3d.smul_z, Vector3d.sub_x, Vector3d.sub_y, Vector3d.sub_z]
        at h1 h2 hx hy hz hside ⊢
      have heps : (0 : ℝ) < 1.0e-6 := by norm_num
      have hprod : hit.t * (-(sh.m_geom.m_triangle.m_geometric_normal.x * d.x
          + sh.m_geom.m_triangle.m_geometric_normal.y * d.y
          + sh.m_geom.m_triangle.m_geometric_normal.z * d.z))
          = shading_point.get_point.x * sh.m_geom.m_triangle.m_geometric_normal.x
            + shading_point.get_point.y * sh.m_geom.m_triangle.m_geometric_normal.y
            + shading_point.get_point.z * sh.m_geom.m_triangle.m_geometric_normal.z
            + -(sh.m_geom.m_triangle.m_v0.x * sh.m_geom.m_triangle.m_geometric_normal.x
              + sh.m_geom.m_triangle.m_v0.y * sh.m_geom.m_triangle.m_geometric_normal.y
              + sh.m_geom.m_triangle.m_v0.z * sh.m_geom.m_triangle.m_geometric_normal.z) := by
        linear_combination
          (-sh.m_geom.m_triangle.m_geometric_normal.x) * hx
          + (-sh.m_geom.m_triangle.m_geometric_normal.y) * hy
          + (-sh.m_geom.m_triangle.m_geometric_normal.z) * hz
          - hit.u * h1 - hit.v * h2
      have hpos : 0 < hit.t * (-(sh.m_geom.m_triangle.m_geometric_normal.x * d.x
          + sh.m_geom.m_triangle.m_geometric_normal.y * d.y
          + sh.m_geom.m_triangle.m_geometric_normal.z * d.z)) := by
        rw [hprod]
        linarith
      have htpos : 0 < hit.t := by
        rcases eq_or_lt_of_le ht with h0 | h0
        · rw [← h0] at hpos
          simp at hpos
        · exact h0
      have hcos : 0 < -(sh.m_geom.m_triangle.m_geometric_normal.x * d.x
          + sh.m_geom.m_triangle.m_geometric_normal.y * d.y
          + sh.m_geom.m_triangle.m_geometric_normal.z * d.z) := by
        by_contra hneg
        have hle := mul_nonpos_of_nonneg_of_nonpos ht (not_lt.mp hneg)
        linarith
      refine ⟨?_, hit, hhit2, htpos, hcos⟩
      have hsq : 0 < square hit.t := mul_pos htpos htpos
      have hrcp : 0 < 1 / sa := by positivity
      exact mul_pos hprob (div_pos (mul_pos hrcp hcos) hsq)
    · simp at hret

theorem octant_sampler :
    SphericalTriangleSampler.create ⟨1, 0, 0⟩ ⟨0, 1, 0⟩ ⟨0, 0, 1⟩ ⟨0, 0, 0⟩
      = ⟨⟨1, 0, 0⟩, ⟨0, 1, 0⟩, ⟨0, 0, 1⟩, Real.pi / 2, Real.pi / 2, Real.pi / 2,
          Real.pi / 2⟩ := by
  have hA : normalize ((⟨1, 0, 0⟩ : Vector3d) - ⟨0, 0, 0⟩) = ⟨1, 0, 0⟩ := by
    have hn : norm ((⟨1, 0, 0⟩ : Vector3d) - ⟨0, 0, 0⟩) = 1 := by simp [norm, dot]
    rw [normalize, hn]
    ext <;> simp
  have hB : normalize ((⟨0, 1, 0⟩ : Vector3d) - ⟨0, 0, 0⟩) = ⟨0, 1, 0⟩ := by
    have hn : norm ((⟨0, 1, 0⟩ : Vector3d) - ⟨0, 0, 0⟩) = 1 := by simp [norm, dot]
    rw [normalize, hn]
    ext <;> simp
  have hC : normalize ((⟨0, 0, 1⟩ : Vector3d) - ⟨0, 0, 0⟩) = ⟨0, 0, 1⟩ := by
    have hn : norm ((⟨0, 0, 1⟩ : Vector3d) - ⟨0, 0, 0⟩) = 1 := by simp [norm, dot]
    rw [normalize, hn]
    ext <;> simp
  have hAB : normalize (cross ⟨1, 0, 0⟩ ⟨0, 1, 0⟩) = ⟨0, 0, 1⟩ := by
    have hn : norm (cross ⟨1, 0, 0⟩ ⟨0, 1, 0⟩) = 1 := by simp [norm, dot, cross]
    rw [normalize, hn]
    ext <;> simp [cross]
  have hBC : normalize (cross ⟨0, 1, 0⟩ ⟨0, 0, 1⟩) = ⟨1, 0, 0⟩ := by
    have hn : norm (cross ⟨0, 1, 0⟩ ⟨0, 0, 1⟩) = 1 := by simp [norm, dot, cross]
    rw [normalize, hn]
    ext <;> simp [cross]
  have hCA : normalize (cross ⟨0, 0, 1⟩ ⟨1, 0, 0⟩) = ⟨0, 1, 0⟩ := by
    have hn : norm (cross ⟨0, 0, 1⟩ ⟨1, 0, 0⟩) = 1 := by simp [norm, dot, cross]
    rw [normalize, hn]
    ext <;> simp [cross]
  simp only [SphericalTriangleSampler.create, hA, hB, hC, hAB, hBC, hCA]
  have h1 : dot (-(⟨0, 0, 1⟩ : Vector3d)) ⟨0, 1, 0⟩ = 0 := by simp [dot]
  have h2 : dot (-(⟨1, 0, 0⟩ : Vector3d)) ⟨0, 0, 1⟩ = 0 := by simp [dot]
  have h3 : dot (-(⟨0, 1, 0⟩ : Vector3d)) ⟨1, 0, 0⟩ = 0 := by simp [dot]
  rw [h1, h2, h3, Real.arccos_zero]
  congr 1
  ring

theorem octant_triangle_hit :
    moeller_trumbore ⟨1, 0, 0⟩ ⟨0, 1, 0⟩ ⟨0, 0, 1⟩ ⟨⟨0, 0, 0⟩, ⟨0, 1, 0⟩⟩ = some ⟨1, 1, 0⟩ := by
  simp only [moeller_trumbore]
  norm_num [dot, cross]

theorem inv_sqrt_three_pos : (1.0e-6 : ℝ) ≤ 1 / Real.sqrt 3 := by
  have h3 : Real.sqrt 3 ≤ 2 := by
    rw [Real.sqrt_le_left (by norm_num)]
    norm_num
  have hpos : 0 < Real.sqrt 3 := Real.sqrt_pos.mpr (by norm_num)
  rw [le_div_iff₀ hpos]
  nlinarith

/-- The triangle branch run on `octant_triangle` seen from the origin with the variate
`(0, 0)`: the sampled direction is `(0, 1, 0)` and the hit is at `t = 1`, `u = 1`,
`v = 0`, the vertex `(0, 1, 0)`. -/
theorem octant_triangle_sample (mem : EmittingShape) (shape_prob : ℝ) :
    ((octant_triangle mem).triangle_sampler ⟨0, 0, 0⟩).sample ⟨0, 0⟩ = ⟨0, 1, 0⟩
    ∧ (octant_triangle mem).triangle_hit reference_foundation ⟨0, 0, 0⟩ ⟨0, 1, 0⟩
        = some ⟨1, 1, 0⟩
    ∧ ∃ ls : LightSample,
      (octant_triangle mem).sample_solid_angle reference_foundation ⟨⟨0, 0, 0⟩⟩ ⟨0, 0⟩
        shape_prob blank_sample = some (true, ls) := by
  have hd : ((octant_triangle mem).triangle_sampler ⟨0, 0, 0⟩).sample ⟨0, 0⟩ = ⟨0, 1, 0⟩ := by
    rw [triangle_sample_second_zero]
    simp only [EmittingShape.triangle_sampler, octant_triangle,
      EmittingShape.create_triangle_shape, octant_sampler]
  have hh : (octant_triangle mem).triangle_hit reference_foundation ⟨0, 0, 0⟩ ⟨0, 1, 0⟩
      = some ⟨1, 1, 0⟩ := octant_triangle_hit
  refine ⟨hd, hh, ?_⟩
  have hside : ¬ signed_plane_distance (octant_triangle mem).m_geom.m_triangle ⟨0, 0, 0⟩
      < 1.0e-6 := by
    simp only [octant_triangle, EmittingShape.create_triangle_shape, signed_plane_distance,
      PlanarShape.m_geometric_normal, PlanarShape.m_plane_dist, dot, not_lt]
    have := inv_sqrt_three_pos
    simp only [mul_neg, zero_mul, neg_zero, add_zero, zero_add, mul_zero, one_mul, neg_neg]
    exact this
  have htype : (octant_triangle mem).get_shape_type = ShapeType.TriangleShape := rfl
  simp only [EmittingShape.triangle_sampler, EmittingShape.triangle_hit] at hd hh
  simp only [EmittingShape.sample_solid_angle, htype, ShadingPoint.get_point, if_neg hside,
    hd, hh]
  exact ⟨_, rfl⟩

/-- Witness of C12: `octant_triangle` seen from the origin, variate `(0, 0)`, shape
probability one; the solid angle is `pi / 2`. -/
theorem triangle_sample_probability_pos_witness :
    ∃ ls : LightSample,
      (octant_triangle zero_storage).sample_solid_angle reference_foundation ⟨⟨0, 0, 0⟩⟩ ⟨0, 0⟩
        1 blank_sample = some (true, ls)
      ∧ 0 < ls.m_probability := by
  obtain ⟨hd, hh, ls, hls⟩ := octant_triangle_sample zero_storage 1
  refine ⟨ls, hls, ?_⟩
  refine (triangle_sample_probability_pos (octant_triangle zero_storage) reference_foundation
    ⟨⟨0, 0, 0⟩⟩ ⟨0, 0⟩ 1 blank_sample ls rfl rfl ?_ ?_ ?_ (by norm_num) ?_ hls).1
  · simp only [octant_triangle, EmittingShape.create_triangle_shape, dot, Vector3d.sub_x,
      Vector3d.sub_y, Vector3d.sub_z]
    ring
  · simp only [octant_triangle, EmittingShape.create_triangle_shape, dot, Vector3d.sub_x,
      Vector3d.sub_y, Vector3d.sub_z]
    ring
  · simp only [ShadingPoint.get_point, EmittingShape.triangle_sampler, octant_triangle,
      EmittingShape.create_triangle_shape, octant_sampler,
      SphericalTriangleSampler.solid_angle]
    positivity
  · intro hit hhit
    simp only [ShadingPoint.get_point, hd, hh, Option.some.injEq] at hhit ⊢
    subst hhit
    refine ⟨by norm_num, ?_⟩
    simp only [octant_triangle, EmittingShape.create_triangle_shape]
    ext <;> simp

/-! ## The rectangle sampler on edges that are not of unit length -/

theorem wide_rect_sampler :
    SphericalRectangleSampler.create ⟨0, 0, 0⟩ ⟨2, 0, 0⟩ ⟨0, 1, 0⟩ ⟨0, 0, 1⟩ ⟨1 / 2, 0, 4 / 3⟩
      = { m_x := ⟨2, 0, 0⟩, m_y := ⟨0, 1, 0⟩, m_z := ⟨0, 0, 1⟩, m_o := ⟨1 / 2, 0, 4 / 3⟩,
          m_y0 := 0, m_y1 := 1, m_z0 := -(4 / 3), m_z0z0 := 16 / 9, m_y0y0 := 0, m_y1y1 := 1,
          m_sr := 2 * Real.arccos (-(9 / 25)) - Real.pi,
          m_n0 := ⟨0, -(4 / 3), 0⟩, m_n1 := ⟨4 / 3, 0, 3 / 5⟩,
          m_n2 := ⟨0, 4 / 3, 3 / 5⟩, m_n3 := ⟨-(4 / 3), 0, 3 / 5⟩,
          m_g0 := Real.pi / 2, m_g1 := Real.arccos (-(9 / 25)),
          m_g2 := Real.arccos (-(9 / 25)), m_g3 := Real.pi / 2 } := by
  have h9 : Real.sqrt 9 = 3 := sqrt_of_mul_self (by norm_num) (by norm_num)
  have h25 : Real.sqrt 25 = 5 := sqrt_of_mul_self (by norm_num) (by norm_num)
  have hd : ((⟨0, 0, 0⟩ : Vector3d) - ⟨1 / 2, 0, 4 / 3⟩) = ⟨-(1 / 2), 0, -(4 / 3)⟩ := by
    ext <;> simp
  have hx : norm ⟨2, 0, 0⟩ = 2 := by
    unfold norm
    apply sqrt_of_mul_self (by norm_num)
    norm_num [dot]
  simp only [SphericalRectangleSampler.create, hd, hx, norm_unit_y]
  norm_num [dot, square, h9, h25, Real.arccos_zero]
  ring

theorem wide_rect_sample_origin :
    (SphericalRectangleSampler.create ⟨0, 0, 0⟩ ⟨2, 0, 0⟩ ⟨0, 1, 0⟩ ⟨0, 0, 1⟩
      ⟨1 / 2, 0, 4 / 3⟩).sample ⟨0, 0⟩ = ⟨-(3 / 2), 0, 0⟩ := by
  rw [wide_rect_sampler]
  have hsin : Real.sin (0 * (2 * Real.arccos (-(9 / 25)) - Real.pi) - Real.arccos (-(9 / 25))
      - Real.pi / 2 + 2 * Real.pi) = 9 / 25 := by
    have he : 0 * (2 * Real.arccos (-(9 / 25)) - Real.pi) - Real.arccos (-(9 / 25))
        - Real.pi / 2 + 2 * Real.pi
        = -(Real.arccos (-(9 / 25)) + Real.pi / 2) + 2 * Real.pi := by ring
    rw [he, Real.sin_add_two_pi, Real.sin_neg, Real.sin_add_pi_div_two,
      Real.cos_arccos (by norm_num) (by norm_num)]
    norm_num
  simp only [SphericalRectangleSampler.sample, hsin]
  have hfu : (Real.cos (0 * (2 * Real.arccos (-(9 / 25)) - Real.pi) - Real.arccos (-(9 / 25))
      - Real.pi / 2 + 2 * Real.pi) * 0 - 3 / 5) / (9 / 25) = -(5 / 3) := by norm_num
  rw [hfu]
  have hcs : copysign_one (-(5 / 3)) = -1 := by simp [copysign_one]
  have hsq : Real.sqrt (square (-(5 / 3)) + square 0) = 5 / 3 :=
    sqrt_of_mul_self (by norm_num) (by norm_num [square])
  rw [hcs, hsq]
  have hss : SphericalRectangleSampler.safe_sqrt (1 - square (-1 / (5 / 3))) = 4 / 5 := by
    unfold SphericalRectangleSampler.safe_sqrt
    apply sqrt_of_mul_self (by norm_num)
    norm_num [square]
  rw [hss]
  have hxu : -(-1 / (5 / 3)) * -(4 / 3) / (4 / 5) = (-1 : ℝ) := by norm_num
  rw [hxu]
  ext <;> simp [lerp]
  norm_num

/-- C17 (fails on the code): the constructor computes `x0 = dot(origin - o, x)` and keeps
`m_x = x` without dividing by the edge length.  For the rectangle with corner `(0,0,0)`,
orthogonal edges `x = (2,0,0)`, `y = (0,1,0)`, unit normal `(0,0,1)`, the point
`o = (1/2, 0, 4/3)` off its plane and `s = (0, 0)`, `sample(s)` is `(-3/2, 0, 0)`, which
is no point `p + u * x + v * y` with `u, v` in `[0, 1]`. -/
theorem rectangle_sampler_leaves_rectangle :
    dot (⟨2, 0, 0⟩ : Vector3d) ⟨0, 1, 0⟩ = 0
    ∧ norm ⟨0, 0, 1⟩ = 1
    ∧ dot (⟨0, 0, 1⟩ : Vector3d) ⟨2, 0, 0⟩ = 0
    ∧ dot (⟨0, 0, 1⟩ : Vector3d) ⟨0, 1, 0⟩ = 0
    ∧ dot ((⟨1 / 2, 0, 4 / 3⟩ : Vector3d) - ⟨0, 0, 0⟩) ⟨0, 0, 1⟩ = 4 / 3
    ∧ (SphericalRectangleSampler.create ⟨0, 0, 0⟩ ⟨2, 0, 0⟩ ⟨0, 1, 0⟩ ⟨0, 0, 1⟩
        ⟨1 / 2, 0, 4 / 3⟩).sample ⟨0, 0⟩ = ⟨-(3 / 2), 0, 0⟩
    ∧ ¬ ∃ u v : ℝ, 0 ≤ u ∧ u ≤ 1 ∧ 0 ≤ v ∧ v ≤ 1
        ∧ (SphericalRectangleSampler.create ⟨0, 0, 0⟩ ⟨2, 0, 0⟩ ⟨0, 1, 0⟩ ⟨0, 0, 1⟩
            ⟨1 / 2, 0, 4 / 3⟩).sample ⟨0, 0⟩
          = (⟨0, 0, 0⟩ : Vector3d) + u • (⟨2, 0, 0⟩ : Vector3d) + v • (⟨0, 1, 0⟩ : Vector3d) := by
  refine ⟨by simp [dot], by simp [norm, dot], by simp [dot], by simp [dot],
    by norm_num [dot], wide_rect_sample_origin, ?_⟩
  rintro ⟨u, v, hu0, -, -, -, h⟩
  rw [wide_rect_sample_origin] at h
  have hx := congrArg Vector3d.x h
  simp at hx
  linarith

/-! ## Spherical trigonometry behind the triangle sampler -/

/-- Cosine and sine of `arccos x` when `x^2 + y^2 = 1` with `y > 0`. -/
theorem arccos_of_unit_pair (x y : ℝ) (hy : 0 < y) (h : x ^ 2 + y ^ 2 = 1) :
    Real.cos (Real.arccos x) = x ∧ Real.sin (Real.arccos x) = y
      ∧ 0 < Real.arccos x ∧ Real.arccos x < Real.pi := by
  have hx1 : x < 1 := by nlinarith
  have hx2 : -1 < x := by nlinarith
  have hpi : Real.arccos x < Real.pi := by
    apply lt_of_le_of_ne (Real.arccos_le_pi x)
    intro h
    rw [Real.arccos_eq_pi] at h
    linarith
  refine ⟨Real.cos_arccos hx2.le hx1.le, ?_, Real.arccos_pos.mpr hx1, hpi⟩
  rw [Real.sin_arccos]
  apply sqrt_of_mul_self hy.le
  nlinarith

/-- Spherical excess is positive: `alpha + beta + gamma > pi`, from the law of cosines for
angles. -/
theorem spherical_excess_pos (α β γ cc : ℝ)
    (hα : 0 < α) (hα' : α < Real.pi) (hβ : 0 < β) (hβ' : β < Real.pi)
    (hγ : 0 < γ) (hcc : cc < 1)
    (hlaw : Real.cos γ + Real.cos α * Real.cos β = Real.sin α * Real.sin β * cc) :
    Real.pi < α + β + γ := by
  by_contra hcon
  have hle : α + β ≤ Real.pi - γ := by linarith
  have hcos : Real.cos (Real.pi - γ) ≤ Real.cos (α + β) :=
    Real.cos_le_cos_of_nonneg_of_le_pi (by linarith) (by linarith) hle
  rw [Real.cos_pi_sub, Real.cos_add] at hcos
  have hsα : 0 < Real.sin α := Real.sin_pos_of_pos_of_lt_pi hα hα'
  have hsβ : 0 < Real.sin β := Real.sin_pos_of_pos_of_lt_pi hβ hβ'
  have hprod : 0 < Real.sin α * Real.sin β := mul_pos hsα hsβ
  nlinarith

/-- Half the spherical excess is less than each angle: `beta + gamma < pi + alpha`. -/
theorem spherical_excess_lt (α β γ ca : ℝ)
    (hα : 0 < α) (hβ : 0 < β) (hβ' : β < Real.pi)
    (hγ : 0 < γ) (hγ' : γ < Real.pi) (hca : ca < 1)
    (hlaw : Real.cos α + Real.cos β * Real.cos γ = Real.sin β * Real.sin γ * ca) :
    β + γ < Real.pi + α := by
  by_contra hcon
  have hle : α ≤ β + γ - Real.pi := by linarith
  have hcos : Real.cos (β + γ - Real.pi) ≤ Real.cos α :=
    Real.cos_le_cos_of_nonneg_of_le_pi hα.le (by linarith) hle
  rw [Real.cos_sub_pi, Real.cos_add] at hcos
  have hsβ : 0 < Real.sin β := Real.sin_pos_of_pos_of_lt_pi hβ hβ'
  have hsγ : 0 < Real.sin γ := Real.sin_pos_of_pos_of_lt_pi hγ hγ'
  have hprod : 0 < Real.sin β * Real.sin γ := mul_pos hsβ hsγ
  nlinarith

/-- For `0 <= x <= e < alpha < pi`: `sin x * sin (alpha - e) <= sin e * sin (alpha - x)`. -/
theorem sin_ratio_mono (α x e : ℝ) (hα' : α < Real.pi) (hx : 0 ≤ x) (hxe : x ≤ e)
    (heα : e < α) :
    Real.sin x * Real.sin (α - e) ≤ Real.sin e * Real.sin (α - x) := by
  have hid : Real.sin e * Real.sin (α - x) - Real.sin x * Real.sin (α - e)
      = Real.sin α * Real.sin (e - x) := by
    simp only [Real.sin_sub]
    ring
  have hsα : 0 ≤ Real.sin α := Real.sin_nonneg_of_nonneg_of_le_pi (by linarith) hα'.le
  have hs : 0 ≤ Real.sin (e - x) :=
    Real.sin_nonneg_of_nonneg_of_le_pi (by linarith) (by linarith)
  nlinarith [mul_nonneg hsα hs]

theorem one_sub_cos_eq (y : ℝ) : 1 - Real.cos y = 2 * Real.sin (y / 2) ^ 2 := by
  have h : y = 2 * (y / 2) := by ring
  have h1 := Real.cos_two_mul (y / 2)
  have h2 := Real.sin_sq_add_cos_sq (y / 2)
  rw [← h] at h1
  linarith

/-- The inequality behind the formula of Arvo: on `[0, sr]` the sub-triangle of area `area` cut
off along the edge `AC` stays inside the triangle.  Here `sr = alpha + beta + gamma - pi`,
and `cb`, `cc` are the cosines of the edges `AC` and `AB`. -/
theorem arvo_area_inequality (α β γ ca cb cc area : ℝ)
    (hα : 0 < α) (hα' : α < Real.pi) (hβ : 0 < β) (hβ' : β < Real.pi)
    (hγ : 0 < γ) (hγ' : γ < Real.pi)
    (hca : ca < 1) (hcb : -1 < cb) (hcc : -1 < cc) (hcc' : cc < 1)
    (hlawγ : Real.cos γ + Real.cos α * Real.cos β = Real.sin α * Real.sin β * cc)
    (hlawα : Real.cos α + Real.cos β * Real.cos γ = Real.sin β * Real.sin γ * ca)
    (hend : (1 + cb) * (1 + cc) * (1 + Real.cos (α + β + γ))
      = (1 - cb) * (1 - cc) * (1 + Real.cos (β + γ - α)))
    (h0 : 0 ≤ area) (h1 : area ≤ α + β + γ - Real.pi) :
    (1 + cb) * (1 + cc) * (1 - Real.cos area)
        ≤ (1 - cb) * (1 - cc) * (1 - Real.cos (2 * α - area))
    ∧ 0 < 1 - Real.cos (2 * α - area) := by
  have hG : Real.pi < α + β + γ := spherical_excess_pos α β γ cc hα hα' hβ hβ' hγ hcc' hlawγ
  have hH : β + γ < Real.pi + α := spherical_excess_lt α β γ ca hα hβ hβ' hγ hγ' hca hlawα
  have hmono := sin_ratio_mono α (area / 2) ((α + β + γ - Real.pi) / 2) hα' (by linarith)
    (by linarith) (by linarith)
  have hx : 0 ≤ Real.sin (area / 2) :=
    Real.sin_nonneg_of_nonneg_of_le_pi (by linarith) (by linarith)
  have he : 0 ≤ Real.sin ((α + β + γ - Real.pi) / 2) :=
    Real.sin_nonneg_of_nonneg_of_le_pi (by linarith) (by linarith)
  have hαe : 0 < Real.sin (α - (α + β + γ - Real.pi) / 2) :=
    Real.sin_pos_of_pos_of_lt_pi (by linarith) (by linarith)
  have hαx : 0 < Real.sin (α - area / 2) :=
    Real.sin_pos_of_pos_of_lt_pi (by linarith) (by linarith)
  -- the end point identity in terms of the half angles
  have hE1 : 1 + Real.cos (α + β + γ) = 2 * Real.sin ((α + β + γ - Real.pi) / 2) ^ 2 := by
    rw [← one_sub_cos_eq, Real.cos_sub_pi]
    ring
  have hE2 : 1 + Real.cos (β + γ - α)
      = 2 * Real.sin (α - (α + β + γ - Real.pi) / 2) ^ 2 := by
    have h : α - (α + β + γ - Real.pi) / 2 = (Real.pi - (β + γ - α)) / 2 := by ring
    rw [h, ← one_sub_cos_eq, Real.cos_pi_sub]
    ring
  have hA1 : 1 - Real.cos area = 2 * Real.sin (area / 2) ^ 2 := one_sub_cos_eq area
  have hA2 : 1 - Real.cos (2 * α - area) = 2 * Real.sin (α - area / 2) ^ 2 := by
    have h : α - area / 2 = (2 * α - area) / 2 := by ring
    rw [h, ← one_sub_cos_eq]
  rw [hE1, hE2] at hend
  rw [hA1, hA2]
  have hP : 0 < (1 + cb) * (1 + cc) := mul_pos (by linarith) (by linarith)
  have hsq : (Real.sin (area / 2) * Real.sin (α - (α + β + γ - Real.pi) / 2)) ^ 2
      ≤ (Real.sin ((α + β + γ - Real.pi) / 2) * Real.sin (α - area / 2)) ^ 2 :=
    pow_le_pow_left₀ (mul_nonneg hx hαe.le) hmono 2
  have hpos : 0 < Real.sin (α - (α + β + γ - Real.pi) / 2) ^ 2 := by positivity
  refine ⟨?_, by positivity⟩
  have hkey : ((1 - cb) * (1 - cc) * (2 * Real.sin (α - area / 2) ^ 2)
      - (1 + cb) * (1 + cc) * (2 * Real.sin (area / 2) ^ 2))
      * Real.sin (α - (α + β + γ - Real.pi) / 2) ^ 2
      = 2 * ((1 + cb) * (1 + cc))
        * ((Real.sin ((α + β + γ - Real.pi) / 2) * Real.sin (α - area / 2)) ^ 2
          - (Real.sin (area / 2) * Real.sin (α - (α + β + γ - Real.pi) / 2)) ^ 2) := by
    linear_combination (-(Real.sin (α - area / 2) ^ 2)) * hend
  have hnonneg : 0 ≤ ((1 - cb) * (1 - cc) * (2 * Real.sin (α - area / 2) ^ 2)
      - (1 + cb) * (1 + cc) * (2 * Real.sin (area / 2) ^ 2))
      * Real.sin (α - (α + β + γ - Real.pi) / 2) ^ 2 := by
    rw [hkey]
    exact mul_nonneg (by positivity) (sub_nonneg.mpr hsq)
  have hfinal := (mul_nonneg_iff_of_pos_right hpos).mp hnonneg
  linarith

/-- Bounds on `cos_b_hat` of `SphericalTriangleSampler::sample`, written with
`phi = area - alpha`: it lies between `cb`, the cosine of the edge `AC`, and `1`. -/
theorem arvo_cos_b_hat_bounds (α cb cc area : ℝ)
    (hsα : 0 < Real.sin α) (hcc : -1 < cc) (hcc' : cc < 1)
    (hineq : (1 + cb) * (1 + cc) * (1 - Real.cos area)
      ≤ (1 - cb) * (1 - cc) * (1 - Real.cos (2 * α - area)))
    (hpos : 0 < 1 - Real.cos (2 * α - area)) :
    cb ≤ (((Real.sin (area - α) + Real.sin α * cc) * Real.cos (area - α)
          - (Real.cos (area - α) - Real.cos α) * Real.sin (area - α)) * Real.cos α
          - (Real.sin (area - α) + Real.sin α * cc))
        / (((Real.sin (area - α) + Real.sin α * cc) * Real.sin (area - α)
          + (Real.cos (area - α) - Real.cos α) * Real.cos (area - α)) * Real.sin α)
    ∧ (((Real.sin (area - α) + Real.sin α * cc) * Real.cos (area - α)
          - (Real.cos (area - α) - Real.cos α) * Real.sin (area - α)) * Real.cos α
          - (Real.sin (area - α) + Real.sin α * cc))
        / (((Real.sin (area - α) + Real.sin α * cc) * Real.sin (area - α)
          + (Real.cos (area - α) - Real.cos α) * Real.cos (area - α)) * Real.sin α) ≤ 1 := by
  have hc1 : Real.cos area = Real.cos α * Real.cos (area - α)
      - Real.sin α * Real.sin (area - α) := by
    rw [← Real.cos_add]
    congr 1
    ring
  have hc2 : Real.cos (2 * α - area) = Real.cos α * Real.cos (area - α)
      + Real.sin α * Real.sin (area - α) := by
    rw [← Real.cos_sub]
    congr 1
    ring
  rw [hc1] at hineq
  rw [hc2] at hineq hpos
  have hφ := Real.sin_sq_add_cos_sq (area - α)
  have hα := Real.sin_sq_add_cos_sq α
  generalize Real.cos (area - α) = t at *
  generalize Real.sin (area - α) = s at *
  generalize Real.cos α = c at *
  generalize Real.sin α = k at *
  have hD : (s + k * cc) * s + (t - c) * t = 1 + k * cc * s - c * t := by
    linear_combination hφ
  have hN : ((s + k * cc) * t - (t - c) * s) * c - (s + k * cc)
      = k * (c * cc * t - k * s - cc) := by
    linear_combination s * hα
  have hDpos : 0 < 1 + k * cc * s - c * t := by
    have h1 : 0 ≤ (1 + cc) * (1 - (c * t - k * s)) := by
      apply mul_nonneg (by linarith)
      nlinarith [sq_nonneg (c - t), sq_nonneg (k + s)]
    have h2 : 0 < (1 - cc) * (1 - (c * t + k * s)) := mul_pos (by linarith) hpos
    nlinarith
  rw [hD, hN, mul_comm k, mul_div_mul_right _ _ (ne_of_gt hsα)]
  constructor
  · rw [le_div_iff₀ hDpos]
    nlinarith
  · rw [div_le_one hDpos]
    have h1 : 0 ≤ (1 + cc) * (1 - (c * t - k * s)) := by
      apply mul_nonneg (by linarith)
      nlinarith [sq_nonneg (c - t), sq_nonneg (k + s)]
    nlinarith

/-- The laws of cosines for the angles of a spherical triangle and the end point identity
of the formula of Arvo, from the cosines `ca, cb, cc` of the edges, their sines `sa, sb, sc`
and the volume `W` of the three unit vectors.  The cosines and sines of the angles are
given by their defining products. -/
theorem spherical_triangle_laws (ca cb cc W sa sb sc cα sα cβ sβ cγ sγ : ℝ)
    (hsa2 : sa ^ 2 = 1 - ca ^ 2) (hsb2 : sb ^ 2 = 1 - cb ^ 2) (hsc2 : sc ^ 2 = 1 - cc ^ 2)
    (hW2 : W ^ 2 = 1 - ca ^ 2 - cb ^ 2 - cc ^ 2 + 2 * ca * cb * cc)
    (hsa : 0 < sa) (hsb : 0 < sb) (hsc : 0 < sc)
    (hcα : cα * (sb * sc) = ca - cb * cc) (hsα : sα * (sb * sc) = W)
    (hcβ : cβ * (sa * sc) = cb - ca * cc) (hsβ : sβ * (sa * sc) = W)
    (hcγ : cγ * (sa * sb) = cc - ca * cb) (hsγ : sγ * (sa * sb) = W) :
    cγ + cα * cβ = sα * sβ * cc
    ∧ cα + cβ * cγ = sβ * sγ * ca
    ∧ (1 + cb) * (1 + cc) * (1 + (cα * (cβ * cγ - sβ * sγ) - sα * (sβ * cγ + cβ * sγ)))
      = (1 - cb) * (1 - cc) * (1 + ((cβ * cγ - sβ * sγ) * cα + (sβ * cγ + cβ * sγ) * sα)) := by
  have hne1 : sa * sb * sc ^ 2 ≠ 0 := by positivity
  have hne2 : sb * sc * sa ^ 2 ≠ 0 := by positivity
  have h1 : (cγ + cα * cβ - sα * sβ * cc) * (sa * sb * sc ^ 2) = 0 := by
    linear_combination sc ^ 2 * hcγ + (cβ * sa * sc) * hcα + (ca - cb * cc) * hcβ
      - cc * (sβ * sa * sc) * hsα - cc * W * hsβ + (cc - ca * cb) * hsc2 - cc * hW2
  have h2 : (cα + cβ * cγ - sβ * sγ * ca) * (sb * sc * sa ^ 2) = 0 := by
    linear_combination sa ^ 2 * hcα + (cγ * sa * sb) * hcβ + (cb - ca * cc) * hcγ
      - ca * (sγ * sa * sb) * hsβ - ca * W * hsγ + (ca - cb * cc) * hsa2 - ca * hW2
  refine ⟨?_, ?_, ?_⟩
  · have := (mul_eq_zero.mp h1).resolve_right hne1
    linarith
  · have := (mul_eq_zero.mp h2).resolve_right hne2
    linarith
  · have hca1 : 1 - ca ≠ 0 := by
      intro h
      have : ca = 1 := by linarith
      rw [this] at hsa2
      have : sa ^ 2 = 0 := by rw [hsa2]; ring
      have := pow_pos hsa 2
      linarith
    have hZ : (1 + ca) * sb * sc * (sb * sc) ≠ 0 := by
      have h1 : 1 + ca ≠ 0 := by
        intro h
        have : ca = -1 := by linarith
        rw [this] at hsa2
        have : sa ^ 2 = 0 := by rw [hsa2]; ring
        have := pow_pos hsa 2
        linarith
      have h2 : sb ≠ 0 := ne_of_gt hsb
      have h3 : sc ≠ 0 := ne_of_gt hsc
      exact mul_ne_zero (mul_ne_zero (mul_ne_zero h1 h2) h3) (mul_ne_zero h2 h3)
    have hY0 : ((sβ * cγ + cβ * sγ) * ((1 + ca) * sb * sc) - W * (cb + cc)) * (1 - ca) = 0 := by
      linear_combination (cγ * sa * sb) * hsβ + W * hcγ + (sγ * sa * sb) * hcβ
        + (cb - ca * cc) * hsγ - ((sβ * cγ + cβ * sγ) * sb * sc) * hsa2
    have hY : (sβ * cγ + cβ * sγ) * ((1 + ca) * sb * sc) = W * (cb + cc) := by
      have := (mul_eq_zero.mp hY0).resolve_right hca1
      linarith
    have hX0 : ((cβ * cγ - sβ * sγ) * ((1 + ca) * sb * sc)
        - (cb ^ 2 + cc ^ 2 + cb * cc - ca * cb * cc - 1 - ca)) * (1 - ca) = 0 := by
      linear_combination (cγ * sa * sb) * hcβ + (cb - ca * cc) * hcγ - (sγ * sa * sb) * hsβ
        - W * hsγ - ((cβ * cγ - sβ * sγ) * sb * sc) * hsa2 - hW2
    have hX : (cβ * cγ - sβ * sγ) * ((1 + ca) * sb * sc)
        = cb ^ 2 + cc ^ 2 + cb * cc - ca * cb * cc - 1 - ca := by
      have := (mul_eq_zero.mp hX0).resolve_right hca1
      linarith
    have hfin : ((cb + cc) * (1 + cα * (cβ * cγ - sβ * sγ))
        - (1 + cb * cc) * (sα * (sβ * cγ + cβ * sγ))) * ((1 + ca) * sb * sc * (sb * sc)) = 0 := by
      linear_combination (cb + cc) * ((cβ * cγ - sβ * sγ) * ((1 + ca) * sb * sc)) * hcα
        + (cb + cc) * (ca - cb * cc) * hX
        - (1 + cb * cc) * ((sβ * cγ + cβ * sγ) * ((1 + ca) * sb * sc)) * hsα
        - (1 + cb * cc) * W * hY
        + (cb + cc) * (1 + ca) * (sc ^ 2 * hsb2 + (1 - cb ^ 2) * hsc2)
        - (1 + cb * cc) * (cb + cc) * hW2
    have := (mul_eq_zero.mp hfin).resolve_right hZ
    linear_combination 2 * this

theorem dot_comm (a b : Vector3d) : dot a b = dot b a := by
  simp only [dot]; ring

theorem dot_neg_left (a b : Vector3d) : dot (-a) b = -dot a b := by
  simp only [dot, Vector3d.neg_x, Vector3d.neg_y, Vector3d.neg_z]; ring

theorem dot_div_div (a b : Vector3d) (s t : ℝ) : dot (a / s) (b / t) = dot a b / (s * t) := by
  simp only [dot, Vector3d.div_x, Vector3d.div_y, Vector3d.div_z]
  ring

/-- The Lagrange identity for the dot product of two cross products. -/
theorem dot_cross_cross (a b c d : Vector3d) :
    dot (cross a b) (cross c d) = dot a c * dot b d - dot a d * dot b c := by
  simp only [dot, cross]; ring

/-- The square of the triple product is the Gram determinant. -/
theorem triple_product_sq (a b c : Vector3d) :
    dot a (cross b c) ^ 2
      = dot a a * dot b b * dot c c + 2 * dot a b * dot b c * dot a c
        - dot a a * dot b c ^ 2 - dot b b * dot a c ^ 2 - dot c c * dot a b ^ 2 := by
  simp only [dot, cross]; ring

theorem triple_product_rotate (a b c : Vector3d) :
    dot a (cross b c) = dot b (cross c a) ∧ dot a (cross b c) = dot c (cross a b) := by
  constructor <;> (simp only [dot, cross]; ring)

theorem triple_product_div (a b c : Vector3d) (r s t : ℝ) :
    dot (a / r) (cross (b / s) (c / t)) = dot a (cross b c) / (r * s * t) := by
  simp only [dot, cross, Vector3d.div_x, Vector3d.div_y, Vector3d.div_z]
  ring

theorem cross_zero_left (b : Vector3d) : cross 0 b = 0 := by
  ext <;> simp [cross]

theorem cross_zero_right (a : Vector3d) : cross a 0 = 0 := by
  ext <;> simp [cross]

theorem dot_zero_left (b : Vector3d) : dot 0 b = 0 := by
  simp [dot]

theorem dot_zero_right (a : Vector3d) : dot a 0 = 0 := by
  simp [dot]

theorem norm_sq (v : Vector3d) : norm v ^ 2 = dot v v := by
  rw [pow_two, norm_mul_self]

theorem dot_normalize_self {v : Vector3d} (h : v ≠ 0) : dot (normalize v) (normalize v) = 1 := by
  have hn := norm_pos_of_ne_zero h
  rw [normalize, dot_div_div, norm_mul_self]
  have h1 : dot v v ≠ 0 := fun e => h (dot_self_eq_zero e)
  exact div_self h1

theorem norm_of_dot_self_eq {v : Vector3d} {p : ℝ} (hp : 0 ≤ p) (h : dot v v = p ^ 2) :
    norm v = p := by
  unfold norm
  rw [h]
  exact Real.sqrt_sq hp

theorem ortho_vector_eq (X Y : Vector3d) (hX : dot X X = 1) (hY : dot Y Y = 1) :
    SphericalTriangleSampler.ortho_vector Y X
      = (Y - dot Y X • X) / Real.sqrt (1 - dot Y X ^ 2) := by
  have h : dot (Y - dot Y X • X) (Y - dot Y X • X) = 1 - dot Y X ^ 2 := by
    have e : dot (Y - dot Y X • X) (Y - dot Y X • X)
        = dot Y Y - 2 * dot Y X * dot Y X + dot Y X ^ 2 * dot X X := by
      simp only [dot, Vector3d.sub_x, Vector3d.sub_y, Vector3d.sub_z, Vector3d.smul_x,
        Vector3d.smul_y, Vector3d.smul_z]
      ring
    rw [e, hX, hY]
    ring
  simp only [SphericalTriangleSampler.ortho_vector, normalize, norm, h]

/-- Sign of `w * sqrt (1 - t^2) - t * sqrt (1 - w^2)` for `t <= w`. -/
theorem arc_coefficient_nonneg (t w p r : ℝ) (hp : 0 ≤ p) (hr : 0 ≤ r)
    (hp2 : p ^ 2 = 1 - t ^ 2) (hr2 : r ^ 2 = 1 - w ^ 2) (htw : t ≤ w) :
    0 ≤ w * p - t * r := by
  by_contra hcon
  push_neg at hcon
  by_cases ht : t ≤ 0
  · have h1 : t * r ≤ 0 := mul_nonpos_of_nonpos_of_nonneg ht hr
    have hw : w < 0 := by
      by_contra hw
      push_neg at hw
      have := mul_nonneg hw hp
      linarith
    have h2 : 0 ≤ (-w) * p := mul_nonneg (by linarith) hp
    have h3 : 0 ≤ (-t) * r := mul_nonneg (by linarith) hr
    have h4 : ((-t) * r) ^ 2 < ((-w) * p) ^ 2 := by
      apply pow_lt_pow_left₀ (by linarith) h3 (by norm_num)
    have h5 : w ^ 2 ≤ t ^ 2 := by nlinarith
    nlinarith
  · push_neg at ht
    have hw : 0 < w := by linarith
    have h2 : 0 ≤ w * p := mul_nonneg hw.le hp
    have h4 : (w * p) ^ 2 < (t * r) ^ 2 := by
      apply pow_lt_pow_left₀ (by linarith) h2 (by norm_num)
    have h5 : t ^ 2 ≤ w ^ 2 := by nlinarith
    nlinarith

/-- A point `w X + sqrt (1 - w^2) ortho_vector(Y, X)` with `X . Y <= w <= 1` lies on the arc
from `X` to `Y`: it is a unit vector and a non-negative combination of `X` and `Y`. -/
theorem arc_point (X Y : Vector3d) (w : ℝ) (hX : dot X X = 1) (hY : dot Y Y = 1)
    (ht : dot Y X ^ 2 < 1) (hw1 : dot Y X ≤ w) (hw2 : w ≤ 1) :
    ∃ l m : ℝ, 0 ≤ l ∧ 0 ≤ m
      ∧ w • X + Real.sqrt (1 - square w) • SphericalTriangleSampler.ortho_vector Y X
          = l • X + m • Y
      ∧ l ^ 2 + 2 * l * m * dot Y X + m ^ 2 = 1 := by
  have hp0 : 0 < 1 - dot Y X ^ 2 := by linarith
  have hp : 0 < Real.sqrt (1 - dot Y X ^ 2) := Real.sqrt_pos.mpr hp0
  have hp2 : Real.sqrt (1 - dot Y X ^ 2) ^ 2 = 1 - dot Y X ^ 2 := Real.sq_sqrt hp0.le
  have hw0 : -1 < w := by nlinarith
  have hr0 : 0 ≤ 1 - w ^ 2 := by nlinarith
  have hr : 0 ≤ Real.sqrt (1 - w ^ 2) := Real.sqrt_nonneg _
  have hr2 : Real.sqrt (1 - w ^ 2) ^ 2 = 1 - w ^ 2 := Real.sq_sqrt hr0
  have hsq : square w = w ^ 2 := by unfold square; ring
  rw [ortho_vector_eq X Y hX hY, hsq]
  have hcoef := arc_coefficient_nonneg (dot Y X) w _ _ hp.le hr hp2 hr2 hw1
  generalize Real.sqrt (1 - dot Y X ^ 2) = p at *
  generalize Real.sqrt (1 - w ^ 2) = r at *
  generalize dot Y X = t at *
  have hpne : p ≠ 0 := ne_of_gt hp
  refine ⟨(w * p - t * r) / p, r / p, div_nonneg hcoef hp.le, div_nonneg hr hp.le, ?_, ?_⟩
  · ext <;> simp only [Vector3d.add_x, Vector3d.add_y, Vector3d.add_z, Vector3d.smul_x,
      Vector3d.smul_y, Vector3d.smul_z, Vector3d.div_x, Vector3d.div_y, Vector3d.div_z,
      Vector3d.sub_x, Vector3d.sub_y, Vector3d.sub_z] <;> field_simp <;> ring
  · have key : (w * p - t * r) ^ 2 + 2 * (w * p - t * r) * r * t + r ^ 2 = p ^ 2 := by
      linear_combination (w ^ 2 - 1) * hp2 + (1 - t ^ 2) * hr2
    have e : ((w * p - t * r) / p) ^ 2 + 2 * ((w * p - t * r) / p) * (r / p) * t + (r / p) ^ 2
        = ((w * p - t * r) ^ 2 + 2 * (w * p - t * r) * r * t + r ^ 2) / p ^ 2 := by
      field_simp
      ring
    rw [e, key]
    exact div_self (pow_ne_zero 2 hpne)

theorem unit_cross_dot_self (A B : Vector3d) (hA : dot A A = 1) (hB : dot B B = 1) :
    dot (cross A B) (cross A B) = 1 - dot A B ^ 2 := by
  rw [dot_cross_cross, hA, hB, dot_comm B A]
  ring

theorem cross_dot_self_pos (T U V : Vector3d) (h : dot T (cross U V) ≠ 0) :
    0 < dot (cross U V) (cross U V) := by
  apply lt_of_le_of_ne (dot_self_nonneg _)
  intro e
  apply h
  rw [dot_self_eq_zero e.symm, dot_zero_right]

theorem neg_normalize_dot (U V : Vector3d) :
    dot (-normalize U) (normalize V) = -dot U V / (norm U * norm V) := by
  rw [dot_neg_left, normalize, normalize, dot_div_div]
  ring

/-- The angle `acos(dot(-nU, nV))` between two planes with normals `U`, `V`: its cosine and
sine, and that it lies strictly between `0` and `pi`. -/
theorem dihedral_angle (U V : Vector3d) (su sv num W : ℝ) (hsu : 0 < su) (hsv : 0 < sv)
    (hU : dot U U = su ^ 2) (hV : dot V V = sv ^ 2) (hUV : dot U V = -num) (hW : 0 < W)
    (hsum : num ^ 2 + W ^ 2 = su ^ 2 * sv ^ 2) :
    Real.cos (Real.arccos (dot (-normalize U) (normalize V))) * (su * sv) = num
    ∧ Real.sin (Real.arccos (dot (-normalize U) (normalize V))) * (su * sv) = W
    ∧ 0 < Real.arccos (dot (-normalize U) (normalize V))
    ∧ Real.arccos (dot (-normalize U) (normalize V)) < Real.pi := by
  have hprod : 0 < su * sv := mul_pos hsu hsv
  have hx : dot (-normalize U) (normalize V) = num / (su * sv) := by
    rw [neg_normalize_dot, norm_of_dot_self_eq hsu.le hU, norm_of_dot_self_eq hsv.le hV, hUV,
      neg_neg]
  have hunit : (num / (su * sv)) ^ 2 + (W / (su * sv)) ^ 2 = 1 := by
    rw [div_pow, div_pow, ← add_div, hsum, mul_pow]
    exact div_self (ne_of_gt (by positivity))
  obtain ⟨h1, h2, h3, h4⟩ := arccos_of_unit_pair _ _ (div_pos hW hprod) hunit
  rw [hx]
  refine ⟨?_, ?_, h3, h4⟩
  · rw [h1]
    exact div_mul_cancel₀ _ (ne_of_gt hprod)
  · rw [h2]
    exact div_mul_cancel₀ _ (ne_of_gt hprod)

theorem bounds_of_sq_lt_one {x : ℝ} (h : 0 < 1 - x ^ 2) : -1 < x ∧ x < 1 := by
  constructor <;> nlinarith

/-- Bounds on `cos_b_hat` for the sampler of a triangle with linearly independent unit
directions `A`, `B`, `C`: with the angles of the constructor and `area = sr * x`,
`x` in `[0, 1]`, it lies between `dot A C` and `1`. -/
theorem triangle_cos_b_hat_bounds (A B C : Vector3d) (α β γ x : ℝ)
    (hA : dot A A = 1) (hB : dot B B = 1) (hC : dot C C = 1)
    (hdet : dot A (cross B C) ≠ 0)
    (hα : α = Real.arccos (dot (-normalize (cross A B)) (normalize (cross C A))))
    (hβ : β = Real.arccos (dot (-normalize (cross B C)) (normalize (cross A B))))
    (hγ : γ = Real.arccos (dot (-normalize (cross C A)) (normalize (cross B C))))
    (hx0 : 0 ≤ x) (hx1 : x ≤ 1) :
    dot A C ^ 2 < 1
    ∧ dot A C ≤ (((Real.sin ((α + β + γ - Real.pi) * x - α) + Real.sin α * dot A B)
            * Real.cos ((α + β + γ - Real.pi) * x - α)
          - (Real.cos ((α + β + γ - Real.pi) * x - α) - Real.cos α)
            * Real.sin ((α + β + γ - Real.pi) * x - α)) * Real.cos α
          - (Real.sin ((α + β + γ - Real.pi) * x - α) + Real.sin α * dot A B))
        / (((Real.sin ((α + β + γ - Real.pi) * x - α) + Real.sin α * dot A B)
            * Real.sin ((α + β + γ - Real.pi) * x - α)
          + (Real.cos ((α + β + γ - Real.pi) * x - α) - Real.cos α)
            * Real.cos ((α + β + γ - Real.pi) * x - α)) * Real.sin α)
    ∧ (((Real.sin ((α + β + γ - Real.pi) * x - α) + Real.sin α * dot A B)
            * Real.cos ((α + β + γ - Real.pi) * x - α)
          - (Real.cos ((α + β + γ - Real.pi) * x - α) - Real.cos α)
            * Real.sin ((α + β + γ - Real.pi) * x - α)) * Real.cos α
          - (Real.sin ((α + β + γ - Real.pi) * x - α) + Real.sin α * dot A B))
        / (((Real.sin ((α + β + γ - Real.pi) * x - α) + Real.sin α * dot A B)
            * Real.sin ((α + β + γ - Real.pi) * x - α)
          + (Real.cos ((α + β + γ - Real.pi) * x - α) - Real.cos α)
            * Real.cos ((α + β + γ - Real.pi) * x - α)) * Real.sin α) ≤ 1 := by
  obtain ⟨hrot1, hrot2⟩ := triple_product_rotate A B C
  have hdet1 : dot B (cross C A) ≠ 0 := by rw [← hrot1]; exact hdet
  have hdet2 : dot C (cross A B) ≠ 0 := by rw [← hrot2]; exact hdet
  -- squared norms of the three cross products
  have hna : dot (cross B C) (cross B C) = 1 - dot B C ^ 2 := unit_cross_dot_self B C hB hC
  have hnb : dot (cross C A) (cross C A) = 1 - dot A C ^ 2 := by
    rw [unit_cross_dot_self C A hC hA, dot_comm C A]
  have hnc : dot (cross A B) (cross A B) = 1 - dot A B ^ 2 := unit_cross_dot_self A B hA hB
  have hpa : 0 < 1 - dot B C ^ 2 := by rw [← hna]; exact cross_dot_self_pos A B C hdet
  have hpb : 0 < 1 - dot A C ^ 2 := by rw [← hnb]; exact cross_dot_self_pos B C A hdet1
  have hpc : 0 < 1 - dot A B ^ 2 := by rw [← hnc]; exact cross_dot_self_pos C A B hdet2
  have hsa : 0 < Real.sqrt (1 - dot B C ^ 2) := Real.sqrt_pos.mpr hpa
  have hsb : 0 < Real.sqrt (1 - dot A C ^ 2) := Real.sqrt_pos.mpr hpb
  have hsc : 0 < Real.sqrt (1 - dot A B ^ 2) := Real.sqrt_pos.mpr hpc
  have hsa2 : Real.sqrt (1 - dot B C ^ 2) ^ 2 = 1 - dot B C ^ 2 := Real.sq_sqrt hpa.le
  have hsb2 : Real.sqrt (1 - dot A C ^ 2) ^ 2 = 1 - dot A C ^ 2 := Real.sq_sqrt hpb.le
  have hsc2 : Real.sqrt (1 - dot A B ^ 2) ^ 2 = 1 - dot A B ^ 2 := Real.sq_sqrt hpc.le
  -- the volume of the three directions
  have hW : 0 < |dot A (cross B C)| := abs_pos.mpr hdet
  have hW2 : |dot A (cross B C)| ^ 2
      = 1 - dot B C ^ 2 - dot A C ^ 2 - dot A B ^ 2 + 2 * dot B C * dot A C * dot A B := by
    rw [sq_abs, triple_product_sq, hA, hB, hC]
    ring
  -- dot products of the cross products
  have hab_ca : dot (cross A B) (cross C A) = -(dot B C - dot A C * dot A B) := by
    rw [dot_cross_cross, hA, dot_comm B A, dot_comm B C]
    ring
  have hbc_ab : dot (cross B C) (cross A B) = -(dot A C - dot B C * dot A B) := by
    rw [dot_cross_cross, hB, dot_comm B A, dot_comm C B, dot_comm C A]
    ring
  have hca_bc : dot (cross C A) (cross B C) = -(dot A B - dot B C * dot A C) := by
    rw [dot_cross_cross, hC, dot_comm C B]
    ring
  rw [← hsa2] at hna
  rw [← hsb2] at hnb
  rw [← hsc2] at hnc
  generalize Real.sqrt (1 - dot B C ^ 2) = sa at *
  generalize Real.sqrt (1 - dot A C ^ 2) = sb at *
  generalize Real.sqrt (1 - dot A B ^ 2) = sc at *
  generalize |dot A (cross B C)| = W at *
  obtain ⟨hcα, hsα, hα0, hα1⟩ := dihedral_angle (cross A B) (cross C A) sc sb
    (dot B C - dot A C * dot A B) W hsc hsb hnc hnb hab_ca hW
    (by linear_combination hW2 - (1 - dot A C ^ 2) * hsc2 - sc ^ 2 * hsb2)
  obtain ⟨hcβ, hsβ, hβ0, hβ1⟩ := dihedral_angle (cross B C) (cross A B) sa sc
    (dot A C - dot B C * dot A B) W hsa hsc hna hnc hbc_ab hW
    (by linear_combination hW2 - (1 - dot A B ^ 2) * hsa2 - sa ^ 2 * hsc2)
  obtain ⟨hcγ, hsγ, hγ0, hγ1⟩ := dihedral_angle (cross C A) (cross B C) sb sa
    (dot A B - dot B C * dot A C) W hsb hsa hnb hna hca_bc hW
    (by linear_combination hW2 - (1 - dot B C ^ 2) * hsb2 - sb ^ 2 * hsa2)
  rw [← hα] at hcα hsα hα0 hα1
  rw [← hβ] at hcβ hsβ hβ0 hβ1
  rw [← hγ] at hcγ hsγ hγ0 hγ1
  rw [mul_comm sc sb] at hcα hsα
  rw [mul_comm sb sa] at hcγ hsγ
  obtain ⟨hlawγ, hlawα, hend⟩ := spherical_triangle_laws (dot B C) (dot A C) (dot A B) W
    sa sb sc (Real.cos α) (Real.sin α) (Real.cos β) (Real.sin β) (Real.cos γ) (Real.sin γ)
    hsa2 hsb2 hsc2 hW2 hsa hsb hsc hcα hsα hcβ hsβ hcγ hsγ
  have hca1 : dot B C < 1 := (bounds_of_sq_lt_one hpa).2
  have hcb0 : -1 < dot A C := (bounds_of_sq_lt_one hpb).1
  have hcc0 : -1 < dot A B := (bounds_of_sq_lt_one hpc).1
  have hcc1 : dot A B < 1 := (bounds_of_sq_lt_one hpc).2
  have hend' : (1 + dot A C) * (1 + dot A B) * (1 + Real.cos (α + β + γ))
      = (1 - dot A C) * (1 - dot A B) * (1 + Real.cos (β + γ - α)) := by
    have e1 : α + β + γ = α + (β + γ) := by ring
    rw [e1, Real.cos_add α, Real.cos_sub, Real.cos_add β, Real.sin_add β]
    exact hend
  have hexcess : Real.pi < α + β + γ :=
    spherical_excess_pos α β γ (dot A B) hα0 hα1 hβ0 hβ1 hγ0 hcc1 hlawγ
  have harea0 : 0 ≤ (α + β + γ - Real.pi) * x := mul_nonneg (by linarith) hx0
  have harea1 : (α + β + γ - Real.pi) * x ≤ α + β + γ - Real.pi := by
    have : (α + β + γ - Real.pi) * x ≤ (α + β + γ - Real.pi) * 1 :=
      mul_le_mul_of_nonneg_left hx1 (by linarith)
    linarith
  obtain ⟨hineq, hpos⟩ := arvo_area_inequality α β γ (dot B C) (dot A C) (dot A B)
    ((α + β + γ - Real.pi) * x) hα0 hα1 hβ0 hβ1 hγ0 hγ1 hca1 hcb0 hcc0 hcc1
    hlawγ hlawα hend' harea0 harea1
  have hsinα : 0 < Real.sin α := Real.sin_pos_of_pos_of_lt_pi hα0 hα1
  have hb := arvo_cos_b_hat_bounds α (dot A C) (dot A B) ((α + β + γ - Real.pi) * x)
    hsinα hcc0 hcc1 hineq hpos
  exact ⟨by linarith, hb.1, hb.2⟩

theorem dot_comb_self (X Y : Vector3d) (l m : ℝ) :
    dot (l • X + m • Y) (l • X + m • Y)
      = l ^ 2 * dot X X + 2 * l * m * dot Y X + m ^ 2 * dot Y Y := by
  simp only [dot, Vector3d.add_x, Vector3d.add_y, Vector3d.add_z, Vector3d.smul_x,
    Vector3d.smul_y, Vector3d.smul_z]
  ring

theorem triple_product_comb (A B C : Vector3d) (l m : ℝ) :
    dot C (cross (l • A + m • C) B) = l * dot A (cross B C)
    ∧ dot A (cross (l • A + m • C) B) = -(m * dot A (cross B C)) := by
  constructor <;>
  · simp only [dot, cross, Vector3d.add_x, Vector3d.add_y, Vector3d.add_z, Vector3d.smul_x,
      Vector3d.smul_y, Vector3d.smul_z]
    ring

/-- The body of `SphericalTriangleSampler::sample`, with its local variables `cos_b_hat`,
`C_hat` and `cos_theta` named. -/
theorem triangle_sample_of_parts (S : SphericalTriangleSampler) (s : Vector2d) :
    ∃ q : ℝ,
      q = (((Real.sin (S.m_sr * s.x - S.m_alpha) + Real.sin S.m_alpha * dot S.m_A S.m_B)
            * Real.cos (S.m_sr * s.x - S.m_alpha)
          - (Real.cos (S.m_sr * s.x - S.m_alpha) - Real.cos S.m_alpha)
            * Real.sin (S.m_sr * s.x - S.m_alpha)) * Real.cos S.m_alpha
          - (Real.sin (S.m_sr * s.x - S.m_alpha) + Real.sin S.m_alpha * dot S.m_A S.m_B))
        / (((Real.sin (S.m_sr * s.x - S.m_alpha) + Real.sin S.m_alpha * dot S.m_A S.m_B)
            * Real.sin (S.m_sr * s.x - S.m_alpha)
          + (Real.cos (S.m_sr * s.x - S.m_alpha) - Real.cos S.m_alpha)
            * Real.cos (S.m_sr * s.x - S.m_alpha)) * Real.sin S.m_alpha)
      ∧ ∀ C_hat : Vector3d,
          C_hat = q • S.m_A
            + Real.sqrt (1 - square q) • SphericalTriangleSampler.ortho_vector S.m_C S.m_A →
          ∀ z : ℝ, z = 1 - s.y * (1 - dot C_hat S.m_B) →
            S.sample s = z • S.m_B
              + Real.sqrt (max (1 - square z) 0)
                • SphericalTriangleSampler.ortho_vector C_hat S.m_B := by
  refine ⟨_, rfl, ?_⟩
  intro C_hat hC z hz
  subst hz
  subst hC
  rfl

/-- The sampler of a triangle with linearly independent unit directions returns a unit
vector that is a non-negative combination of the three directions. -/
theorem triangle_sample_core (S : SphericalTriangleSampler) (s : Vector2d)
    (hA : dot S.m_A S.m_A = 1) (hB : dot S.m_B S.m_B = 1) (hC : dot S.m_C S.m_C = 1)
    (hdet : dot S.m_A (cross S.m_B S.m_C) ≠ 0)
    (hα : S.m_alpha
      = Real.arccos (dot (-normalize (cross S.m_A S.m_B)) (normalize (cross S.m_C S.m_A))))
    (hβ : S.m_beta
      = Real.arccos (dot (-normalize (cross S.m_B S.m_C)) (normalize (cross S.m_A S.m_B))))
    (hγ : S.m_gamma
      = Real.arccos (dot (-normalize (cross S.m_C S.m_A)) (normalize (cross S.m_B S.m_C))))
    (hsr : S.m_sr = S.m_alpha + S.m_beta + S.m_gamma - Real.pi)
    (hx0 : 0 ≤ s.x) (hx1 : s.x ≤ 1) (hy0 : 0 ≤ s.y) (hy1 : s.y ≤ 1) :
    dot (S.sample s) (S.sample s) = 1
    ∧ ∃ ka kb kc : ℝ, 0 ≤ ka ∧ 0 ≤ kb ∧ 0 ≤ kc
        ∧ S.sample s = ka • S.m_A + kb • S.m_B + kc • S.m_C := by
  obtain ⟨hcb2, hq0, hq1⟩ := triangle_cos_b_hat_bounds S.m_A S.m_B S.m_C S.m_alpha S.m_beta
    S.m_gamma s.x hA hB hC hdet hα hβ hγ hx0 hx1
  obtain ⟨q, hq, hsample⟩ := triangle_sample_of_parts S s
  rw [hsr] at hq
  rw [← hq] at hq0 hq1
  -- the point C_hat on the arc from A to C
  rw [dot_comm S.m_A S.m_C] at hcb2 hq0
  obtain ⟨l, m, hl, hm, hChat, hunit⟩ := arc_point S.m_A S.m_C q hA hC hcb2 hq0 hq1
  have hsample1 := hsample _ hChat.symm _ rfl
  have hCC : dot (l • S.m_A + m • S.m_C) (l • S.m_A + m • S.m_C) = 1 := by
    rw [dot_comb_self, hA, hC]
    linarith
  -- C_hat is not parallel to B
  have ht2 : dot (l • S.m_A + m • S.m_C) S.m_B ^ 2 < 1 := by
    have hcr := unit_cross_dot_self (l • S.m_A + m • S.m_C) S.m_B hCC hB
    have hpos : 0 < dot (cross (l • S.m_A + m • S.m_C) S.m_B)
        (cross (l • S.m_A + m • S.m_C) S.m_B) := by
      apply lt_of_le_of_ne (dot_self_nonneg _)
      intro e
      have hz := dot_self_eq_zero e.symm
      obtain ⟨h1, h2⟩ := triple_product_comb S.m_A S.m_B S.m_C l m
      rw [hz, dot_zero_right] at h1 h2
      have hl0 : l = 0 := by
        rcases mul_eq_zero.mp h1.symm with h | h
        · exact h
        · exact absurd h hdet
      have hm0 : m = 0 := by
        have h2' : m * dot S.m_A (cross S.m_B S.m_C) = 0 := by linarith
        rcases mul_eq_zero.mp h2' with h | h
        · exact h
        · exact absurd h hdet
      rw [hl0, hm0] at hunit
      norm_num at hunit
    linarith
  obtain ⟨ht2a, ht2b⟩ := bounds_of_sq_lt_one (by linarith : 0 < 1 - dot (l • S.m_A + m • S.m_C) S.m_B ^ 2)
  generalize hz : 1 - s.y * (1 - dot (l • S.m_A + m • S.m_C) S.m_B) = z at hsample1
  have hz1 : dot (l • S.m_A + m • S.m_C) S.m_B ≤ z := by
    have : 0 ≤ (1 - s.y) * (1 - dot (l • S.m_A + m • S.m_C) S.m_B) :=
      mul_nonneg (by linarith) (by linarith)
    rw [← hz]
    linarith
  have hz2 : z ≤ 1 := by
    have : 0 ≤ s.y * (1 - dot (l • S.m_A + m • S.m_C) S.m_B) := mul_nonneg hy0 (by linarith)
    rw [← hz]
    linarith
  have hmax : max (1 - square z) 0 = 1 - square z := by
    apply max_eq_left
    unfold square
    have hz0 : -1 ≤ z := by linarith
    nlinarith
  rw [hmax] at hsample1
  obtain ⟨l', m', hl', hm', hP, hunit'⟩ :=
    arc_point S.m_B (l • S.m_A + m • S.m_C) z hB hCC ht2 hz1 hz2
  rw [hP] at hsample1
  constructor
  · rw [hsample1, dot_comb_self, hB, hCC]
    linarith
  · refine ⟨m' * l, l', m' * m, mul_nonneg hm' hl, hl', mul_nonneg hm' hm, ?_⟩
    rw [hsample1]
    ext <;> simp only [Vector3d.add_x, Vector3d.add_y, Vector3d.add_z, Vector3d.smul_x,
      Vector3d.smul_y, Vector3d.smul_z] <;> ring

/-! ## The sample of the triangle sampler lies in the spherical triangle -/

theorem sub_ne_zero_of_triple (u v w : Vector3d) (h : dot u (cross v w) ≠ 0) :
    u ≠ 0 ∧ v ≠ 0 ∧ w ≠ 0 := by
  refine ⟨?_, ?_, ?_⟩
  · intro e
    apply h
    rw [e, dot_zero_left]
  · intro e
    apply h
    rw [e, cross_zero_left, dot_zero_right]
  · intro e
    apply h
    rw [e, cross_zero_right, dot_zero_right]

/-- C18: for every reference point `o` and vertices `a, b, c` whose directions from `o` are
linearly independent, and every `s` in `[0,1]^2`, the sample of
`SphericalTriangleSampler(a, b, c, o)` is a unit vector and a non-negative linear
combination of the unit directions `A, B, C`; and `sample((s0, 0)) = B` for every `s0`. -/
theorem triangle_sampler_sample_in_triangle (a b c o : Vector3d) (s : Vector2d)
    (hindep : dot (a - o) (cross (b - o) (c - o)) ≠ 0)
    (hx0 : 0 ≤ s.x) (hx1 : s.x ≤ 1) (hy0 : 0 ≤ s.y) (hy1 : s.y ≤ 1) :
    norm ((SphericalTriangleSampler.create a b c o).sample s) = 1
    ∧ (∃ ka kb kc : ℝ, 0 ≤ ka ∧ 0 ≤ kb ∧ 0 ≤ kc
        ∧ (SphericalTriangleSampler.create a b c o).sample s
            = ka • normalize (a - o) + kb • normalize (b - o) + kc • normalize (c - o))
    ∧ ∀ s0 : ℝ, (SphericalTriangleSampler.create a b c o).sample ⟨s0, 0⟩
        = normalize (b - o) := by
  obtain ⟨ha, hb, hc⟩ := sub_ne_zero_of_triple _ _ _ hindep
  have hdet : dot (normalize (a - o)) (cross (normalize (b - o)) (normalize (c - o))) ≠ 0 := by
    simp only [normalize]
    rw [triple_product_div]
    exact div_ne_zero hindep (mul_ne_zero (mul_ne_zero (ne_of_gt (norm_pos_of_ne_zero ha))
      (ne_of_gt (norm_pos_of_ne_zero hb))) (ne_of_gt (norm_pos_of_ne_zero hc)))
  obtain ⟨hunit, hcomb⟩ := triangle_sample_core (SphericalTriangleSampler.create a b c o) s
    (dot_normalize_self ha) (dot_normalize_self hb) (dot_normalize_self hc) hdet
    rfl rfl rfl rfl hx0 hx1 hy0 hy1
  refine ⟨?_, hcomb, ?_⟩
  · unfold norm
    rw [hunit, Real.sqrt_one]
  · intro s0
    exact triangle_sample_second_zero _ s0

theorem triangle_sampler_sample_in_triangle_witness :
    norm ((SphericalTriangleSampler.create ⟨1, 0, 0⟩ ⟨0, 1, 0⟩ ⟨0, 0, 1⟩ 0).sample
        ⟨1 / 2, 1 / 2⟩) = 1
    ∧ (∃ ka kb kc : ℝ, 0 ≤ ka ∧ 0 ≤ kb ∧ 0 ≤ kc
        ∧ (SphericalTriangleSampler.create ⟨1, 0, 0⟩ ⟨0, 1, 0⟩ ⟨0, 0, 1⟩ 0).sample
            ⟨1 / 2, 1 / 2⟩
            = ka • normalize ((⟨1, 0, 0⟩ : Vector3d) - 0)
              + kb • normalize ((⟨0, 1, 0⟩ : Vector3d) - 0)
              + kc • normalize ((⟨0, 0, 1⟩ : Vector3d) - 0))
    ∧ ∀ s0 : ℝ, (SphericalTriangleSampler.create ⟨1, 0, 0⟩ ⟨0, 1, 0⟩ ⟨0, 0, 1⟩ 0).sample
        ⟨s0, 0⟩ = normalize ((⟨0, 1, 0⟩ : Vector3d) - 0) :=
  triangle_sampler_sample_in_triangle ⟨1, 0, 0⟩ ⟨0, 1, 0⟩ ⟨0, 0, 1⟩ 0 ⟨1 / 2, 1 / 2⟩
    (by norm_num [dot, cross]) (by norm_num) (by norm_num) (by norm_num) (by norm_num)

/-! ## The position passed by make_shading_point for a rectangle -/

theorem rect_sample_uniform_eq (self : EmittingShape) (F : Foundation) (s : Vector2d)
    (shape_prob : ℝ) (light_sample : LightSample)
    (htype : self.get_shape_type = ShapeType.RectShape) :
    self.sample_uniform F s shape_prob light_sample
      = some
        { m_point :=
            self.m_geom.m_rect.m_origin + s.x • self.m_geom.m_rect.m_x
            + s.y • self.m_geom.m_rect.m_y
          m_shading_normal := self.m_geom.m_rect.m_geometric_normal
          m_geometric_normal := self.m_geom.m_rect.m_geometric_normal
          m_bary := s
          m_shape := some self
          m_probability := shape_prob * self.get_rcp_area
          m_light := light_sample.m_light } := by
  simp only [EmittingShape.sample_uniform, htype, Option.map_some']

/-- C21: for a rectangle shape and every variate `s`, `sample_uniform` returns a sample
with `m_point = origin + s[0] * x + s[1] * y`, and `make_shading_point` called with
`bary = sample.m_bary` calls the procedural-surface shading-point constructor with the
position `sample.m_point` and the geometric normal of the rectangle. -/
theorem rect_make_shading_point_position (self : EmittingShape) (F : Foundation)
    (earliest_transform : Nat → Nat) (s : Vector2d) (shape_prob : ℝ)
    (light_sample : LightSample) (shading_point : ShadingPoint) (point direction : Vector3d)
    (htype : self.get_shape_type = ShapeType.RectShape) :
    (∃ sample, self.sample_uniform F s shape_prob light_sample = some sample)
    ∧ ∀ sample, self.sample_uniform F s shape_prob light_sample = some sample →
        sample.m_point
          = self.m_geom.m_rect.m_origin + s.x • self.m_geom.m_rect.m_x
            + s.y • self.m_geom.m_rect.m_y
        ∧ self.make_shading_point F earliest_transform shading_point point direction
              sample.m_bary
            = some (IntersectorCall.make_procedural_surface_shading_point shading_point
                { m_org := point, m_dir := direction, m_tmin := 0, m_tmax := 0,
                  m_time := none, m_flags := VisibilityFlags.CameraRay, m_depth := 0 }
                sample.m_bary self.get_assembly_instance
                (earliest_transform self.get_assembly_instance)
                self.get_object_instance_index self.get_primitive_index
                sample.m_point self.m_geom.m_rect.m_geometric_normal
                self.m_geom.m_rect.m_x
                (cross self.m_geom.m_rect.m_x self.m_geom.m_rect.m_geometric_normal)) := by
  rw [rect_sample_uniform_eq self F s shape_prob light_sample htype]
  refine ⟨⟨_, rfl⟩, ?_⟩
  intro sample hsample
  cases hsample
  refine ⟨rfl, ?_⟩
  simp only [EmittingShape.make_shading_point, htype]

theorem rect_make_shading_point_position_witness :
    (∃ sample, unit_rect.sample_uniform reference_foundation ⟨1 / 4, 3 / 4⟩ 1 blank_sample
        = some sample)
    ∧ ∀ sample,
        unit_rect.sample_uniform reference_foundation ⟨1 / 4, 3 / 4⟩ 1 blank_sample
          = some sample →
        sample.m_point
          = unit_rect.m_geom.m_rect.m_origin + (1 / 4 : ℝ) • unit_rect.m_geom.m_rect.m_x
            + (3 / 4 : ℝ) • unit_rect.m_geom.m_rect.m_y
        ∧ unit_rect.make_shading_point reference_foundation (fun _ => 0) ⟨0⟩ 0 ⟨0, 0, 1⟩
              sample.m_bary
            = some (IntersectorCall.make_procedural_surface_shading_point ⟨0⟩
                { m_org := 0, m_dir := ⟨0, 0, 1⟩, m_tmin := 0, m_tmax := 0,
                  m_time := none, m_flags := VisibilityFlags.CameraRay, m_depth := 0 }
                sample.m_bary unit_rect.get_assembly_instance
                ((fun _ => 0) unit_rect.get_assembly_instance)
                unit_rect.get_object_instance_index unit_rect.get_primitive_index
                sample.m_point unit_rect.m_geom.m_rect.m_geometric_normal
                unit_rect.m_geom.m_rect.m_x
                (cross unit_rect.m_geom.m_rect.m_x
                  unit_rect.m_geom.m_rect.m_geometric_normal)) :=
  rect_make_shading_point_position unit_rect reference_foundation (fun _ => 0)
    ⟨1 / 4, 3 / 4⟩ 1 blank_sample ⟨0⟩ 0 ⟨0, 0, 1⟩ unit_rect_get_shape_type

/-! ## The fields of a PatchKey -/

theorem static_cast_size_t_uint32 (x : Nat) :
    static_cast_size_t (static_cast_uint32 x) = x % 2 ^ 32 := by
  unfold static_cast_size_t static_cast_uint32
  exact Nat.mod_eq_of_lt (lt_of_lt_of_le (Nat.mod_lt _ (by norm_num)) (by norm_num))

theorem static_cast_size_t_uint16 (x : Nat) :
    static_cast_size_t (static_cast_uint16 x) = x % 2 ^ 16 := by
  unfold static_cast_size_t static_cast_uint16
  exact Nat.mod_eq_of_lt (lt_of_lt_of_le (Nat.mod_lt _ (by norm_num)) (by norm_num))

/-- C22: `PatchKey(a, b, c, d, e)` has `get_object_instance_index() = a mod 2^32`,
`get_patch_index_object() = b mod 2^32`, `get_patch_index_tree() = c mod 2^32`,
`get_patch_pa() = d mod 2^16` and `get_patch_type() = e mod 2^16`; each getter returns
its argument when the argument fits the width of the field; and
`set_patch_index_tree(t)` makes `get_patch_index_tree() = t mod 2^32` and leaves the
other four getters unchanged. -/
theorem patch_key_getters (a b c d e t : Nat) :
    ((PatchKey.create a b c d e).get_object_instance_index = a % 2 ^ 32
      ∧ (PatchKey.create a b c d e).get_patch_index_object = b % 2 ^ 32
      ∧ (PatchKey.create a b c d e).get_patch_index_tree = c % 2 ^ 32
      ∧ (PatchKey.create a b c d e).get_patch_pa = d % 2 ^ 16
      ∧ (PatchKey.create a b c d e).get_patch_type = e % 2 ^ 16)
    ∧ ((a < 2 ^ 32 → (PatchKey.create a b c d e).get_object_instance_index = a)
      ∧ (b < 2 ^ 32 → (PatchKey.create a b c d e).get_patch_index_object = b)
      ∧ (c < 2 ^ 32 → (PatchKey.create a b c d e).get_patch_index_tree = c)
      ∧ (d < 2 ^ 16 → (PatchKey.create a b c d e).get_patch_pa = d)
      ∧ (e < 2 ^ 16 → (PatchKey.create a b c d e).get_patch_type = e))
    ∧ (((PatchKey.create a b c d e).set_patch_index_tree t).get_patch_index_tree
          = t % 2 ^ 32
      ∧ ((PatchKey.create a b c d e).set_patch_index_tree t).get_object_instance_index
          = (PatchKey.create a b c d e).get_object_instance_index
      ∧ ((PatchKey.create a b c d e).set_patch_index_tree t).get_patch_index_object
          = (PatchKey.create a b c d e).get_patch_index_object
      ∧ ((PatchKey.create a b c d e).set_patch_index_tree t).get_patch_pa
          = (PatchKey.create a b c d e).get_patch_pa
      ∧ ((PatchKey.create a b c d e).set_patch_index_tree t).get_patch_type
          = (PatchKey.create a b c d e).get_patch_type) := by
  refine ⟨⟨static_cast_size_t_uint32 a, static_cast_size_t_uint32 b,
      static_cast_size_t_uint32 c, static_cast_size_t_uint16 d, static_cast_size_t_uint16 e⟩,
    ⟨fun h => (static_cast_size_t_uint32 a).trans (Nat.mod_eq_of_lt h),
      fun h => (static_cast_size_t_uint32 b).trans (Nat.mod_eq_of_lt h),
      fun h => (static_cast_size_t_uint32 c).trans (Nat.mod_eq_of_lt h),
      fun h => (static_cast_size_t_uint16 d).trans (Nat.mod_eq_of_lt h),
      fun h => (static_cast_size_t_uint16 e).trans (Nat.mod_eq_of_lt h)⟩,
    ⟨static_cast_size_t_uint32 t, rfl, rfl, rfl, rfl⟩⟩

theorem patch_key_getters_witness :
    ((PatchKey.create (2 ^ 32 + 5) 7 (2 ^ 33 + 1) (2 ^ 16 + 3) 3).get_object_instance_index
        = 5
      ∧ (PatchKey.create (2 ^ 32 + 5) 7 (2 ^ 33 + 1) (2 ^ 16 + 3) 3).get_patch_index_object
        = 7
      ∧ (PatchKey.create (2 ^ 32 + 5) 7 (2 ^ 33 + 1) (2 ^ 16 + 3) 3).get_patch_index_tree
        = 1
      ∧ (PatchKey.create (2 ^ 32 + 5) 7 (2 ^ 33 + 1) (2 ^ 16 + 3) 3).get_patch_pa = 3
      ∧ (PatchKey.create (2 ^ 32 + 5) 7 (2 ^ 33 + 1) (2 ^ 16 + 3) 3).get_patch_type = 3)
    ∧ ((PatchKey.create (2 ^ 32 + 5) 7 (2 ^ 33 + 1) (2 ^ 16 + 3) 3).set_patch_index_tree
        (2 ^ 32 + 9)).get_patch_index_tree = 9 := by
  have h := patch_key_getters (2 ^ 32 + 5) 7 (2 ^ 33 + 1) (2 ^ 16 + 3) 3 (2 ^ 32 + 9)
  refine ⟨⟨?_, ?_, ?_, ?_, ?_⟩, ?_⟩
  · exact h.1.1.trans (by norm_num)
  · exact h.2.1.2.1 (by norm_num)
  · exact h.1.2.2.1.trans (by norm_num)
  · exact h.1.2.2.2.1.trans (by norm_num)
  · exact h.2.1.2.2.2.2 (by norm_num)
  · exact h.2.2.1.trans (by norm_num)

/-! ## The average radiance of an emitting shape -/

/-- C25: `estimate_average_radiance()` sets the average radiance to `1` and leaves every
other member unchanged; a shape returned by `create_triangle_shape`, `create_sphere_shape`
or `create_rect_shape` has average radiance `1`, shape probability `0` and the shape type
of its factory. -/
theorem estimate_average_radiance_frame (self mem : EmittingShape)
    (assembly_instance object_instance_index primitive_index material : Nat)
    (v0 v1 v2 n0 n1 n2 geometric_normal center p x y n : Vector3d) (radius : ℝ) :
    (self.estimate_average_radiance.get_average_radiance = 1
      ∧ self.estimate_average_radiance.get_shape_type = self.get_shape_type
      ∧ self.estimate_average_radiance.get_assembly_instance = self.get_assembly_instance
      ∧ self.estimate_average_radiance.get_object_instance_index
          = self.get_object_instance_index
      ∧ self.estimate_average_radiance.get_primitive_index = self.get_primitive_index
      ∧ self.estimate_average_radiance.m_geom = self.m_geom
      ∧ self.estimate_average_radiance.m_shape_support_plane = self.m_shape_support_plane
      ∧ self.estimate_average_radiance.get_area = self.get_area
      ∧ self.estimate_average_radiance.get_rcp_area = self.get_rcp_area
      ∧ self.estimate_average_radiance.get_shape_prob = self.get_shape_prob
      ∧ self.estimate_average_radiance.get_material = self.get_material)
    ∧ ((EmittingShape.create_triangle_shape mem assembly_instance object_instance_index
          primitive_index material v0 v1 v2 n0 n1 n2 geometric_normal).get_average_radiance
        = 1
      ∧ (EmittingShape.create_triangle_shape mem assembly_instance object_instance_index
          primitive_index material v0 v1 v2 n0 n1 n2 geometric_normal).get_shape_prob = 0
      ∧ (EmittingShape.create_triangle_shape mem assembly_instance object_instance_index
          primitive_index material v0 v1 v2 n0 n1 n2 geometric_normal).get_shape_type
        = ShapeType.TriangleShape)
    ∧ ((EmittingShape.create_sphere_shape mem assembly_instance object_instance_index
          material center radius).get_average_radiance = 1
      ∧ (EmittingShape.create_sphere_shape mem assembly_instance object_instance_index
          material center radius).get_shape_prob = 0
      ∧ (EmittingShape.create_sphere_shape mem assembly_instance object_instance_index
          material center radius).get_shape_type = ShapeType.SphereShape)
    ∧ ((EmittingShape.create_rect_shape mem assembly_instance object_instance_index
          material p x y n).get_average_radiance = 1
      ∧ (EmittingShape.create_rect_shape mem assembly_instance object_instance_index
          material p x y n).get_shape_prob = 0
      ∧ (EmittingShape.create_rect_shape mem assembly_instance object_instance_index
          material p x y n).get_shape_type = ShapeType.RectShape) := by
  refine ⟨⟨rfl, rfl, rfl, rfl, rfl, rfl, rfl, rfl, rfl, rfl, rfl⟩, ⟨rfl, rfl, rfl⟩, ?_, ?_⟩
  · simp only [EmittingShape.create_sphere_shape, EmittingShape.get_average_radiance,
      EmittingShape.get_shape_prob, EmittingShape.get_shape_type, EmittingShape.ctor]
    split_ifs <;> exact ⟨rfl, rfl, rfl⟩
  · simp only [EmittingShape.create_rect_shape, EmittingShape.get_average_radiance,
      EmittingShape.get_shape_prob, EmittingShape.get_shape_type, EmittingShape.ctor]
    split_ifs <;> exact ⟨rfl, rfl, rfl⟩

/-! ## sample_lightset and the shading point -/

/-- C26: `BackwardLightSampler::sample_lightset(time, s, shading_point, out)` gives the
same result for any two shading points, the result of
`sample_emitting_shapes(time, s, out)`. -/
theorem sample_lightset_ignores_shading_point (self : BackwardLightSampler) (time : ℝ)
    (s : Vector3d) (shading_point other_shading_point : ShadingPoint)
    (light_sample : LightSample) :
    self.sample_lightset time s shading_point light_sample
        = self.sample_lightset time s other_shading_point light_sample
    ∧ self.sample_lightset time s shading_point light_sample
        = self.sample_emitting_shapes time s light_sample := by
  constructor
  · simp only [BackwardLightSampler.sample_lightset]
  · simp only [BackwardLightSampler.sample_lightset]

/-! ## The rectangle sampler and the orientation of the normal -/

theorem flipped_z0 (z : ℝ) :
    (if -z > 0 then -z * (-1) else -z) = (if z > 0 then z * (-1) else z) := by
  rcases lt_trichotomy z 0 with h | h | h
  · rw [if_pos (by linarith), if_neg (by linarith)]
    ring
  · subst h
    simp
  · rw [if_neg (by linarith), if_pos h]
    ring

theorem flipped_z0_nonpos (z : ℝ) : (if z > 0 then z * (-1) else z) ≤ 0 := by
  split_ifs with h
  · linarith
  · linarith

theorem flipped_z0_smul (z : ℝ) (n : Vector3d) :
    (if z > 0 then z * (-1) else z) • (if z > 0 then (-1 : ℝ) • n else n) = z • n := by
  split_ifs with h
  · ext <;> simp only [Vector3d.smul_x, Vector3d.smul_y, Vector3d.smul_z] <;> ring
  · rfl

theorem flipped_z0_smul_neg (z : ℝ) (n : Vector3d) :
    (if z > 0 then z * (-1) else z) • (if -z > 0 then (-1 : ℝ) • (-n) else -n) = z • n := by
  rcases lt_trichotomy z 0 with h | h | h
  · rw [if_neg (by linarith), if_pos (by linarith)]
    ext <;> simp only [Vector3d.smul_x, Vector3d.smul_y, Vector3d.smul_z, Vector3d.neg_x,
      Vector3d.neg_y, Vector3d.neg_z] <;> ring
  · subst h
    simp only [gt_iff_lt, lt_self_iff_false, if_false, neg_zero]
    ext <;> simp only [Vector3d.smul_x, Vector3d.smul_y, Vector3d.smul_z, Vector3d.neg_x,
      Vector3d.neg_y, Vector3d.neg_z] <;> ring
  · rw [if_pos h, if_neg (by linarith)]
    ext <;> simp only [Vector3d.smul_x, Vector3d.smul_y, Vector3d.smul_z, Vector3d.neg_x,
      Vector3d.neg_y, Vector3d.neg_z] <;> ring

theorem dot_neg_right (a b : Vector3d) : dot a (-b) = -dot a b := by
  simp only [dot, Vector3d.neg_x, Vector3d.neg_y, Vector3d.neg_z]
  ring

/-- C27: the samplers built with the normals `n` and `-n` have the same solid angle and
the same sample for every `s`; the stored `m_z0` is at most `0`, and `m_z0 * m_z` is
`dot(origin - o, n) * n`. -/
theorem rectangle_sampler_normal_orientation (origin x y n o : Vector3d) (s : Vector2d) :
    (SphericalRectangleSampler.create origin x y (-n) o).solid_angle
        = (SphericalRectangleSampler.create origin x y n o).solid_angle
    ∧ (SphericalRectangleSampler.create origin x y (-n) o).sample s
        = (SphericalRectangleSampler.create origin x y n o).sample s
    ∧ (SphericalRectangleSampler.create origin x y n o).m_z0 ≤ 0
    ∧ (SphericalRectangleSampler.create origin x y n o).m_z0
          • (SphericalRectangleSampler.create origin x y n o).m_z
        = dot (origin - o) n • n := by
  refine ⟨?_, ?_, flipped_z0_nonpos _, flipped_z0_smul _ _⟩
  · simp only [SphericalRectangleSampler.create, SphericalRectangleSampler.solid_angle,
      dot_neg_right, flipped_z0]
  · simp only [SphericalRectangleSampler.create, SphericalRectangleSampler.sample,
      dot_neg_right, flipped_z0]
    rw [flipped_z0_smul, flipped_z0_smul_neg]

/-! ## The patch tree -/

theorem collect_patches_step_eq (state : PatchTree × List GAABB3)
    (object_instance : ObjectInstance) :
    PatchTree.collect_patches_step state object_instance = state := by
  unfold PatchTree.collect_patches_step
  split_ifs <;> rfl

theorem collect_patches_fold (object_instances : List ObjectInstance)
    (state : PatchTree × List GAABB3) :
    object_instances.foldl PatchTree.collect_patches_step state = state := by
  induction object_instances with
  | nil => rfl
  | cons head tail ih => rw [List.foldl_cons, collect_patches_step_eq, ih]

theorem collect_patches_eq (self : PatchTree) (patch_bboxes : List GAABB3) :
    self.collect_patches patch_bboxes = (self, patch_bboxes) :=
  collect_patches_fold _ _

/-- C23: the constructor of `PatchTree` throws `ExceptionNotImplemented` if and only if
the resolved parameter `algorithm` differs from `bvh`; when it is `bvh`, the default
value, the result is the tree built by `build_bvh`; and the accepted value `sbvh`
raises the exception. -/
theorem patch_tree_not_implemented (B : Bvh) (arguments : PatchTreeArguments) :
    (PatchTree.create B arguments = Except.error PatchTreeException.ExceptionNotImplemented
      ↔ PatchTree.resolved_algorithm arguments ≠ "bvh")
    ∧ (PatchTree.resolved_algorithm arguments = "bvh" →
        PatchTree.create B arguments
          = Except.ok
            (PatchTree.build_bvh
              { m_nodes := [], m_arguments := arguments, m_patch_keys := [] } B
              (arguments.m_assembly.get_parameters_child "acceleration_structure")
              ((arguments.m_assembly.get_parameters_child
                "acceleration_structure").get_optional_double "time" 0.5)))
    ∧ (PatchTree.resolved_algorithm arguments = "sbvh" →
        PatchTree.create B arguments
          = Except.error PatchTreeException.ExceptionNotImplemented) := by
  refine ⟨?_, ?_, ?_⟩
  · unfold PatchTree.create
    simp only []
    split_ifs with h
    · simp [h]
    · simp [h]
  · intro h
    unfold PatchTree.create
    simp only [h, if_true]
  · intro h
    unfold PatchTree.create
    simp only [h]
    rfl

theorem patch_tree_not_implemented_witness :
    PatchTree.create single_leaf_bvh (arguments_with_algorithm "sbvh")
        = Except.error PatchTreeException.ExceptionNotImplemented
    ∧ PatchTree.create single_leaf_bvh (arguments_with_algorithm "bvh")
        = Except.ok
          (PatchTree.build_bvh
            { m_nodes := [], m_arguments := arguments_with_algorithm "bvh",
              m_patch_keys := [] }
            single_leaf_bvh (params_with_algorithm "bvh") 0.5) :=
  ⟨(patch_tree_not_implemented single_leaf_bvh (arguments_with_algorithm "sbvh")).2.2
      (by decide),
    (patch_tree_not_implemented single_leaf_bvh (arguments_with_algorithm "bvh")).2.1
      (by decide)⟩

/-! ## The leaf visitors of the patch tree -/

theorem build_bvh_eq (self : PatchTree) (B : Bvh) (params : ParamArray) (time : ℝ) :
    self.build_bvh B params time
      = { self with
          m_nodes :=
            B.build self.m_nodes [] B.PatchTreeDefaultMaxLeafSize
              B.PatchTreeDefaultInteriorNodeTraversalCost
              B.PatchTreeDefaultPatchIntersectionCost 0 B.PatchTreeDefaultMaxLeafSize } := by
  unfold PatchTree.build_bvh
  simp only [collect_patches_eq]

theorem create_with_bvh :
    PatchTree.create single_leaf_bvh (arguments_with_algorithm "bvh")
      = Except.ok
        (PatchTree.build_bvh
          { m_nodes := [], m_arguments := arguments_with_algorithm "bvh", m_patch_keys := [] }
          single_leaf_bvh (params_with_algorithm "bvh") 0.5) := by
  have h : PatchTree.resolved_algorithm (arguments_with_algorithm "bvh") = "bvh" := by decide
  unfold PatchTree.create
  simp only [h, if_true]
  rfl

/-- C30: `PatchLeafProbeVisitor::visit` returns true, sets `distance` to `ray.m_tmax` and
leaves the hit flag as it was; `PatchLeafVisitor::visit` returns true, sets `distance` to
the `tmax` of the ray of the shading point and leaves the shading point as it was;
`collect_patches` leaves the bounding boxes and the patch keys as they were, so that
`build_bvh` gives the builder no bounding box and a constructed tree has no patch key. -/
theorem patch_leaf_visitors_continue (probe : PatchLeafProbeVisitor)
    (visitor : PatchLeafVisitor) (node : BvhNode) (ray : GRay3) (ray_info : GRayInfo3)
    (distance : ℝ) (self : PatchTree) (patch_bboxes : List GAABB3) (B : Bvh)
    (params : ParamArray) (time : ℝ) (arguments : PatchTreeArguments) :
    ((probe.visit node ray ray_info distance).m_continue = true
      ∧ (probe.visit node ray ray_info distance).m_distance = ray.m_tmax
      ∧ (probe.visit node ray ray_info distance).m_visitor.m_hit = probe.m_hit)
    ∧ ((visitor.visit node ray ray_info distance).m_continue = true
      ∧ (visitor.visit node ray ray_info distance).m_distance
          = visitor.m_shading_point.m_ray.m_tmax
      ∧ (visitor.visit node ray ray_info distance).m_visitor.m_shading_point
          = visitor.m_shading_point)
    ∧ self.collect_patches patch_bboxes = (self, patch_bboxes)
    ∧ ((self.build_bvh B params time).m_patch_keys = self.m_patch_keys
      ∧ (self.build_bvh B params time).m_nodes
          = B.build self.m_nodes [] B.PatchTreeDefaultMaxLeafSize
              B.PatchTreeDefaultInteriorNodeTraversalCost
              B.PatchTreeDefaultPatchIntersectionCost 0 B.PatchTreeDefaultMaxLeafSize)
    ∧ ∀ tree, PatchTree.create B arguments = Except.ok tree →
        tree.m_patch_keys = []
        ∧ tree.m_nodes
          = B.build [] [] B.PatchTreeDefaultMaxLeafSize
              B.PatchTreeDefaultInteriorNodeTraversalCost
              B.PatchTreeDefaultPatchIntersectionCost 0 B.PatchTreeDefaultMaxLeafSize := by
  refine ⟨⟨rfl, rfl, rfl⟩, ⟨rfl, rfl, rfl⟩, collect_patches_eq _ _, ?_, ?_⟩
  · rw [build_bvh_eq]
    exact ⟨rfl, rfl⟩
  · intro tree h
    unfold PatchTree.create at h
    simp only [] at h
    split_ifs at h with halg
    cases h
    rw [build_bvh_eq]
    exact ⟨rfl, rfl⟩

theorem patch_leaf_visitors_continue_witness :
    (PatchTree.build_bvh
        { m_nodes := [], m_arguments := arguments_with_algorithm "bvh", m_patch_keys := [] }
        single_leaf_bvh (params_with_algorithm "bvh") 0.5).m_patch_keys = []
    ∧ (PatchTree.build_bvh
        { m_nodes := [], m_arguments := arguments_with_algorithm "bvh", m_patch_keys := [] }
        single_leaf_bvh (params_with_algorithm "bvh") 0.5).m_nodes = [BvhNode.leaf 0 0] :=
  (patch_leaf_visitors_continue ⟨false, ⟨[], arguments_with_algorithm "bvh", []⟩, 0⟩
    ⟨⟨[], arguments_with_algorithm "bvh", []⟩, 0,
      ⟨⟨0⟩, ⟨0, ⟨0, 0, 1⟩, 0, 1, none, VisibilityFlags.CameraRay, 0⟩⟩⟩
    (BvhNode.leaf 0 0) ⟨0, ⟨0, 0, 1⟩, 0, 1⟩ ⟨⟨0, 0, 1⟩⟩ 0
    ⟨[], arguments_with_algorithm "bvh", []⟩ [] single_leaf_bvh
    (params_with_algorithm "bvh") 0.5 (arguments_with_algorithm "bvh")).2.2.2.2 _
    create_with_bvh

/-! ## The index arrays of mesh2mesh -/

/-- C29 fails on the code: for a mesh object with one triangle, three texture coordinates
and one vertex normal, the vertex-index array of `mesh2mesh` has nine entries, the
indices of the texture coordinates and of the normals having been appended to it, the
uv-index and normal-index arrays are empty, and the item `0` of key `1` of the normals
is the value left by `resize`, not the pose. -/
theorem mesh2mesh_index_arrays (fresh : Vector3d) :
    (mesh2mesh fresh one_triangle_object).m_vertex_indices = [0, 1, 2, 2, 1, 0, 0, 0, 0]
    ∧ (mesh2mesh fresh one_triangle_object).m_uv_indices = []
    ∧ (mesh2mesh fresh one_triangle_object).m_normal_indices = []
    ∧ (mesh2mesh fresh one_triangle_object).m_normals.m_keys = [[⟨0, 0, 1⟩], [fresh]]
    ∧ one_triangle_object.get_vertex_normal_pose 0 1 = ⟨0, 0, 1⟩ := by
  refine ⟨?_, ?_, ?_, ?_, ?_⟩ <;> rfl

/-! ## Z85 encoding of a key-framed array -/

theorem reference_z85_round_trip :
    reference_z85.z85_decode (reference_z85.z85_encode [0, 0, 0, 0]) = [0, 0, 0, 0]
    ∧ reference_z85.z85_decode (reference_z85.z85_encode [134, 79, 210, 111])
        = [134, 79, 210, 111]
    ∧ reference_z85.z85_encode [134, 79, 210, 111] = [72, 101, 108, 108, 111] := by
  decide

/-- C28 fails on the code: for the array of the two keys `00 00 00 00` and `86 4F D2 6F`
of four bytes each, the encoder writes the block of the second key at offset `4`, over the
last character of the block of the first key, and the decoded array differs from the
array: its first key is `00 00 00 2B`. -/
theorem z85_key_framed_round_trip_fails :
    z85_encode reference_z85 two_key_array
        = some [48, 48, 48, 48, 72, 101, 108, 108, 111, 0]
    ∧ (z85_decode reference_z85 ArrayType.UInt32Type 1 2
          [48, 48, 48, 48, 72, 101, 108, 108, 111, 0]).get_key 0
        = some ⟨ArrayType.UInt32Type, [0, 0, 0, 43]⟩
    ∧ (z85_encode reference_z85 two_key_array).map
          (z85_decode reference_z85 ArrayType.UInt32Type 1 2) ≠ some two_key_array := by
  decide

/-! ## Idempotence of InstanceTree::update -/

theorem lookup_map_pair {β : Type} (l : List Nat) (f : Nat → β) (u : Nat) (h : u ∈ l) :
    List.lookup u (l.map fun v => (v, f v)) = some (f u) := by
  induction l with
  | nil => cases h
  | cons a tail ih =>
    rw [List.map_cons, List.lookup_cons]
    by_cases hua : u = a
    · subst hua
      simp
    · have hne : (u == a) = false := by simpa using hua
      rw [hne]
      rcases List.mem_cons.mp h with h1 | h1
      · exact absurd h1 hua
      · exact ih h1

theorem kept_triangle_tree_update (build_nodes : List AABB3d → List BvhNode) (scene : Scene)
    (self : InstanceTree) (uid : Nat)
    (h : uid ∈ InstanceTree.collect_unique_assemblies scene) :
    (InstanceTree.update build_nodes scene self).kept_triangle_tree scene uid
      = some ((self.kept_triangle_tree scene uid).getD
          ⟨uid, scene.get_assembly_version uid⟩) := by
  unfold InstanceTree.kept_triangle_tree InstanceTree.update
  simp only []
  rw [lookup_map_pair _ _ uid h, if_pos rfl, lookup_map_pair _ _ uid h]
  rfl

theorem instance_tree_eq {a b : InstanceTree} (h1 : a.m_nodes = b.m_nodes)
    (h2 : a.m_bboxes = b.m_bboxes) (h3 : a.m_items = b.m_items)
    (h4 : a.m_assembly_versions = b.m_assembly_versions)
    (h5 : a.m_triangle_trees = b.m_triangle_trees)
    (h6 : a.m_rebuild_count = b.m_rebuild_count) : a = b := by
  cases a
  cases b
  simp only [InstanceTree.mk.injEq]
  exact ⟨h1, h2, h3, h4, h5, h6⟩

theorem update_m_nodes (build_nodes : List AABB3d → List BvhNode) (scene : Scene)
    (self : InstanceTree) :
    (InstanceTree.update build_nodes scene self).m_nodes
      = if InstanceTree.collect_assembly_instances scene ≠ self.m_bboxes then
          build_nodes (InstanceTree.collect_assembly_instances scene)
        else self.m_nodes := rfl

theorem update_m_triangle_trees (build_nodes : List AABB3d → List BvhNode) (scene : Scene)
    (self : InstanceTree) :
    (InstanceTree.update build_nodes scene self).m_triangle_trees
      = (InstanceTree.collect_unique_assemblies scene).map fun uid =>
          (uid, (self.kept_triangle_tree scene uid).getD
            ⟨uid, scene.get_assembly_version uid⟩) := rfl

theorem update_m_rebuild_count (build_nodes : List AABB3d → List BvhNode) (scene : Scene)
    (self : InstanceTree) :
    (InstanceTree.update build_nodes scene self).m_rebuild_count
      = self.m_rebuild_count
        + (if InstanceTree.collect_assembly_instances scene ≠ self.m_bboxes then 1 else 0)
        + ((InstanceTree.collect_unique_assemblies scene).filter fun uid =>
            (self.kept_triangle_tree scene uid).isNone).length := rfl

/-- C24: `InstanceTree::update()` is idempotent: a second call with the same scene builds
no tree (the rebuild counter stays) and leaves the nodes, the items, the version map and
the triangle trees as they are. -/
theorem instance_tree_update_idempotent (build_nodes : List AABB3d → List BvhNode)
    (scene : Scene) (self : InstanceTree) :
    InstanceTree.update build_nodes scene (InstanceTree.update build_nodes scene self)
      = InstanceTree.update build_nodes scene self := by
  have hkept := kept_triangle_tree_update build_nodes scene self
  have hbboxes : (InstanceTree.update build_nodes scene self).m_bboxes
      = InstanceTree.collect_assembly_instances scene := rfl
  apply instance_tree_eq
  · rw [update_m_nodes build_nodes scene (InstanceTree.update build_nodes scene self),
      hbboxes, if_neg (not_not.mpr rfl)]
  · rfl
  · rfl
  · rfl
  · rw [update_m_triangle_trees build_nodes scene (InstanceTree.update build_nodes scene self),
      update_m_triangle_trees build_nodes scene self]
    apply List.map_congr_left
    intro uid huid
    rw [hkept uid huid]
    rfl
  · rw [update_m_rebuild_count build_nodes scene (InstanceTree.update build_nodes scene self),
      hbboxes, if_neg (not_not.mpr rfl)]
    have hcount : ((InstanceTree.collect_unique_assemblies scene).filter fun uid =>
        ((InstanceTree.update build_nodes scene self).kept_triangle_tree scene uid).isNone)
        = [] := by
      rw [List.filter_eq_nil_iff]
      intro uid huid
      rw [hkept uid huid]
      simp
    rw [hcount]
    rfl

/-- The update on a concrete scene: the first update builds the instance tree and the two
triangle trees, an update after the version of one assembly changed creates one triangle
tree anew, and a repeated update builds nothing. -/
theorem instance_tree_update_counts :
    (InstanceTree.update single_leaf_nodes (three_instance_scene 1)
        InstanceTree.empty).m_rebuild_count = 3
    ∧ (InstanceTree.update single_leaf_nodes (three_instance_scene 2)
        (InstanceTree.update single_leaf_nodes (three_instance_scene 1)
          InstanceTree.empty)).m_rebuild_count = 4
    ∧ (InstanceTree.update single_leaf_nodes (three_instance_scene 1)
        (InstanceTree.update single_leaf_nodes (three_instance_scene 1)
          InstanceTree.empty)).m_rebuild_count = 3
    ∧ (InstanceTree.update single_leaf_nodes (three_instance_scene 1)
        InstanceTree.empty).m_triangle_trees = [(20, ⟨20, 1⟩), (10, ⟨10, 1⟩)] := by
  decide

/-! ## The area of a sphere or a rectangle, narrowed to float -/

theorem create_sphere_shape_eq_float (mem : EmittingShape)
    (assembly_instance object_instance_index material : Nat) (center : Vector3d)
    (radius : ℝ) :
    EmittingShape.create_sphere_shape mem assembly_instance object_instance_index material
        center radius
      = EmittingShape.create_sphere_shape_float (fun area => area) mem assembly_instance
          object_instance_index material center radius := rfl

theorem create_rect_shape_eq_float (mem : EmittingShape)
    (assembly_instance object_instance_index material : Nat) (p x y n : Vector3d) :
    EmittingShape.create_rect_shape mem assembly_instance object_instance_index material
        p x y n
      = EmittingShape.create_rect_shape_float (fun area => area) mem assembly_instance
          object_instance_index material p x y n := rfl

end Appleseed
